import Mathlib

/-!
Verification development for the Vila-Caiz club management core.

The definitions below are a shallow embedding of `src/app/services.py`,
`src/app/storage.py` and `src/app/models.py`:

* Python `date` objects become the `Club.Date` structure; the chronological
  order on dates is the lexicographic order on (year, month, day).
* Python floats used for money (`amount` fields) become `ℚ`; the claims under
  consideration only use exact comparisons (equality, `> 0`) on amounts, never
  float rounding.
* The persisted JSON document (`storage.DEFAULT_STRUCTURE` plus the
  `treatments` / `match_plans` collections created by the service) becomes the
  `Club.Doc` structure, with one typed list per collection.  Records stored by
  the service itself are always well-typed, so collection items are modelled by
  the typed record structures rather than raw JSON maps; the raw-JSON
  behaviour of `storage.next_id` (claim about missing / non-numeric ids) is
  modelled separately with the `Club.JVal` type.
* Every service method persists the document after each mutation, so the
  operations are modelled as `Doc → Doc × Except String α`: the first
  component is the document as last persisted when the call returns or
  raises, the second is the returned value or the raised error message
  (the code raises `ValueError` uniformly; errors are identified by message).
-/

namespace Club

/-- Python `datetime.date`: year, month, day. -/
structure Date where
  year : Nat
  month : Nat
  day : Nat
deriving DecidableEq, Repr

/-- Chronological strict order on dates (Python date `<`). -/
def Date.lt (a b : Date) : Bool :=
  a.year < b.year ∨ (a.year = b.year ∧ (a.month < b.month ∨ (a.month = b.month ∧ a.day < b.day)))

/-- Chronological non-strict order on dates (Python date `<=`). -/
def Date.ble (a b : Date) : Bool := a = b ∨ Date.lt a b

/-- Money amounts (Python floats used exactly: equality and sign only). -/
abbrev Amount := ℚ

/-- Embeds `models.Season`. -/
structure Season where
  id : Int
  name : String
  start_date : Date
  end_date : Date
  notes : Option String := none
deriving DecidableEq, Repr

/-- Embeds `models.Player` (a `Person` subclass; fields in dataclass order). -/
structure Player where
  id : Int
  name : String
  birthdate : Option Date := none
  contact : Option String := none
  photo_url : Option String := none
  season_id : Option Int := none
  position : String := ""
  squad : String := "senior"
  shirt_number : Option Int := none
  af_porto_id : Option String := none
  youth_monthly_fee : Option Amount := none
  youth_monthly_paid : Bool := false
  youth_kit_fee : Option Amount := none
  youth_kit_paid : Bool := false
  youth_monthly_revenue_id : Option Int := none
  youth_kit_revenue_id : Option Int := none
deriving DecidableEq, Repr

/-- Embeds `models.Coach`. -/
structure Coach where
  id : Int
  name : String
  birthdate : Option Date := none
  contact : Option String := none
  photo_url : Option String := none
  season_id : Option Int := none
  role : String := "Head Coach"
  license_level : Option String := none
deriving DecidableEq, Repr

/-- Embeds `models.Physiotherapist`. -/
structure Physiotherapist where
  id : Int
  name : String
  birthdate : Option Date := none
  contact : Option String := none
  photo_url : Option String := none
  season_id : Option Int := none
  specialization : Option String := none
deriving DecidableEq, Repr

/-- Embeds `models.Treatment`. -/
structure Treatment where
  id : Int
  player_id : Int
  physio_id : Option Int := none
  diagnosis : String := ""
  treatment_plan : String := ""
  start_date : Date
  expected_return : Option Date := none
  unavailable : Bool := true
  notes : Option String := none
  season_id : Option Int := none
deriving DecidableEq, Repr

/-- Embeds `models.MatchPlan`. -/
structure MatchPlan where
  id : Int
  squad : String
  match_date : Date
  kickoff_time : Option String := none
  venue : Option String := none
  opponent : String := ""
  competition : Option String := none
  coach_id : Option Int := none
  notes : Option String := none
  starters : List Int := []
  substitutes : List Int := []
  season_id : Option Int := none
deriving DecidableEq, Repr

/-- Embeds `models.YouthTeam`. -/
structure YouthTeam where
  id : Int
  name : String
  age_group : String
  coach_id : Option Int := none
  player_ids : List Int := []
  season_id : Option Int := none
deriving DecidableEq, Repr

/-- Embeds `models.MembershipType`. -/
structure MembershipType where
  id : Int
  name : String
  amount : Amount
  frequency : String := "Mensal"
  description : Option String := none
  season_id : Option Int := none
deriving DecidableEq, Repr

/-- Embeds `models.Member`. -/
structure Member where
  id : Int
  name : String
  birthdate : Option Date := none
  contact : Option String := none
  photo_url : Option String := none
  season_id : Option Int := none
  member_number : Option Int := none
  membership_type : String := "standard"
  membership_type_id : Option Int := none
  dues_paid : Bool := false
  dues_paid_until : Option String := none
  membership_since : Option Date := none
deriving DecidableEq, Repr

/-- Embeds `models.MembershipPayment`. -/
structure MembershipPayment where
  id : Int
  member_id : Int
  membership_type_id : Option Int := none
  amount : Amount
  period : String
  paid_on : Date
  notes : Option String := none
  season_id : Option Int := none
deriving DecidableEq, Repr

/-- Embeds `models.Revenue` (a `FinancialRecord` subclass, fields flattened). -/
structure Revenue where
  id : Int
  description : String
  amount : Amount
  category : String
  record_date : Date
  season_id : Option Int := none
  source : Option String := none
deriving DecidableEq, Repr

/-- Embeds `models.Expense` (a `FinancialRecord` subclass, fields flattened). -/
structure Expense where
  id : Int
  description : String
  amount : Amount
  category : String
  record_date : Date
  season_id : Option Int := none
  vendor : Option String := none
deriving DecidableEq, Repr

/-- The persisted document: `storage.DEFAULT_STRUCTURE` together with the
`treatments` and `match_plans` collections that the service creates via
`setdefault`.  All collections default to empty, `active_season_id` to null. -/
structure Doc where
  seasons : List Season := []
  active_season_id : Option Int := none
  players : List Player := []
  coaches : List Coach := []
  physiotherapists : List Physiotherapist := []
  youth_teams : List YouthTeam := []
  members : List Member := []
  membership_types : List MembershipType := []
  membership_payments : List MembershipPayment := []
  revenues : List Revenue := []
  expenses : List Expense := []
  treatments : List Treatment := []
  match_plans : List MatchPlan := []
deriving DecidableEq, Repr

/-- The empty document (fresh storage file, `storage.DEFAULT_STRUCTURE`). -/
def emptyDoc : Doc := {}

instance exceptDecEq {ε α : Type} [DecidableEq ε] [DecidableEq α] :
    DecidableEq (Except ε α) := fun x y =>
  match x, y with
  | Except.ok a, Except.ok b =>
    if h : a = b then isTrue (by rw [h])
    else isFalse (by intro hc; cases hc; exact h rfl)
  | Except.error a, Except.error b =>
    if h : a = b then isTrue (by rw [h])
    else isFalse (by intro hc; cases hc; exact h rfl)
  | Except.ok _, Except.error _ => isFalse (by intro hc; cases hc)
  | Except.error _, Except.ok _ => isFalse (by intro hc; cases hc)

/-- Embeds `storage.next_id` on the list of integer ids of a collection whose items
all carry a numeric `id` (the documents written by the service itself):
maximum of the existing ids (starting from 0) plus one. -/
def nextId (ids : List Int) : Int := ids.foldl max 0 + 1

/-- Embeds `ClubService._find_entity`: first item of the collection whose id matches. -/
def findById {α : Type} (getId : α → Int) (i : Int) : List α → Option α
  | [] => none
  | x :: xs => if getId x = i then some x else findById getId i xs

/-- Embeds `ClubService._update_entity`: update the first item whose id matches,
returning the new collection and the updated item; `none` when absent. -/
def updateById {α : Type} (getId : α → Int) (i : Int) (f : α → α) :
    List α → Option (List α × α)
  | [] => none
  | x :: xs =>
    if getId x = i then some (f x :: xs, f x)
    else (updateById getId i f xs).map (fun r => (x :: r.1, r.2))

/-- Embeds `ClubService._remove_entity`: delete the first item whose id matches;
`none` when absent. -/
def removeById {α : Type} (getId : α → Int) (i : Int) : List α → Option (List α)
  | [] => none
  | x :: xs =>
    if getId x = i then some xs
    else (removeById getId i xs).map (fun r => x :: r)

/-- Fixed category label `services.YOUTH_REVENUE_CATEGORY`. -/
def YOUTH_REVENUE_CATEGORY : String := "Camadas Jovens"

/-- Fixed source label `services.YOUTH_MONTHLY_SOURCE`. -/
def YOUTH_MONTHLY_SOURCE : String := "Mensalidade Formação"

/-- Fixed source label `services.YOUTH_KIT_SOURCE`. -/
def YOUTH_KIT_SOURCE : String := "Kit de Treino Formação"

/-- Embeds Python `str.strip()` (whitespace removed at both ends), computed
on the character list (the built-in `String.trim` is not kernel-reducible,
which would block evaluation of witnesses). -/
def pyStrip (s : String) : String :=
  String.mk (((s.data.dropWhile Char.isWhitespace).reverse.dropWhile
    Char.isWhitespace).reverse)

/-- Embeds Python `str.lower()` (character-wise lowering; the squad labels
compared with it are ASCII). -/
def pyLower (s : String) : String := String.mk (s.data.map Char.toLower)

/-- Character of a decimal digit. -/
def digitChar (n : Nat) : Char := Char.ofNat (48 + n)

/-- Digit value of a character, when it is a decimal digit. -/
def charDigit (c : Char) : Option Nat :=
  if 48 ≤ c.toNat ∧ c.toNat ≤ 57 then some (c.toNat - 48) else none

/-- Embeds `ClubService._is_youth_squad` on a present squad string:
lowercased membership in `services.YOUTH_SQUADS`. -/
def isYouthSquadStr (s : String) : Bool :=
  pyLower s = "juniores" || pyLower s = "juvenis" ||
    pyLower s = "iniciados" || pyLower s = "infantis"

/-- Truth of the Python test `amount is None or amount <= 0`. -/
def amountBad : Option Amount → Bool
  | none => true
  | some a => decide (a ≤ 0)

/-- The Python idiom `value or None` on an optional string (empty string
becomes null). -/
def pyOrNone : Option String → Option String
  | none => none
  | some s => if s = "" then none else some s

/-- The Python idiom `v.strip() if isinstance(v, str) and v.strip() else None`
(used for kickoff time, venue, competition and notes in match plans). -/
def pyCleanOpt : Option String → Option String
  | none => none
  | some s => if pyStrip s = "" then none else some (pyStrip s)

/-- The Python idiom `v.strip() if v else None` (used for competition and
notes in `update_match_plan`): a non-empty string is stripped even if the
result is empty; empty or null becomes null. -/
def pyStripOrNone : Option String → Option String
  | none => none
  | some s => if s = "" then none else some (pyStrip s)

/-- Helper for `pyTitle`: the boolean argument records whether the previous
character was alphabetic. -/
def pyTitleGo : Bool → List Char → List Char
  | _, [] => []
  | prevAlpha, c :: cs =>
    (if c.isAlpha then (if prevAlpha then c.toLower else c.toUpper) else c) ::
      pyTitleGo c.isAlpha cs

/-- Embeds Python `str.title()` (used for the squad label inside youth revenue
descriptions). -/
def pyTitle (s : String) : String := String.mk (pyTitleGo false s.data)

/-- Embeds `ClubService.add_revenue`; `active` is the resolved active season
id. Never raises. -/
def addRevenue (doc : Doc) (active : Int) (description : String) (amount : Amount)
    (category : String) (record_date : Date) (source : Option String) :
    Doc × Revenue :=
  let rev : Revenue :=
    { id := nextId (doc.revenues.map (fun r => r.id)), description := description,
      amount := amount, category := category, record_date := record_date,
      source := source, season_id := some active }
  ({ doc with revenues := doc.revenues ++ [rev] }, rev)

/-- The record merge `update_revenue` applies: provided fields override, the
rest are kept (a provided null source is kept as-is by the code's
`if source is not None` guard being false — modeled by the `none` branch). -/
def revenueUpdater (description : Option String) (amount : Option Amount)
    (category : Option String) (record_date : Option Date)
    (source : Option String) (r : Revenue) : Revenue :=
  { r with
    description := description.getD r.description,
    amount := amount.getD r.amount,
    category := category.getD r.category,
    record_date := record_date.getD r.record_date,
    source := match source with | some s => some s | none => r.source }

/-- Embeds `ClubService.update_revenue`: merge the provided fields into the
first revenue whose id matches; raises when the id is absent. -/
def updateRevenue (doc : Doc) (revenue_id : Int) (description : Option String)
    (amount : Option Amount) (category : Option String) (record_date : Option Date)
    (source : Option String) : Doc × Except String Revenue :=
  match updateById (fun r => r.id) revenue_id
      (revenueUpdater description amount category record_date source)
      doc.revenues with
  | some l => ({ doc with revenues := l.1 }, Except.ok l.2)
  | none => (doc, Except.error ("Revenue with id not found"))

/-- Embeds `ClubService.remove_revenue`. -/
def removeRevenue (doc : Doc) (revenue_id : Int) : Doc × Except String Unit :=
  match removeById (fun r => r.id) revenue_id doc.revenues with
  | some l => ({ doc with revenues := l }, Except.ok ())
  | none => (doc, Except.error ("Revenue with id not found"))

/-- Embeds `ClubService._sync_youth_revenue`.  Returns the document after any
revenue mutation together with the new value for the player's revenue link
(`None` when the fee is unpaid, missing or non-positive). -/
def syncYouthRevenue (today : Date) (doc : Doc) (active : Int) (player_id : Int)
    (player_name squad : String) (amount : Option Amount) (paid : Bool)
    (existing_revenue_id : Option Int) (description_label source_label : String) :
    Doc × Option Int :=
  if !paid || amountBad amount then
    match existing_revenue_id with
    | some rid => ((removeRevenue doc rid).1, none)
    | none => (doc, none)
  else
    match amount with
    | none => (doc, none)
    | some a =>
      let nm0 := pyStrip player_name
      let nm := if nm0 = "" then "Jogador #" ++ toString player_id else nm0
      let description := description_label ++ " - " ++ nm ++ " (" ++ pyTitle squad ++ ")"
      let addNew : Doc × Option Int :=
        let r := addRevenue doc active description a YOUTH_REVENUE_CATEGORY today
          (some source_label)
        (r.1, some r.2.id)
      match existing_revenue_id with
      | some rid =>
        match updateRevenue doc rid (some description) (some a)
            (some YOUTH_REVENUE_CATEGORY) (some today) (some source_label) with
        | (doc2, Except.ok rev) => (doc2, some rev.id)
        | (_, Except.error _) => addNew
      | none => addNew

/-- Embeds `ClubService.add_player`. -/
def addPlayer (today : Date) (doc : Doc) (name position squad : String)
    (birthdate : Option Date) (contact : Option String) (shirt_number : Option Int)
    (af_porto_id photo_url : Option String)
    (youth_monthly_fee : Option Amount) (youth_monthly_paid : Bool)
    (youth_kit_fee : Option Amount) (youth_kit_paid : Bool) :
    Doc × Except String Player :=
  match doc.active_season_id with
  | none => (doc, Except.error ("Nenhuma época ativa definida"))
  | some active =>
    let is_youth := isYouthSquadStr squad
    let monthly_fee := if is_youth then youth_monthly_fee else none
    let kit_fee := if is_youth then youth_kit_fee else none
    let monthly_paid := if is_youth then youth_monthly_paid else false
    let kit_paid := if is_youth then youth_kit_paid else false
    if is_youth && monthly_paid && amountBad monthly_fee then
      (doc, Except.error ("Indique um valor para a mensalidade antes de a marcar como paga."))
    else if is_youth && kit_paid && amountBad kit_fee then
      (doc, Except.error ("Indique um valor para o kit de treino antes de o marcar como pago."))
    else
      let player : Player :=
        { id := nextId (doc.players.map (fun p => p.id)), name := name,
          position := position, squad := squad, birthdate := birthdate,
          contact := contact, shirt_number := shirt_number,
          af_porto_id := af_porto_id, photo_url := pyOrNone photo_url,
          season_id := some active,
          youth_monthly_fee := monthly_fee, youth_monthly_paid := monthly_paid,
          youth_kit_fee := kit_fee, youth_kit_paid := kit_paid }
      let doc1 := { doc with players := doc.players ++ [player] }
      if is_youth then
        let m := syncYouthRevenue today doc1 active player.id name squad monthly_fee
          monthly_paid none YOUTH_MONTHLY_SOURCE YOUTH_MONTHLY_SOURCE
        let k := syncYouthRevenue today m.1 active player.id name squad kit_fee
          kit_paid none YOUTH_KIT_SOURCE YOUTH_KIT_SOURCE
        if m.2.isSome || k.2.isSome then
          let upd : Player → Player := fun p =>
            let p1 := match m.2 with
              | some r => { p with youth_monthly_revenue_id := some r }
              | none => p
            match k.2 with
            | some r => { p1 with youth_kit_revenue_id := some r }
            | none => p1
          match updateById (fun p => p.id) player.id upd k.1.players with
          | some l => ({ k.1 with players := l.1 }, Except.ok l.2)
          | none => (k.1, Except.error ("Player with id not found"))
        else (k.1, Except.ok player)
      else (doc1, Except.ok player)

/-- Embeds `ClubService.update_player`.  Parameters of Python type
`Optional[X] = None` become `Option X` (null means "not provided"); parameters
defaulting to the `UNSET` sentinel become `Option (Option X)` (outer layer:
provided at all; inner layer: the provided value, possibly null). -/
def updatePlayer (today : Date) (doc : Doc) (player_id : Int)
    (name position squad : Option String) (birthdate : Option Date)
    (contact : Option String) (shirt_number : Option Int)
    (af_porto_id photo_url : Option (Option String))
    (youth_monthly_fee : Option (Option Amount)) (youth_monthly_paid : Option Bool)
    (youth_kit_fee : Option (Option Amount)) (youth_kit_paid : Option Bool) :
    Doc × Except String Player :=
  match doc.active_season_id with
  | none => (doc, Except.error ("Nenhuma época ativa definida"))
  | some active =>
  match findById (fun p => p.id) player_id doc.players with
  | none => (doc, Except.error ("Jogador não encontrado"))
  | some record =>
    let final_name := name.getD record.name
    let fs0 := squad.getD record.squad
    let final_squad := if fs0 = "" then "senior" else fs0
    let is_youth := isYouthSquadStr final_squad
    let fm0 := match youth_monthly_fee with
      | none => record.youth_monthly_fee
      | some v => v
    let fk0 := match youth_kit_fee with
      | none => record.youth_kit_fee
      | some v => v
    let fmp0 := match youth_monthly_paid with
      | none => record.youth_monthly_paid
      | some b => b
    let fkp0 := match youth_kit_paid with
      | none => record.youth_kit_paid
      | some b => b
    let final_monthly_fee := if is_youth then fm0 else none
    let final_kit_fee := if is_youth then fk0 else none
    let final_monthly_paid := if is_youth then fmp0 else false
    let final_kit_paid := if is_youth then fkp0 else false
    if is_youth && final_monthly_paid && amountBad final_monthly_fee then
      (doc, Except.error ("Indique um valor para a mensalidade antes de a marcar como paga."))
    else if is_youth && final_kit_paid && amountBad final_kit_fee then
      (doc, Except.error ("Indique um valor para o kit de treino antes de o marcar como pago."))
    else
      let m := syncYouthRevenue today doc active player_id final_name final_squad
        final_monthly_fee final_monthly_paid record.youth_monthly_revenue_id
        YOUTH_MONTHLY_SOURCE YOUTH_MONTHLY_SOURCE
      let k := syncYouthRevenue today m.1 active player_id final_name final_squad
        final_kit_fee final_kit_paid record.youth_kit_revenue_id
        YOUTH_KIT_SOURCE YOUTH_KIT_SOURCE
      let upd : Player → Player := fun p =>
        { p with
          name := name.getD p.name,
          position := position.getD p.position,
          squad := squad.getD p.squad,
          birthdate := match birthdate with | some b => some b | none => p.birthdate,
          contact := match contact with | some c => some c | none => p.contact,
          shirt_number := match shirt_number with | some n => some n | none => p.shirt_number,
          af_porto_id := match af_porto_id with | some v => pyOrNone v | none => p.af_porto_id,
          photo_url := match photo_url with | some v => pyOrNone v | none => p.photo_url,
          youth_monthly_fee := final_monthly_fee,
          youth_monthly_paid := final_monthly_paid,
          youth_kit_fee := final_kit_fee,
          youth_kit_paid := final_kit_paid,
          youth_monthly_revenue_id := m.2,
          youth_kit_revenue_id := k.2 }
      match updateById (fun p => p.id) player_id upd k.1.players with
      | some l => ({ k.1 with players := l.1 }, Except.ok l.2)
      | none => (k.1, Except.error ("Jogador não encontrado"))

/-- Embeds `ClubService.remove_player`: delete the linked youth revenue
records (missing links are ignored), prune the player from every match plan's
starters and substitutes, delete every treatment referencing the player, then
delete the player itself. -/
def removePlayer (doc : Doc) (player_id : Int) : Doc × Except String Unit :=
  match findById (fun p => p.id) player_id doc.players with
  | none => (doc, Except.error ("Jogador não encontrado"))
  | some record =>
    let docA : Doc := match record.youth_monthly_revenue_id with
      | some rid => (removeRevenue doc rid).1
      | none => doc
    let docB : Doc := match record.youth_kit_revenue_id with
      | some rid => (removeRevenue docA rid).1
      | none => docA
    let docC := { docB with match_plans := docB.match_plans.map (fun (plan : MatchPlan) =>
      { plan with
        starters := plan.starters.filter (fun pid => pid ≠ player_id),
        substitutes := plan.substitutes.filter (fun pid => pid ≠ player_id) }) }
    let docD := { docC with treatments :=
      docC.treatments.filter (fun t => t.player_id ≠ player_id) }
    match removeById (fun p => p.id) player_id docD.players with
    | some l => ({ docD with players := l }, Except.ok ())
    | none => (docD, Except.error ("Jogador não encontrado"))

/-- Ids of the players returned by `ClubService.list_players` (the
`_list_entities` filter keeps the records of the active season). -/
def activePlayerIds (doc : Doc) (active : Int) : List Int :=
  (doc.players.filter (fun p => p.season_id = some active)).map (fun p => p.id)

/-- Loop body of `ClubService._normalize_player_selection`: `seen` collects
ids already emitted, `excl` is the exclusion set, `valid` the ids of the
players of the active season. -/
def normGo (valid excl : List Int) : List Int → List Int → List Int
  | _, [] => []
  | seen, x :: xs =>
    if x ∈ excl ∨ x ∈ seen then normGo valid excl seen xs
    else if x ∈ valid then x :: normGo valid excl (x :: seen) xs
    else normGo valid excl seen xs

/-- Embeds `ClubService._normalize_player_selection` for integer inputs. -/
def normalizePlayerSelection (doc : Doc) (active : Int) (excl input : List Int) :
    List Int :=
  normGo (activePlayerIds doc active) excl [] input

/-- Embeds `ClubService.create_match_plan`. -/
def createMatchPlan (doc : Doc) (squad : String) (match_date : Date)
    (kickoff_time venue : Option String) (opponent : String)
    (competition notes : Option String) (starters substitutes : List Int) :
    Doc × Except String MatchPlan :=
  match doc.active_season_id with
  | none => (doc, Except.error ("Nenhuma época ativa definida"))
  | some active =>
    let cs0 := pyStrip squad
    let clean_squad := if cs0 = "" then "senior" else cs0
    let starter_ids := normalizePlayerSelection doc active [] starters
    let substitute_ids := normalizePlayerSelection doc active starter_ids substitutes
    let kickoff_clean := pyCleanOpt kickoff_time
    let venue_clean := pyCleanOpt venue
    let opponent_clean := pyStrip opponent
    if kickoff_clean = none then
      (doc, Except.error ("Indique uma hora válida para o jogo."))
    else if venue_clean = none then
      (doc, Except.error ("Indique um local válido para o jogo."))
    else if opponent_clean = "" then
      (doc, Except.error ("Indique um adversário válido para o plano de jogo."))
    else
      let plan : MatchPlan :=
        { id := nextId (doc.match_plans.map (fun p => p.id)), squad := clean_squad,
          match_date := match_date, kickoff_time := kickoff_clean,
          venue := venue_clean, opponent := opponent_clean,
          competition := pyCleanOpt competition, notes := pyCleanOpt notes,
          starters := starter_ids, substitutes := substitute_ids,
          season_id := some active }
      ({ doc with match_plans := doc.match_plans ++ [plan] }, Except.ok plan)

/-- The record update `update_match_plan` applies through its `updates` dict:
provided fields override (with the same cleaning as in the code), the rest
are kept. -/
def matchPlanUpdater (squad : Option String) (match_date : Option Date)
    (kickoff_time venue : Option (Option String)) (opponent : Option String)
    (competition notes : Option (Option String))
    (new_starters new_subs : Option (List Int)) (p : MatchPlan) : MatchPlan :=
  { p with
    squad := match squad with
      | some s => if pyStrip s = "" then "senior" else pyStrip s
      | none => p.squad,
    match_date := match_date.getD p.match_date,
    kickoff_time := match kickoff_time with
      | some kt => pyCleanOpt kt
      | none => p.kickoff_time,
    venue := match venue with | some v => pyCleanOpt v | none => p.venue,
    opponent := match opponent with | some o => pyStrip o | none => p.opponent,
    competition := match competition with
      | some c => pyStripOrNone c
      | none => p.competition,
    notes := match notes with | some n => pyStripOrNone n | none => p.notes,
    starters := match new_starters with | some l => l | none => p.starters,
    substitutes := match new_subs with | some l => l | none => p.substitutes }

/-- Embeds `ClubService.update_match_plan` (UNSET-sentinel parameters become
`Option (Option _)` as in `updatePlayer`; `starters` / `substitutes` of Python
type `Optional[Iterable]` become `Option (List Int)`). -/
def updateMatchPlan (doc : Doc) (plan_id : Int) (squad : Option String)
    (match_date : Option Date) (kickoff_time venue : Option (Option String))
    (opponent : Option String) (competition notes : Option (Option String))
    (starters substitutes : Option (List Int)) : Doc × Except String MatchPlan :=
  match doc.active_season_id with
  | none => (doc, Except.error ("Nenhuma época ativa definida"))
  | some active =>
  match findById (fun p => p.id) plan_id doc.match_plans with
  | none => (doc, Except.error ("Plano de jogo não encontrado"))
  | some record =>
    if kickoff_time.isSome ∧ pyCleanOpt (kickoff_time.getD none) = none then
      (doc, Except.error ("Indique uma hora válida para o jogo."))
    else if venue.isSome ∧ pyCleanOpt (venue.getD none) = none then
      (doc, Except.error ("Indique um local válido para o jogo."))
    else if opponent.isSome ∧ pyStrip (opponent.getD "") = "" then
      (doc, Except.error ("Indique um adversário válido para o plano de jogo."))
    else
      let new_starters := starters.map (normalizePlayerSelection doc active [])
      let subsInput : Option (List Int) :=
        match substitutes with
        | some l => some l
        | none => match starters with
          | some _ => some record.substitutes
          | none => none
      let exclIds : List Int := match new_starters with
        | some l => l
        | none => record.starters
      let new_subs := subsInput.map (normalizePlayerSelection doc active exclIds)
      let upd : MatchPlan → MatchPlan :=
        matchPlanUpdater squad match_date kickoff_time venue opponent competition
          notes new_starters new_subs
      match updateById (fun p => p.id) plan_id upd doc.match_plans with
      | some l => ({ doc with match_plans := l.1 }, Except.ok l.2)
      | none => (doc, Except.error ("Plano de jogo não encontrado"))

/-- Embeds `ClubService.register_membership_payment`. -/
def registerMembershipPayment (doc : Doc) (member_id : Int) (amount : Amount)
    (period : String) (paid_on : Date) (membership_type_id : Option Int)
    (notes : Option String) : Doc × Except String MembershipPayment :=
  match doc.active_season_id with
  | none => (doc, Except.error ("Nenhuma época ativa definida"))
  | some active =>
  match findById (fun m => m.id) member_id doc.members with
  | none => (doc, Except.error ("Member with id not found"))
  | some member =>
    if member.season_id.isSome ∧ member.season_id ≠ some active then
      (doc, Except.error ("Só é possível registar pagamentos para sócios da época ativa."))
    else
      let typeLookup : Except String String :=
        match membership_type_id with
        | none => Except.ok member.membership_type
        | some tid =>
          match findById (fun t => t.id) tid doc.membership_types with
          | none => Except.error ("Membership type with id not found")
          | some t => Except.ok t.name
      match typeLookup with
      | Except.error e => (doc, Except.error e)
      | Except.ok membership_type_name =>
        let pay : MembershipPayment :=
          { id := nextId (doc.membership_payments.map (fun q => q.id)),
            member_id := member_id, membership_type_id := membership_type_id,
            amount := amount, period := period, paid_on := paid_on,
            notes := notes, season_id := some active }
        let doc1 := { doc with membership_payments := doc.membership_payments ++ [pay] }
        let updMember : Member → Member := fun mm =>
          let mm1 := { mm with dues_paid := true, dues_paid_until := some period }
          let mm2 := if membership_type_id.isSome ∧ membership_type_name ≠ "" then
              { mm1 with membership_type_id := membership_type_id,
                         membership_type := membership_type_name }
            else mm1
          if member.membership_since = none then
            { mm2 with membership_since := some paid_on }
          else mm2
        match updateById (fun m => m.id) member_id updMember doc1.members with
        | none => (doc1, Except.error ("Member with id not found"))
        | some l =>
          let doc2 := { doc1 with members := l.1 }
          let member_number : Int := match member.member_number with
            | some n => if n = 0 then member.id else n
            | none => member.id
          let description := if membership_type_name ≠ "" then
              "Quota " ++ membership_type_name
            else "Quota"
          let descriptor := description ++ " - " ++ member.name ++ " (#" ++
            toString member_number ++ ")"
          let doc3 := (addRevenue doc2 active descriptor amount "Quotas de Sócios"
            paid_on (some "Sócios")).1
          (doc3, Except.ok pay)

/-- First element of a non-empty payment list maximising `paid_on` (Python
`max(..., key=...)` keeps the first maximal element). -/
def maxByPaidOn (q : MembershipPayment) (qs : List MembershipPayment) :
    MembershipPayment :=
  qs.foldl (fun acc x => if Date.lt acc.paid_on x.paid_on then x else acc) q

/-- The remaining payments of a member matching the member's season, as
filtered by `remove_membership_payment` when recomputing the dues projection
(a null member season matches every payment). -/
def remainingPayments (payments : List MembershipPayment) (member_id : Int)
    (member_season : Option Int) : List MembershipPayment :=
  payments.filter (fun q =>
    decide (q.member_id = member_id) &&
      (match member_season with
       | none => true
       | some ms => decide (q.season_id.getD 0 = ms)))

/-- Embeds `ClubService.remove_membership_payment`: the returned document is
the state as last persisted (the payment deletion is persisted before the
member projection update, which can still raise when the member is absent). -/
def removeMembershipPayment (doc : Doc) (payment_id : Int) :
    Doc × Except String Unit :=
  match findById (fun q => q.id) payment_id doc.membership_payments with
  | none => (doc, Except.error ("Membership payment with id not found"))
  | some pay =>
    let member_id := pay.member_id
    let doc1 := { doc with membership_payments :=
      doc.membership_payments.filter (fun q => q.id ≠ payment_id) }
    if member_id = 0 then (doc1, Except.ok ())
    else
      let member_season : Option Int :=
        match findById (fun m => m.id) member_id doc1.members with
        | some m => m.season_id
        | none => none
      let remaining := remainingPayments doc1.membership_payments member_id member_season
      let dues_paid_until : Option String := match remaining with
        | [] => none
        | q :: qs => some (maxByPaidOn q qs).period
      match updateById (fun m => m.id) member_id
          (fun m => { m with dues_paid := !remaining.isEmpty,
                             dues_paid_until := dues_paid_until }) doc1.members with
      | some l => ({ doc1 with members := l.1 }, Except.ok ())
      | none => (doc1, Except.error ("Member with id not found"))

/-- Embeds `ClubService.remove_season` (the active season id is required to be
resolved, as `ClubService.__init__` guarantees after setup). -/
def removeSeason (doc : Doc) (season_id : Int) : Doc × Except String Unit :=
  match doc.active_season_id with
  | none => (doc, Except.error ("Nenhuma época ativa definida"))
  | some active =>
  if season_id = active then
    (doc, Except.error ("Não é possível eliminar a época ativa."))
  else
    match removeById (fun s => s.id) season_id doc.seasons with
    | none => (doc, Except.error ("Época com id não encontrada"))
    | some seasons2 =>
      ({ doc with
         seasons := seasons2,
         players := doc.players.filter (fun r => r.season_id.getD 0 ≠ season_id),
         coaches := doc.coaches.filter (fun r => r.season_id.getD 0 ≠ season_id),
         physiotherapists :=
           doc.physiotherapists.filter (fun r => r.season_id.getD 0 ≠ season_id),
         youth_teams := doc.youth_teams.filter (fun r => r.season_id.getD 0 ≠ season_id),
         members := doc.members.filter (fun r => r.season_id.getD 0 ≠ season_id),
         membership_types :=
           doc.membership_types.filter (fun r => r.season_id.getD 0 ≠ season_id),
         membership_payments :=
           doc.membership_payments.filter (fun r => r.season_id.getD 0 ≠ season_id),
         revenues := doc.revenues.filter (fun r => r.season_id.getD 0 ≠ season_id),
         expenses := doc.expenses.filter (fun r => r.season_id.getD 0 ≠ season_id),
         treatments := doc.treatments.filter (fun r => r.season_id.getD 0 ≠ season_id),
         match_plans :=
           doc.match_plans.filter (fun r => r.season_id.getD 0 ≠ season_id) },
       Except.ok ())

/-- Season-id repair of `ClubService._assign_missing_season_ids` on one
record: a null or zero season reference is stamped with the active id. -/
def stampSeason (a : Int) : Option Int → Option Int
  | none => some a
  | some s => if s = 0 then some a else some s

/-- Embeds `ClubService._assign_missing_season_ids` over all season-scoped
collections. -/
def assignMissingSeasonIds (doc : Doc) (a : Int) : Doc :=
  { doc with
    players := doc.players.map (fun r => { r with season_id := stampSeason a r.season_id }),
    coaches := doc.coaches.map (fun r => { r with season_id := stampSeason a r.season_id }),
    physiotherapists :=
      doc.physiotherapists.map (fun r => { r with season_id := stampSeason a r.season_id }),
    youth_teams :=
      doc.youth_teams.map (fun r => { r with season_id := stampSeason a r.season_id }),
    members := doc.members.map (fun r => { r with season_id := stampSeason a r.season_id }),
    membership_types :=
      doc.membership_types.map (fun r => { r with season_id := stampSeason a r.season_id }),
    membership_payments :=
      doc.membership_payments.map (fun r => { r with season_id := stampSeason a r.season_id }),
    revenues := doc.revenues.map (fun r => { r with season_id := stampSeason a r.season_id }),
    expenses := doc.expenses.map (fun r => { r with season_id := stampSeason a r.season_id }),
    treatments :=
      doc.treatments.map (fun r => { r with season_id := stampSeason a r.season_id }),
    match_plans :=
      doc.match_plans.map (fun r => { r with season_id := stampSeason a r.season_id }) }

/-- Embeds `ClubService._ensure_season_setup`, with "today" passed in
explicitly.  The returned document is the persisted state (any change made by
the method is persisted before it returns). -/
def ensureSeasonSetup (today : Date) (doc : Doc) : Doc :=
  let created : List Season × Option Int :=
    if doc.seasons.isEmpty then
      let start_year := if today.month ≥ 7 then today.year else today.year - 1
      let s : Season :=
        { id := nextId [],
          name := "Época " ++ toString start_year ++ "/" ++ toString (start_year + 1),
          start_date := { year := start_year, month := 7, day := 1 },
          end_date := { year := start_year + 1, month := 6, day := 30 },
          notes := none }
      ([s], some s.id)
    else (doc.seasons, doc.active_season_id)
  let seasons := created.1
  let active_int : Option Int :=
    match seasons with
    | [] => created.2
    | s0 :: _ =>
      match created.2 with
      | none => some s0.id
      | some a => if seasons.all (fun s => s.id ≠ a) then some s0.id else some a
  let doc2 := { doc with seasons := seasons, active_season_id := active_int }
  match active_int with
  | none => doc2
  | some a => assignMissingSeasonIds doc2 a

/-- Insert an integer into a strictly-sorted duplicate-free list, keeping it
strictly sorted and duplicate-free (building block for Python
`sorted(set(...))`). -/
def insortedInsert (x : Int) : List Int → List Int
  | [] => [x]
  | y :: ys =>
    if x < y then x :: y :: ys
    else if x = y then y :: ys
    else y :: insortedInsert x ys

/-- Embeds Python `sorted(set(l))`: the strictly increasing enumeration of the
distinct elements of `l`. -/
def pySortedSet (l : List Int) : List Int := l.foldr insortedInsert []

/-- Embeds `ClubService.assign_player_to_team`.  Note the code performs no
existence check on `player_id`. -/
def assignPlayerToTeam (doc : Doc) (team_id player_id : Int) :
    Doc × Except String YouthTeam :=
  match doc.active_season_id with
  | none => (doc, Except.error ("Nenhuma época ativa definida"))
  | some active =>
  match findById (fun t => t.id) team_id doc.youth_teams with
  | none => (doc, Except.error ("Youth team with id not found"))
  | some team =>
    if team.season_id.isSome ∧ team.season_id ≠ some active then
      (doc, Except.error ("Apenas é possível gerir equipas da época ativa."))
    else
      match updateById (fun t => t.id) team_id
          (fun t => { t with player_ids := pySortedSet (player_id :: t.player_ids) })
          doc.youth_teams with
      | some l => ({ doc with youth_teams := l.1 }, Except.ok l.2)
      | none => (doc, Except.error ("Youth team with id not found"))

/-! Raw-JSON model of `storage.next_id`: stored records may carry a missing,
numeric or non-numeric `id` field, and Python `int(...)` raises on
non-numeric values. -/

/-- A stored JSON scalar as it can appear in the `id` field of a raw record. -/
inductive JVal where
  | jint (n : Int)
  | jstr (s : String)
  | jnull
deriving DecidableEq, Repr

/-- Digits-to-number accumulator for decimal literals. -/
def digitsToNat (acc : Nat) : List Char → Option Nat
  | [] => some acc
  | c :: cs =>
    match charDigit c with
    | some d => digitsToNat (acc * 10 + d) cs
    | none => none

/-- Decimal parse of a nonempty all-digit character list. -/
def parseNatDigits : List Char → Option Nat
  | [] => none
  | c :: cs => digitsToNat 0 (c :: cs)

/-- Python `int(str)` on a stripped decimal literal with optional leading
minus sign; `none` when the string is not a decimal literal. -/
def pyIntOfString (s : String) : Option Int :=
  match (pyStrip s).data with
  | '-' :: rest => (parseNatDigits rest).map (fun n => -(n : Int))
  | l => (parseNatDigits l).map (fun n => (n : Int))

/-- Python `int(...)` conversion on a stored scalar: integers pass through,
decimal strings are parsed, anything else (null, non-numeric string) raises. -/
def pyInt : JVal → Except String Int
  | JVal.jint n => Except.ok n
  | JVal.jstr s =>
    match pyIntOfString s with
    | some n => Except.ok n
    | none => Except.error ("invalid literal for int with base 10")
  | JVal.jnull => Except.error ("int argument must not be NoneType")

/-- Loop of `storage.next_id` over raw records, threading the running
maximum. -/
def nextIdRawGo (maxId : Int) : List (Option JVal) → Except String Int
  | [] => Except.ok (maxId + 1)
  | v :: vs =>
    match pyInt (v.getD (JVal.jint 0)) with
    | Except.ok n => nextIdRawGo (max maxId n) vs
    | Except.error e => Except.error e

/-- Embeds `storage.next_id` on raw records, each represented by its `id`
field (`none` when the key is missing; `item.get("id", 0)` defaults it to the
integer 0). -/
def nextIdRaw (items : List (Option JVal)) : Except String Int := nextIdRawGo 0 items

/-! Entity codec (`storage.serialize_entity` / `storage.instantiate`):
persisted records carry dates as ISO-8601 strings, nulls for absent optional
fields. -/

/-- Four-digit zero-padded rendering (ISO year). -/
def pad4 (n : Nat) : List Char :=
  [digitChar (n / 1000), digitChar (n / 100 % 10), digitChar (n / 10 % 10), digitChar (n % 10)]

/-- Two-digit zero-padded rendering (ISO month and day). -/
def pad2 (n : Nat) : List Char := [digitChar (n / 10), digitChar (n % 10)]

/-- Embeds `date.isoformat()`: the YYYY-MM-DD rendering of a date. -/
def Date.iso (d : Date) : String :=
  String.mk (pad4 d.year ++ ( '-' :: pad2 d.month) ++ ( '-' :: pad2 d.day))

/-- Gregorian leap year test (as in Python `calendar.isleap`). -/
def isLeapYear (y : Nat) : Bool := y % 4 = 0 && (y % 100 ≠ 0 || y % 400 = 0)

/-- Number of days of a month. -/
def daysInMonth (y m : Nat) : Nat :=
  if m = 2 then (if isLeapYear y then 29 else 28)
  else if m = 4 ∨ m = 6 ∨ m = 9 ∨ m = 11 then 30
  else 31

/-- Valid Gregorian dates representable by Python `datetime.date`. -/
def Date.Valid (d : Date) : Prop :=
  1 ≤ d.year ∧ d.year ≤ 9999 ∧ 1 ≤ d.month ∧ d.month ≤ 12 ∧
    1 ≤ d.day ∧ d.day ≤ daysInMonth d.year d.month

instance decidableDateValid (d : Date) : Decidable d.Valid := by
  unfold Date.Valid
  infer_instance

/-- Parse four decimal digits. -/
def parse4 (a b c e : Char) : Option Nat := do
  let x ← charDigit a
  let y ← charDigit b
  let z ← charDigit c
  let w ← charDigit e
  pure (x * 1000 + y * 100 + z * 10 + w)

/-- Parse two decimal digits. -/
def parse2 (a b : Char) : Option Nat := do
  let x ← charDigit a
  let y ← charDigit b
  pure (x * 10 + y)

/-- Embeds `date.fromisoformat` on the canonical YYYY-MM-DD layout, together
with the range validation performed by the `date` constructor. -/
def Date.fromIso (s : String) : Option Date :=
  match s.data with
  | [y1, y2, y3, y4, h1, m1, m2, h2, d1, d2] =>
    if h1 = '-' ∧ h2 = '-' then
      match parse4 y1 y2 y3 y4, parse2 m1 m2, parse2 d1 d2 with
      | some y, some m, some d =>
        if Date.Valid { year := y, month := m, day := d } then
          some { year := y, month := m, day := d }
        else none
      | _, _, _ => none
    else none
  | _ => none

/-- Decoding of an optional date-annotated field in `storage.instantiate`:
null stays null, an empty string becomes null (`if value:` is false), a
non-empty string must parse as an ISO date. -/
def decodeOptDate : Option String → Option (Option Date)
  | none => some none
  | some s => if s = "" then some none else (Date.fromIso s).map some

/-- Decoding of a mandatory date-annotated field of `storage.instantiate`
(the empty-string case, where Python would silently store `None` into a
non-optional field, is treated as a decode failure here; it cannot arise from
serialized entities since `Date.iso` is never empty). -/
def decodeDate (s : String) : Option Date :=
  if s = "" then none else Date.fromIso s

/-- Persisted record of a `Season` (dates as ISO strings). -/
structure SeasonRec where
  id : Int
  name : String
  start_date : String
  end_date : String
  notes : Option String
deriving DecidableEq, Repr

/-- Embeds `storage.serialize_entity` on a `Season` (via `Season.to_dict`). -/
def serializeSeason (e : Season) : SeasonRec :=
  { id := e.id, name := e.name, start_date := e.start_date.iso,
    end_date := e.end_date.iso, notes := e.notes }

/-- Embeds `storage.instantiate models.Season`. -/
def instantiateSeason (r : SeasonRec) : Option Season := do
  let sd ← decodeDate r.start_date
  let ed ← decodeDate r.end_date
  pure { id := r.id, name := r.name, start_date := sd, end_date := ed,
         notes := r.notes }

/-- Persisted record of a `Player`. -/
structure PlayerRec where
  id : Int
  name : String
  birthdate : Option String
  contact : Option String
  photo_url : Option String
  season_id : Option Int
  position : String
  squad : String
  shirt_number : Option Int
  af_porto_id : Option String
  youth_monthly_fee : Option Amount
  youth_monthly_paid : Bool
  youth_kit_fee : Option Amount
  youth_kit_paid : Bool
  youth_monthly_revenue_id : Option Int
  youth_kit_revenue_id : Option Int
deriving DecidableEq, Repr

/-- Embeds `storage.serialize_entity` on a `Player` (via `Person.to_dict`). -/
def serializePlayer (e : Player) : PlayerRec :=
  { id := e.id, name := e.name, birthdate := e.birthdate.map Date.iso,
    contact := e.contact, photo_url := e.photo_url, season_id := e.season_id,
    position := e.position, squad := e.squad, shirt_number := e.shirt_number,
    af_porto_id := e.af_porto_id, youth_monthly_fee := e.youth_monthly_fee,
    youth_monthly_paid := e.youth_monthly_paid, youth_kit_fee := e.youth_kit_fee,
    youth_kit_paid := e.youth_kit_paid,
    youth_monthly_revenue_id := e.youth_monthly_revenue_id,
    youth_kit_revenue_id := e.youth_kit_revenue_id }

/-- Embeds `storage.instantiate models.Player`. -/
def instantiatePlayer (r : PlayerRec) : Option Player := do
  let bd ← decodeOptDate r.birthdate
  pure { id := r.id, name := r.name, birthdate := bd, contact := r.contact,
         photo_url := r.photo_url, season_id := r.season_id,
         position := r.position, squad := r.squad,
         shirt_number := r.shirt_number, af_porto_id := r.af_porto_id,
         youth_monthly_fee := r.youth_monthly_fee,
         youth_monthly_paid := r.youth_monthly_paid,
         youth_kit_fee := r.youth_kit_fee, youth_kit_paid := r.youth_kit_paid,
         youth_monthly_revenue_id := r.youth_monthly_revenue_id,
         youth_kit_revenue_id := r.youth_kit_revenue_id }

/-- Persisted record of a `Coach`. -/
structure CoachRec where
  id : Int
  name : String
  birthdate : Option String
  contact : Option String
  photo_url : Option String
  season_id : Option Int
  role : String
  license_level : Option String
deriving DecidableEq, Repr

/-- Embeds `storage.serialize_entity` on a `Coach`. -/
def serializeCoach (e : Coach) : CoachRec :=
  { id := e.id, name := e.name, birthdate := e.birthdate.map Date.iso,
    contact := e.contact, photo_url := e.photo_url, season_id := e.season_id,
    role := e.role, license_level := e.license_level }

/-- Embeds `storage.instantiate models.Coach`. -/
def instantiateCoach (r : CoachRec) : Option Coach := do
  let bd ← decodeOptDate r.birthdate
  pure { id := r.id, name := r.name, birthdate := bd, contact := r.contact,
         photo_url := r.photo_url, season_id := r.season_id, role := r.role,
         license_level := r.license_level }

/-- Persisted record of a `Physiotherapist`. -/
structure PhysiotherapistRec where
  id : Int
  name : String
  birthdate : Option String
  contact : Option String
  photo_url : Option String
  season_id : Option Int
  specialization : Option String
deriving DecidableEq, Repr

/-- Embeds `storage.serialize_entity` on a `Physiotherapist`. -/
def serializePhysiotherapist (e : Physiotherapist) : PhysiotherapistRec :=
  { id := e.id, name := e.name, birthdate := e.birthdate.map Date.iso,
    contact := e.contact, photo_url := e.photo_url, season_id := e.season_id,
    specialization := e.specialization }

/-- Embeds `storage.instantiate models.Physiotherapist`. -/
def instantiatePhysiotherapist (r : PhysiotherapistRec) : Option Physiotherapist := do
  let bd ← decodeOptDate r.birthdate
  pure { id := r.id, name := r.name, birthdate := bd, contact := r.contact,
         photo_url := r.photo_url, season_id := r.season_id,
         specialization := r.specialization }

/-- Persisted record of a `Treatment`. -/
structure TreatmentRec where
  id : Int
  player_id : Int
  physio_id : Option Int
  diagnosis : String
  treatment_plan : String
  start_date : String
  expected_return : Option String
  unavailable : Bool
  notes : Option String
  season_id : Option Int
deriving DecidableEq, Repr

/-- Embeds `storage.serialize_entity` on a `Treatment` (via
`Treatment.to_dict`: `start_date` always rendered, `expected_return` rendered
when present). -/
def serializeTreatment (e : Treatment) : TreatmentRec :=
  { id := e.id, player_id := e.player_id, physio_id := e.physio_id,
    diagnosis := e.diagnosis, treatment_plan := e.treatment_plan,
    start_date := e.start_date.iso,
    expected_return := e.expected_return.map Date.iso,
    unavailable := e.unavailable, notes := e.notes, season_id := e.season_id }

/-- Embeds `storage.instantiate models.Treatment`. -/
def instantiateTreatment (r : TreatmentRec) : Option Treatment := do
  let sd ← decodeDate r.start_date
  let er ← decodeOptDate r.expected_return
  pure { id := r.id, player_id := r.player_id, physio_id := r.physio_id,
         diagnosis := r.diagnosis, treatment_plan := r.treatment_plan,
         start_date := sd, expected_return := er,
         unavailable := r.unavailable, notes := r.notes,
         season_id := r.season_id }

/-- Persisted record of a `MatchPlan`. -/
structure MatchPlanRec where
  id : Int
  squad : String
  match_date : String
  kickoff_time : Option String
  venue : Option String
  opponent : String
  competition : Option String
  coach_id : Option Int
  notes : Option String
  starters : List Int
  substitutes : List Int
  season_id : Option Int
deriving DecidableEq, Repr

/-- Embeds `storage.serialize_entity` on a `MatchPlan`. -/
def serializeMatchPlan (e : MatchPlan) : MatchPlanRec :=
  { id := e.id, squad := e.squad, match_date := e.match_date.iso,
    kickoff_time := e.kickoff_time, venue := e.venue, opponent := e.opponent,
    competition := e.competition, coach_id := e.coach_id, notes := e.notes,
    starters := e.starters, substitutes := e.substitutes,
    season_id := e.season_id }

/-- Embeds `storage.instantiate models.MatchPlan`. -/
def instantiateMatchPlan (r : MatchPlanRec) : Option MatchPlan := do
  let md ← decodeDate r.match_date
  pure { id := r.id, squad := r.squad, match_date := md,
         kickoff_time := r.kickoff_time, venue := r.venue,
         opponent := r.opponent, competition := r.competition,
         coach_id := r.coach_id, notes := r.notes, starters := r.starters,
         substitutes := r.substitutes, season_id := r.season_id }

/-- Persisted record of a `YouthTeam` (no date-typed fields). -/
structure YouthTeamRec where
  id : Int
  name : String
  age_group : String
  coach_id : Option Int
  player_ids : List Int
  season_id : Option Int
deriving DecidableEq, Repr

/-- Embeds `storage.serialize_entity` on a `YouthTeam`. -/
def serializeYouthTeam (e : YouthTeam) : YouthTeamRec :=
  { id := e.id, name := e.name, age_group := e.age_group,
    coach_id := e.coach_id, player_ids := e.player_ids,
    season_id := e.season_id }

/-- Embeds `storage.instantiate models.YouthTeam`. -/
def instantiateYouthTeam (r : YouthTeamRec) : Option YouthTeam :=
  some { id := r.id, name := r.name, age_group := r.age_group,
         coach_id := r.coach_id, player_ids := r.player_ids,
         season_id := r.season_id }

/-- Persisted record of a `MembershipType` (no date-typed fields). -/
structure MembershipTypeRec where
  id : Int
  name : String
  amount : Amount
  frequency : String
  description : Option String
  season_id : Option Int
deriving DecidableEq, Repr

/-- Embeds `storage.serialize_entity` on a `MembershipType`. -/
def serializeMembershipType (e : MembershipType) : MembershipTypeRec :=
  { id := e.id, name := e.name, amount := e.amount, frequency := e.frequency,
    description := e.description, season_id := e.season_id }

/-- Embeds `storage.instantiate models.MembershipType`. -/
def instantiateMembershipType (r : MembershipTypeRec) : Option MembershipType :=
  some { id := r.id, name := r.name, amount := r.amount,
         frequency := r.frequency, description := r.description,
         season_id := r.season_id }

/-- Persisted record of a `Member`. -/
structure MemberRec where
  id : Int
  name : String
  birthdate : Option String
  contact : Option String
  photo_url : Option String
  season_id : Option Int
  member_number : Option Int
  membership_type : String
  membership_type_id : Option Int
  dues_paid : Bool
  dues_paid_until : Option String
  membership_since : Option String
deriving DecidableEq, Repr

/-- Embeds `storage.serialize_entity` on a `Member` (via `Person.to_dict`,
which renders every date-valued field). -/
def serializeMember (e : Member) : MemberRec :=
  { id := e.id, name := e.name, birthdate := e.birthdate.map Date.iso,
    contact := e.contact, photo_url := e.photo_url, season_id := e.season_id,
    member_number := e.member_number, membership_type := e.membership_type,
    membership_type_id := e.membership_type_id, dues_paid := e.dues_paid,
    dues_paid_until := e.dues_paid_until,
    membership_since := e.membership_since.map Date.iso }

/-- Embeds `storage.instantiate models.Member`. -/
def instantiateMember (r : MemberRec) : Option Member := do
  let bd ← decodeOptDate r.birthdate
  let ms ← decodeOptDate r.membership_since
  pure { id := r.id, name := r.name, birthdate := bd, contact := r.contact,
         photo_url := r.photo_url, season_id := r.season_id,
         member_number := r.member_number,
         membership_type := r.membership_type,
         membership_type_id := r.membership_type_id, dues_paid := r.dues_paid,
         dues_paid_until := r.dues_paid_until, membership_since := ms }

/-- Persisted record of a `MembershipPayment`. -/
structure MembershipPaymentRec where
  id : Int
  member_id : Int
  membership_type_id : Option Int
  amount : Amount
  period : String
  paid_on : String
  notes : Option String
  season_id : Option Int
deriving DecidableEq, Repr

/-- Embeds `storage.serialize_entity` on a `MembershipPayment`. -/
def serializeMembershipPayment (e : MembershipPayment) : MembershipPaymentRec :=
  { id := e.id, member_id := e.member_id,
    membership_type_id := e.membership_type_id, amount := e.amount,
    period := e.period, paid_on := e.paid_on.iso, notes := e.notes,
    season_id := e.season_id }

/-- Embeds `storage.instantiate models.MembershipPayment`. -/
def instantiateMembershipPayment (r : MembershipPaymentRec) :
    Option MembershipPayment := do
  let po ← decodeDate r.paid_on
  pure { id := r.id, member_id := r.member_id,
         membership_type_id := r.membership_type_id, amount := r.amount,
         period := r.period, paid_on := po, notes := r.notes,
         season_id := r.season_id }

/-- Persisted record of a `Revenue`. -/
structure RevenueRec where
  id : Int
  description : String
  amount : Amount
  category : String
  record_date : String
  season_id : Option Int
  source : Option String
deriving DecidableEq, Repr

/-- Embeds `storage.serialize_entity` on a `Revenue`. -/
def serializeRevenue (e : Revenue) : RevenueRec :=
  { id := e.id, description := e.description, amount := e.amount,
    category := e.category, record_date := e.record_date.iso,
    season_id := e.season_id, source := e.source }

/-- Embeds `storage.instantiate models.Revenue`. -/
def instantiateRevenue (r : RevenueRec) : Option Revenue := do
  let rd ← decodeDate r.record_date
  pure { id := r.id, description := r.description, amount := r.amount,
         category := r.category, record_date := rd, season_id := r.season_id,
         source := r.source }

/-- Persisted record of an `Expense`. -/
structure ExpenseRec where
  id : Int
  description : String
  amount : Amount
  category : String
  record_date : String
  season_id : Option Int
  vendor : Option String
deriving DecidableEq, Repr

/-- Embeds `storage.serialize_entity` on an `Expense`. -/
def serializeExpense (e : Expense) : ExpenseRec :=
  { id := e.id, description := e.description, amount := e.amount,
    category := e.category, record_date := e.record_date.iso,
    season_id := e.season_id, vendor := e.vendor }

/-- Embeds `storage.instantiate models.Expense`. -/
def instantiateExpense (r : ExpenseRec) : Option Expense := do
  let rd ← decodeDate r.record_date
  pure { id := r.id, description := r.description, amount := r.amount,
         category := r.category, record_date := rd, season_id := r.season_id,
         vendor := r.vendor }

/-! Predicates used by the claim statements. -/

/-- Well-formedness of one collection: pairwise distinct ids. -/
def IdsNodup {α : Type} (getId : α → Int) (l : List α) : Prop :=
  (l.map getId).Nodup

/-- Number of revenue records of the document carrying the given id. -/
def revCount (doc : Doc) (rid : Int) : Nat :=
  (doc.revenues.filter (fun r => decide (r.id = rid))).length

/-- The youth-fee condition of claim C1 for one fee kind of one player: the
squad is a youth squad, the paid flag is set and the fee amount is positive. -/
def FeeEarned (squad : String) (paid : Bool) (fee : Option Amount) : Prop :=
  isYouthSquadStr squad = true ∧ paid = true ∧ ∃ a, fee = some a ∧ 0 < a

/-- Per-kind conclusion of the youth fee synchronization invariant (claim
C1): when the fee is earned the link references exactly one revenue record
with the fee's amount and the fixed category and source labels; otherwise the
link is null. -/
def YouthKindInv (doc : Doc) (squad : String) (paid : Bool) (fee : Option Amount)
    (link : Option Int) (srcLabel : String) : Prop :=
  (FeeEarned squad paid fee →
    ∃ rid, link = some rid ∧ revCount doc rid = 1 ∧
      ∀ r ∈ doc.revenues, r.id = rid →
        some r.amount = fee ∧ r.category = YOUTH_REVENUE_CATEGORY ∧
          r.source = some srcLabel) ∧
  (¬FeeEarned squad paid fee → link = none)

/-- Pre-state hypothesis for the update part of claim C1 (the invariant the
claim itself maintains, restricted to the updated player): each non-null
revenue link references a revenue record of the document bearing the fee
kind's source label, and the two links differ. -/
def PlayerLinksWf (doc : Doc) (rec : Player) : Prop :=
  (∀ rid, rec.youth_monthly_revenue_id = some rid →
     ∃ r, r ∈ doc.revenues ∧ r.id = rid ∧ r.source = some YOUTH_MONTHLY_SOURCE) ∧
  (∀ rid, rec.youth_kit_revenue_id = some rid →
     ∃ r, r ∈ doc.revenues ∧ r.id = rid ∧ r.source = some YOUTH_KIT_SOURCE) ∧
  (∀ r1 r2, rec.youth_monthly_revenue_id = some r1 →
     rec.youth_kit_revenue_id = some r2 → r1 ≠ r2)

/-- Duplicate removal keeping the first occurrence of each element, order
preserved (the dedup order used by `_normalize_player_selection`). -/
def pyDedup : List Int → List Int
  | [] => []
  | x :: xs => x :: pyDedup (xs.filter (fun y => y ≠ x))
termination_by l => l.length
decreasing_by
  simp only [List.length_cons]
  exact Nat.lt_succ_of_le (List.length_filter_le _ _)

/-- The season `_ensure_season_setup` synthesizes on an empty document: id 1,
spanning Jul 1 – Jun 30, with start year the current year when the current
month is at least July and the previous year otherwise. -/
def defaultSeason (today : Date) : Season :=
  { id := 1,
    name := "Época " ++ toString (if today.month ≥ 7 then today.year else today.year - 1) ++
      "/" ++ toString ((if today.month ≥ 7 then today.year else today.year - 1) + 1),
    start_date := { year := if today.month ≥ 7 then today.year else today.year - 1,
                    month := 7, day := 1 },
    end_date := { year := (if today.month ≥ 7 then today.year else today.year - 1) + 1,
                  month := 6, day := 30 },
    notes := none }

/-! Concrete material for the witness theorems. -/

/-- A concrete "today" used by the witnesses. -/
def exToday : Date := { year := 2026, month := 10, day := 12 }

/-- A concrete season with id 1. -/
def exSeason1 : Season :=
  { id := 1, name := "Época 2024/2025",
    start_date := { year := 2024, month := 7, day := 1 },
    end_date := { year := 2025, month := 6, day := 30 }, notes := none }

/-- A concrete season with id 2. -/
def exSeason2 : Season :=
  { id := 2, name := "Época 2025/2026",
    start_date := { year := 2025, month := 7, day := 1 },
    end_date := { year := 2026, month := 6, day := 30 }, notes := none }

/-- A concrete season with id 5 (used with a dangling active pointer). -/
def exSeason5 : Season :=
  { id := 5, name := "Época 2023/2024",
    start_date := { year := 2023, month := 7, day := 1 },
    end_date := { year := 2024, month := 6, day := 30 }, notes := none }

/-- Document whose seasons are non-empty but whose active pointer is unset. -/
def c4doc : Doc := { emptyDoc with seasons := [exSeason5], active_season_id := none }

/-- Document with two seasons and records in both, season 1 active. -/
def c5doc : Doc :=
  { seasons := [exSeason1, exSeason2],
    active_season_id := some 1,
    players := [{ id := 1, name := "P1", season_id := some 1 },
                { id := 2, name := "P2", season_id := some 2 }],
    revenues := [{ id := 1, description := "r", amount := 10, category := "A",
                   record_date := { year := 2024, month := 8, day := 1 },
                   season_id := some 2 }] }

/-- A youth team of the active season. -/
def c10team1 : YouthTeam :=
  { id := 1, name := "Sub-15", age_group := "iniciados", coach_id := none,
    player_ids := [7, 3], season_id := some 1 }

/-- A youth team of a non-active season. -/
def c10team2 : YouthTeam :=
  { id := 2, name := "Sub-17", age_group := "juvenis", coach_id := none,
    player_ids := [], season_id := some 2 }

/-- Document with two youth teams and, deliberately, no players at all. -/
def c10doc : Doc :=
  { seasons := [exSeason1], active_season_id := some 1,
    youth_teams := [c10team1, c10team2] }

/-- A membership payment referencing member 5, which does not exist
(atomicity counterexample material). -/
def c2pay : MembershipPayment :=
  { id := 1, member_id := 5, membership_type_id := none, amount := 10,
    period := "2024-01", paid_on := { year := 2024, month := 1, day := 5 },
    notes := none, season_id := some 1 }

/-- Document holding only that payment (and no members at all). -/
def c2doc : Doc :=
  { seasons := [exSeason1], active_season_id := some 1,
    membership_payments := [c2pay] }

/-- A member of season 1 (dues projection example of the spec). -/
def c3member : Member :=
  { id := 1, name := "M", season_id := some 1, member_number := some 10,
    dues_paid := true, dues_paid_until := some "2024-02" }

/-- Payment for period 2024-01 paid on 2024-01-05. -/
def c3pay1 : MembershipPayment :=
  { id := 1, member_id := 1, membership_type_id := none, amount := 10,
    period := "2024-01", paid_on := { year := 2024, month := 1, day := 5 },
    notes := none, season_id := some 1 }

/-- Payment for period 2024-02 paid on 2024-02-03. -/
def c3pay2 : MembershipPayment :=
  { id := 2, member_id := 1, membership_type_id := none, amount := 10,
    period := "2024-02", paid_on := { year := 2024, month := 2, day := 3 },
    notes := none, season_id := some 1 }

/-- Document realizing the spec's dues projection example. -/
def c3doc : Doc :=
  { seasons := [exSeason1], active_season_id := some 1,
    members := [c3member], membership_payments := [c3pay1, c3pay2],
    revenues := [{ id := 1, description := "Quota", amount := 10,
                   category := "Quotas de Sócios",
                   record_date := { year := 2024, month := 1, day := 5 },
                   season_id := some 1, source := some "Sócios" }] }

/-- Document whose only player belongs to season 2 while season 1 is active
(counterexample material for the roster normalization claim). -/
def c7doc : Doc :=
  { seasons := [exSeason1, exSeason2], active_season_id := some 1,
    players := [{ id := 9, name := "Outro", season_id := some 2 }] }

/-- Document with players 1, 2 and 3 in the active season (the spec's match
plan exclusivity example). -/
def c7exdoc : Doc :=
  { seasons := [exSeason1], active_season_id := some 1,
    players := [{ id := 1, name := "A", season_id := some 1 },
                { id := 2, name := "B", season_id := some 1 },
                { id := 3, name := "C", season_id := some 1 }] }

/-- The plan stored by `create_match_plan` on `c7exdoc` with starters [1, 2]
and substitutes [2, 3]. -/
def c7plan : MatchPlan :=
  { id := 1, squad := "senior", match_date := { year := 2024, month := 9, day := 1 },
    kickoff_time := some "19:00", venue := some "Campo", opponent := "Rival",
    competition := none, coach_id := none, notes := none,
    starters := [1, 2], substitutes := [3], season_id := some 1 }

/-- A valid leap-year date (codec witness material). -/
def c9date : Date := { year := 2024, month := 2, day := 29 }

/-- A fully populated player (codec witness material). -/
def c9player : Player :=
  { id := 7, name := "N", birthdate := some { year := 2008, month := 6, day := 15 },
    contact := some "912", photo_url := some "u", season_id := some 1,
    position := "MC", squad := "juvenis", shirt_number := some 10,
    af_porto_id := some "AF1", youth_monthly_fee := some 50,
    youth_monthly_paid := true, youth_kit_fee := none, youth_kit_paid := false,
    youth_monthly_revenue_id := some 3, youth_kit_revenue_id := none }

/-- A coach with a birthdate (codec witness material). -/
def c9coach : Coach :=
  { id := 1, name := "T", birthdate := some c9date, contact := some "c",
    photo_url := none, season_id := some 1, role := "principal",
    license_level := none }

/-- A minimal physiotherapist (codec witness material). -/
def c9physio : Physiotherapist :=
  { id := 1, name := "F", birthdate := none, contact := none,
    photo_url := none, season_id := none, specialization := some "s" }

/-- A treatment with both dates present (codec witness material). -/
def c9treat : Treatment :=
  { id := 1, player_id := 2, physio_id := none, diagnosis := "d",
    treatment_plan := "p", start_date := c9date,
    expected_return := some { year := 2024, month := 3, day := 1 },
    unavailable := true, notes := none, season_id := some 1 }

/-- A member with birthdate and membership-since dates (codec witness
material). -/
def c9member : Member :=
  { id := 2, name := "M2", birthdate := some { year := 1990, month := 1, day := 31 },
    contact := none, photo_url := none, season_id := some 1,
    member_number := none, membership_type := "", membership_type_id := none,
    dues_paid := false, dues_paid_until := none,
    membership_since := some { year := 2020, month := 12, day := 31 } }

/-- A membership type (codec witness material; no date fields). -/
def c9mtype : MembershipType :=
  { id := 1, name := "Geral", amount := 20, frequency := "mensal",
    description := none, season_id := some 1 }

/-- A revenue with a date (codec witness material). -/
def c9rev : Revenue :=
  { id := 3, description := "r", amount := 10, category := "A",
    record_date := { year := 2024, month := 8, day := 1 }, season_id := none,
    source := none }

/-- An expense with a date (codec witness material). -/
def c9exp : Expense :=
  { id := 1, description := "luz", amount := 30, category := "Infra",
    record_date := c9date, season_id := some 1, vendor := some "EDP" }

/-- Base document for the C1 witness: one season, nothing else. -/
def c1doc : Doc := { seasons := [exSeason1], active_season_id := some 1 }

/-- The player created by the C1 witness call. -/
def c1player : Player :=
  { id := 1, name := "João", birthdate := none, contact := none,
    photo_url := none, season_id := some 1, position := "GR",
    squad := "juvenis", shirt_number := none, af_porto_id := none,
    youth_monthly_fee := some 50, youth_monthly_paid := true,
    youth_kit_fee := none, youth_kit_paid := false,
    youth_monthly_revenue_id := some 1, youth_kit_revenue_id := none }

/-- The monthly-fee revenue the C1 witness call creates. -/
def c1rev : Revenue :=
  { id := 1, description := "Mensalidade Formação - João (Juvenis)",
    amount := 50, category := "Camadas Jovens", record_date := exToday,
    season_id := some 1, source := some "Mensalidade Formação" }

/-- Document after the C1 witness `add_player` call. -/
def c1doc2 : Doc :=
  { seasons := [exSeason1], active_season_id := some 1,
    players := [c1player], revenues := [c1rev] }

/-- The player after the C1 witness `update_player` call clears the monthly
paid flag. -/
def c1player2 : Player :=
  { c1player with youth_monthly_paid := false,
                  youth_monthly_revenue_id := none }

/-- Document after the C1 witness `update_player` call: the revenue is gone. -/
def c1doc3 : Doc :=
  { seasons := [exSeason1], active_season_id := some 1,
    players := [c1player2] }

/-- A youth player with a linked monthly revenue record. -/
def c6player : Player :=
  { id := 1, name := "J", season_id := some 1, squad := "juvenis",
    position := "GR",
    youth_monthly_fee := some 50, youth_monthly_paid := true,
    youth_monthly_revenue_id := some 1 }

/-- Document with the youth player, a teammate, a linked revenue, two
treatments of the player and a match plan listing the player. -/
def c6doc : Doc :=
  { seasons := [exSeason1], active_season_id := some 1,
    players := [c6player, { id := 2, name := "K", season_id := some 1 }],
    revenues := [{ id := 1, description := "m", amount := 50,
                   category := "Camadas Jovens",
                   record_date := { year := 2024, month := 8, day := 1 },
                   season_id := some 1,
                   source := some "Mensalidade Formação" }],
    treatments := [{ id := 1, player_id := 1,
                     start_date := { year := 2024, month := 8, day := 2 },
                     season_id := some 1 },
                   { id := 2, player_id := 1,
                     start_date := { year := 2024, month := 8, day := 3 },
                     season_id := some 1 }],
    match_plans := [{ id := 1, squad := "senior",
                      match_date := { year := 2024, month := 9, day := 1 },
                      kickoff_time := some "15:00", venue := some "Casa",
                      opponent := "X", starters := [1, 2], substitutes := [3, 1],
                      season_id := some 1 }] }

/-! Generic lemmas about the storage helpers. -/

theorem foldl_max_init (a : Int) (l : List Int) : a ≤ l.foldl max a := by
  induction l generalizing a with
  | nil => simp
  | cons x xs ih =>
    simp only [List.foldl_cons]
    exact le_trans (le_max_left a x) (ih (max a x))

theorem foldl_max_mem : ∀ (l : List Int) (a x : Int), x ∈ l → x ≤ l.foldl max a := by
  intro l
  induction l with
  | nil => intro a x hx; cases hx
  | cons y ys ih =>
    intro a x hx
    simp only [List.foldl_cons]
    rcases List.mem_cons.mp hx with h | h
    · subst h
      exact le_trans (le_max_right a x) (foldl_max_init _ _)
    · exact ih (max a y) x h

theorem lt_nextId (ids : List Int) (x : Int) (hx : x ∈ ids) : x < nextId ids := by
  unfold nextId
  exact lt_of_le_of_lt (foldl_max_mem ids 0 x hx) (lt_add_one _)

theorem nextId_pos (ids : List Int) : 0 < nextId ids := by
  unfold nextId
  exact lt_of_le_of_lt (foldl_max_init 0 ids) (lt_add_one _)

theorem findById_eq_none {α : Type} (getId : α → Int) (i : Int) (l : List α) :
    findById getId i l = none ↔ ∀ x ∈ l, getId x ≠ i := by
  induction l with
  | nil => simp [findById]
  | cons y ys ih =>
    by_cases h : getId y = i
    · simp [findById, h]
    · simp [findById, h, ih]

theorem findById_mem {α : Type} (getId : α → Int) (i : Int) (l : List α) (x : α)
    (h : findById getId i l = some x) : x ∈ l ∧ getId x = i := by
  induction l with
  | nil => simp [findById] at h
  | cons y ys ih =>
    simp only [findById] at h
    by_cases hy : getId y = i
    · rw [if_pos hy] at h
      have hxy := Option.some_inj.mp h
      subst hxy
      exact ⟨List.mem_cons_self _ _, hy⟩
    · rw [if_neg hy] at h
      rcases ih h with ⟨h1, h2⟩
      exact ⟨List.mem_cons_of_mem _ h1, h2⟩

theorem findById_prefix_miss {α : Type} (getId : α → Int) (i : Int)
    (l1 : List α) (x : α) (l2 : List α) (h1 : ∀ z ∈ l1, getId z ≠ i)
    (hx : getId x = i) : findById getId i (l1 ++ x :: l2) = some x := by
  induction l1 with
  | nil => simp [findById, hx]
  | cons w ws ih =>
    have hw : getId w ≠ i := h1 w (by simp)
    simp only [List.cons_append, findById, if_neg hw]
    exact ih (fun z hz => h1 z (List.mem_cons_of_mem _ hz))

theorem removeById_eq_none {α : Type} (getId : α → Int) (i : Int) (l : List α) :
    removeById getId i l = none ↔ ∀ x ∈ l, getId x ≠ i := by
  induction l with
  | nil => simp [removeById]
  | cons y ys ih =>
    by_cases h : getId y = i
    · simp [removeById, h]
    · simp [removeById, h, ih]

theorem removeById_spec {α : Type} (getId : α → Int) (i : Int) :
    ∀ (l l' : List α), removeById getId i l = some l' →
      ∃ l1 x l2, l = l1 ++ x :: l2 ∧ l' = l1 ++ l2 ∧ getId x = i ∧
        ∀ z ∈ l1, getId z ≠ i := by
  intro l
  induction l with
  | nil => intro l' h; simp [removeById] at h
  | cons y ys ih =>
    intro l' h
    simp only [removeById] at h
    by_cases hy : getId y = i
    · rw [if_pos hy] at h
      have hys := Option.some_inj.mp h
      exact ⟨[], y, ys, by simp, by simp [hys], hy, by simp⟩
    · rw [if_neg hy, Option.map_eq_some'] at h
      rcases h with ⟨r, hr, hl⟩
      rcases ih r hr with ⟨l1, x, l2, e1, e2, e3, e4⟩
      refine ⟨y :: l1, x, l2, by simp [e1], by simp [← hl, e2], e3, ?_⟩
      intro z hz
      rcases List.mem_cons.mp hz with h | h
      · exact h ▸ hy
      · exact e4 z h

theorem removeById_filter {α : Type} (getId : α → Int) (i : Int)
    (l l' : List α) (hnd : (l.map getId).Nodup)
    (h : removeById getId i l = some l') :
    l' = l.filter (fun x => decide (getId x ≠ i)) := by
  rcases removeById_spec getId i l l' h with ⟨l1, x, l2, e1, e2, e3, e4⟩
  subst e1
  have hnd2 : getId x ∉ l2.map getId := by
    have h1 : (l1.map getId ++ getId x :: l2.map getId).Nodup := by simpa using hnd
    exact (List.nodup_cons.mp (List.nodup_append.mp h1).2.1).1
  have hx2 : ∀ z ∈ l2, getId z ≠ i := by
    intro z hz hzi
    exact hnd2 (by rw [e3, ← hzi]; exact List.mem_map_of_mem getId hz)
  have f1 : l1.filter (fun z => decide (getId z ≠ i)) = l1 :=
    List.filter_eq_self.mpr (fun a ha => by simp [e4 a ha])
  have f2 : l2.filter (fun z => decide (getId z ≠ i)) = l2 :=
    List.filter_eq_self.mpr (fun a ha => by simp [hx2 a ha])
  rw [e2, List.filter_append, List.filter_cons, f1, f2]
  simp [e3]

theorem updateById_eq_none {α : Type} (getId : α → Int) (i : Int) (f : α → α)
    (l : List α) :
    updateById getId i f l = none ↔ ∀ x ∈ l, getId x ≠ i := by
  induction l with
  | nil => simp [updateById]
  | cons y ys ih =>
    by_cases h : getId y = i
    · simp [updateById, h]
    · simp [updateById, h, ih]

theorem updateById_spec {α : Type} (getId : α → Int) (i : Int) (f : α → α) :
    ∀ (l l' : List α) (y : α), updateById getId i f l = some (l', y) →
      ∃ l1 x l2, l = l1 ++ x :: l2 ∧ (∀ z ∈ l1, getId z ≠ i) ∧ getId x = i ∧
        y = f x ∧ l' = l1 ++ f x :: l2 := by
  intro l
  induction l with
  | nil => intro l' y h; simp [updateById] at h
  | cons w ws ih =>
    intro l' y h
    simp only [updateById] at h
    by_cases hw : getId w = i
    · rw [if_pos hw] at h
      have h2 := Option.some_inj.mp h
      have h3 : f w :: ws = l' := congrArg Prod.fst h2
      have h4 : f w = y := congrArg Prod.snd h2
      exact ⟨[], w, ws, by simp, by simp, hw, h4.symm, by simp [← h3]⟩
    · rw [if_neg hw, Option.map_eq_some'] at h
      rcases h with ⟨r, hr, hl⟩
      obtain ⟨ra, rb⟩ := r
      rcases ih ra rb hr with ⟨l1, x, l2, e1, e2, e3, e4, e5⟩
      have hl1 : w :: ra = l' := congrArg Prod.fst hl
      have hl2 : rb = y := congrArg Prod.snd hl
      refine ⟨w :: l1, x, l2, by simp [e1], ?_, e3, hl2 ▸ e4, by simp [← hl1, e5]⟩
      intro z hz
      rcases List.mem_cons.mp hz with hzz | hzz
      · exact hzz ▸ hw
      · exact e2 z hzz

theorem updateById_of_findById {α : Type} (getId : α → Int) (i : Int) (f : α → α) :
    ∀ (l : List α) (x : α), findById getId i l = some x →
      ∃ l', updateById getId i f l = some (l', f x) := by
  intro l
  induction l with
  | nil => intro x h; simp [findById] at h
  | cons y ys ih =>
    intro x h
    simp only [findById] at h
    simp only [updateById]
    by_cases hy : getId y = i
    · rw [if_pos hy] at h
      rw [if_pos hy]
      exact ⟨f y :: ys, by rw [Option.some_inj.mp h]⟩
    · rw [if_neg hy] at h
      rw [if_neg hy]
      rcases ih x h with ⟨l', hl'⟩
      exact ⟨y :: l', by rw [hl']; rfl⟩

theorem removeById_of_findById {α : Type} (getId : α → Int) (i : Int) :
    ∀ (l : List α) (x : α), findById getId i l = some x →
      ∃ l', removeById getId i l = some l' := by
  intro l
  induction l with
  | nil => intro x h; simp [findById] at h
  | cons y ys ih =>
    intro x h
    simp only [findById] at h
    simp only [removeById]
    by_cases hy : getId y = i
    · rw [if_pos hy]
      exact ⟨ys, rfl⟩
    · rw [if_neg hy] at h
      rw [if_neg hy]
      rcases ih x h with ⟨l', hl'⟩
      exact ⟨y :: l', by rw [hl']; rfl⟩

theorem findById_after_update {α : Type} (getId : α → Int) (i : Int) (f : α → α)
    (l l' : List α) (y : α) (h : updateById getId i f l = some (l', y))
    (hpres : ∀ x, getId (f x) = getId x) : findById getId i l' = some y := by
  rcases updateById_spec getId i f l l' y h with ⟨l1, x, l2, _, e2, e3, e4, e5⟩
  rw [e5, e4]
  exact findById_prefix_miss getId i l1 (f x) l2 e2 (by rw [hpres x, e3])

theorem removeById_sublist {α : Type} (getId : α → Int) (i : Int) (l l' : List α)
    (h : removeById getId i l = some l') : l'.Sublist l := by
  rcases removeById_spec getId i l l' h with ⟨l1, x, l2, e1, e2, _, _⟩
  rw [e1, e2]
  exact List.Sublist.append_left (List.sublist_cons_self x l2) l1

/-! Claim theorems. -/

/-- C4: starting from an empty document, season setup creates exactly one
season spanning Jul 1 – Jun 30 (start year: the current year when the current
month is at least July, else the previous year) and points
`active_season_id` at it; and whenever seasons are non-empty but
`active_season_id` is unset or references no existing season, it is reset to
the id of the first season in insertion order (and persisted: the returned
document is the persisted state). -/
theorem c4_season_setup :
    (∀ today : Date, 1 ≤ today.year →
      ensureSeasonSetup today emptyDoc =
        { emptyDoc with
          seasons := [defaultSeason today],
          active_season_id := some 1 }) ∧
    (∀ (today : Date) (doc : Doc) (s0 : Season) (rest : List Season),
      doc.seasons = s0 :: rest →
      (doc.active_season_id = none ∨
        ∀ a, doc.active_season_id = some a → ∀ s ∈ doc.seasons, s.id ≠ a) →
      (ensureSeasonSetup today doc).seasons = doc.seasons ∧
      (ensureSeasonSetup today doc).active_season_id = some s0.id) := by
  constructor
  · intro today _
    rfl
  · intro today doc s0 rest hseasons hdang
    have hne : doc.seasons.isEmpty = false := by rw [hseasons]; rfl
    unfold ensureSeasonSetup
    simp only [hne, Bool.false_eq_true, if_false, hseasons]
    cases hact : doc.active_season_id with
    | none =>
      simp [assignMissingSeasonIds]
    | some a =>
      have hall : ∀ s ∈ doc.seasons, s.id ≠ a := by
        rcases hdang with h | h
        · rw [hact] at h; cases h
        · exact h a hact
      have h1 : ¬s0.id = a := hall s0 (by rw [hseasons]; simp)
      have h2 : ∀ x ∈ rest, ¬x.id = a := fun x hx => hall x (by rw [hseasons]; simp [hx])
      simp [assignMissingSeasonIds, h1, if_pos h2]

/-- C5: `remove_season` fails with the validation error (and leaves the
document unchanged) when given the active season id; for an existing
non-active season it deletes that season and every record of every
season-scoped collection whose season id matches, keeping every record of
every other season. -/
theorem c5_remove_season :
    ∀ (doc : Doc) (active sid : Int),
      doc.active_season_id = some active →
      ((sid = active →
        removeSeason doc sid =
          (doc, Except.error ("Não é possível eliminar a época ativa."))) ∧
       (sid ≠ active → IdsNodup (fun s => s.id) doc.seasons →
        (∃ s ∈ doc.seasons, s.id = sid) →
        ∃ doc2, removeSeason doc sid = (doc2, Except.ok ()) ∧
          (∀ s, s ∈ doc2.seasons ↔ s ∈ doc.seasons ∧ s.id ≠ sid) ∧
          doc2.players = doc.players.filter (fun r => r.season_id.getD 0 ≠ sid) ∧
          doc2.coaches = doc.coaches.filter (fun r => r.season_id.getD 0 ≠ sid) ∧
          doc2.physiotherapists =
            doc.physiotherapists.filter (fun r => r.season_id.getD 0 ≠ sid) ∧
          doc2.youth_teams =
            doc.youth_teams.filter (fun r => r.season_id.getD 0 ≠ sid) ∧
          doc2.members = doc.members.filter (fun r => r.season_id.getD 0 ≠ sid) ∧
          doc2.membership_types =
            doc.membership_types.filter (fun r => r.season_id.getD 0 ≠ sid) ∧
          doc2.membership_payments =
            doc.membership_payments.filter (fun r => r.season_id.getD 0 ≠ sid) ∧
          doc2.revenues = doc.revenues.filter (fun r => r.season_id.getD 0 ≠ sid) ∧
          doc2.expenses = doc.expenses.filter (fun r => r.season_id.getD 0 ≠ sid) ∧
          doc2.treatments =
            doc.treatments.filter (fun r => r.season_id.getD 0 ≠ sid) ∧
          doc2.match_plans =
            doc.match_plans.filter (fun r => r.season_id.getD 0 ≠ sid) ∧
          doc2.active_season_id = some active)) := by
  intro doc active sid hact
  constructor
  · intro h
    subst h
    unfold removeSeason
    simp [hact]
  · intro hne hnd hex
    rcases hex with ⟨s, hs, hsid⟩
    have hnotall : ¬∀ x ∈ doc.seasons, (fun s : Season => s.id) x ≠ sid := by
      intro hall
      exact hall s hs hsid
    cases hrem : removeById (fun s => s.id) sid doc.seasons with
    | none => exact absurd ((removeById_eq_none _ _ _).mp hrem) hnotall
    | some seasons2 =>
      have hnd2 : (doc.seasons.map (fun s => s.id)).Nodup := hnd
      have hfilt := removeById_filter (fun s => s.id) sid doc.seasons seasons2 hnd2 hrem
      refine ⟨{ doc with
          seasons := seasons2,
          players := doc.players.filter (fun r => r.season_id.getD 0 ≠ sid),
          coaches := doc.coaches.filter (fun r => r.season_id.getD 0 ≠ sid),
          physiotherapists :=
            doc.physiotherapists.filter (fun r => r.season_id.getD 0 ≠ sid),
          youth_teams := doc.youth_teams.filter (fun r => r.season_id.getD 0 ≠ sid),
          members := doc.members.filter (fun r => r.season_id.getD 0 ≠ sid),
          membership_types :=
            doc.membership_types.filter (fun r => r.season_id.getD 0 ≠ sid),
          membership_payments :=
            doc.membership_payments.filter (fun r => r.season_id.getD 0 ≠ sid),
          revenues := doc.revenues.filter (fun r => r.season_id.getD 0 ≠ sid),
          expenses := doc.expenses.filter (fun r => r.season_id.getD 0 ≠ sid),
          treatments := doc.treatments.filter (fun r => r.season_id.getD 0 ≠ sid),
          match_plans := doc.match_plans.filter (fun r => r.season_id.getD 0 ≠ sid) },
        ?_, ?_, ?_, ?_, ?_, ?_, ?_, ?_, ?_, ?_, ?_, ?_, ?_, ?_⟩
      · unfold removeSeason
        simp only [hact]
        rw [if_neg hne, hrem]
      · intro s2
        simp [hfilt, List.mem_filter]
      all_goals first | rfl | exact hact

theorem mem_insortedInsert (x : Int) : ∀ (l : List Int) (y : Int),
    y ∈ insortedInsert x l ↔ y = x ∨ y ∈ l := by
  intro l
  induction l with
  | nil => intro y; simp [insortedInsert]
  | cons z zs ih =>
    intro y
    simp only [insortedInsert]
    by_cases h1 : x < z
    · rw [if_pos h1]
      simp
    · rw [if_neg h1]
      by_cases h2 : x = z
      · rw [if_pos h2]
        subst h2
        simp
      · rw [if_neg h2]
        simp [ih]
        tauto

theorem insortedInsert_sorted (x : Int) :
    ∀ l : List Int, List.Sorted (· < ·) l → List.Sorted (· < ·) (insortedInsert x l) := by
  intro l
  induction l with
  | nil => intro _; simp [insortedInsert]
  | cons z zs ih =>
    intro hs
    rcases List.sorted_cons.mp hs with ⟨hz, hzs⟩
    simp only [insortedInsert]
    by_cases h1 : x < z
    · rw [if_pos h1]
      refine List.sorted_cons.mpr ⟨?_, hs⟩
      intro b hb
      rcases List.mem_cons.mp hb with h | h
      · exact h ▸ h1
      · exact lt_trans h1 (hz b h)
    · rw [if_neg h1]
      by_cases h2 : x = z
      · rw [if_pos h2]
        exact hs
      · rw [if_neg h2]
        refine List.sorted_cons.mpr ⟨?_, ih hzs⟩
        intro b hb
        rcases (mem_insortedInsert x zs b).mp hb with h | h
        · subst h
          omega
        · exact hz b h

theorem pySortedSet_sorted (l : List Int) : List.Sorted (· < ·) (pySortedSet l) := by
  unfold pySortedSet
  induction l with
  | nil => simp
  | cons x xs ih => exact insortedInsert_sorted x _ ih

theorem mem_pySortedSet (l : List Int) (y : Int) : y ∈ pySortedSet l ↔ y ∈ l := by
  unfold pySortedSet
  induction l with
  | nil => simp
  | cons x xs ih =>
    rw [List.foldr_cons, mem_insortedInsert]
    simp [ih]

/-- C10: `assign_player_to_team` performs no existence check on the player:
for a youth team whose season is null or the active season, the call succeeds
for EVERY integer player id (the statement quantifies over all `pid` with no
membership hypothesis), and the resulting roster is sorted ascending,
duplicate-free and contains the id; for a team of another season the call
fails and the document (hence the roster) is unchanged. -/
theorem c10_assign_player_to_team :
    ∀ (doc : Doc) (active tid pid : Int) (team : YouthTeam),
      doc.active_season_id = some active →
      findById (fun t => t.id) tid doc.youth_teams = some team →
      (((team.season_id = none ∨ team.season_id = some active) →
        ∃ doc2 team2, assignPlayerToTeam doc tid pid = (doc2, Except.ok team2) ∧
          findById (fun t => t.id) tid doc2.youth_teams = some team2 ∧
          List.Sorted (· ≤ ·) team2.player_ids ∧
          team2.player_ids.Nodup ∧
          pid ∈ team2.player_ids ∧
          (∀ x, x ∈ team2.player_ids ↔ x = pid ∨ x ∈ team.player_ids)) ∧
       (∀ s, team.season_id = some s → s ≠ active →
        assignPlayerToTeam doc tid pid =
          (doc, Except.error ("Apenas é possível gerir equipas da época ativa.")))) := by
  intro doc active tid pid team hact hfind
  constructor
  · intro hseason
    have hcond : ¬(team.season_id.isSome ∧ team.season_id ≠ some active) := by
      rcases hseason with h | h
      · rw [h]
        simp
      · rw [h]
        simp
    rcases updateById_of_findById (fun t => t.id) tid
        (fun t => { t with player_ids := pySortedSet (pid :: t.player_ids) })
        doc.youth_teams team hfind with ⟨l', hupd⟩
    refine ⟨{ doc with youth_teams := l' },
      { team with player_ids := pySortedSet (pid :: team.player_ids) }, ?_, ?_, ?_, ?_, ?_, ?_⟩
    · unfold assignPlayerToTeam
      simp only [hact, hfind]
      rw [if_neg hcond, hupd]
    · exact findById_after_update (fun t => t.id) tid
        (fun t => { t with player_ids := pySortedSet (pid :: t.player_ids) })
        doc.youth_teams l' _ hupd (fun x => rfl)
    · exact (pySortedSet_sorted _).imp (fun h => le_of_lt h)
    · exact List.Pairwise.imp (fun h => ne_of_lt h) (pySortedSet_sorted _)
    · rw [mem_pySortedSet]
      simp
    · intro x
      rw [show ({ team with player_ids := pySortedSet (pid :: team.player_ids) } :
          YouthTeam).player_ids = pySortedSet (pid :: team.player_ids) from rfl]
      rw [mem_pySortedSet]
      simp
  · intro s hs hsa
    have hcond : team.season_id.isSome ∧ team.season_id ≠ some active := by
      rw [hs]
      simp [hsa]
    unfold assignPlayerToTeam
    simp only [hact, hfind]
    rw [if_pos hcond]

theorem nextIdRawGo_spec :
    ∀ (items : List (Option JVal)) (maxId : Int),
      (∀ v ∈ items, ∃ n, pyInt (v.getD (JVal.jint 0)) = Except.ok n) →
      ∃ m, nextIdRawGo maxId items = Except.ok m ∧ maxId < m ∧
        ∀ v ∈ items, ∀ n, pyInt (v.getD (JVal.jint 0)) = Except.ok n → n < m := by
  intro items
  induction items with
  | nil =>
    intro maxId _
    exact ⟨maxId + 1, rfl, lt_add_one _, by simp⟩
  | cons v vs ih =>
    intro maxId hconv
    rcases hconv v (by simp) with ⟨n0, hn0⟩
    rcases ih (max maxId n0) (fun w hw => hconv w (by simp [hw])) with ⟨m, hm, hlt, hall⟩
    refine ⟨m, ?_, ?_, ?_⟩
    · simp only [nextIdRawGo, hn0]
      exact hm
    · exact lt_of_le_of_lt (le_max_left _ _) hlt
    · intro w hw n hn
      rcases List.mem_cons.mp hw with h | h
      · subst h
        rw [hn0] at hn
        have hnn : n0 = n := Except.ok.inj hn
        exact hnn ▸ lt_of_le_of_lt (le_max_right _ _) hlt
      · exact hall w h n hn

/-- C8 counterexample: a record whose `id` field holds the non-numeric string
"abc" makes `next_id` raise (Python `int("abc")` raises `ValueError`) instead
of treating the id as 0, which per the claim would return 1. -/
theorem c8_counterexample :
    nextIdRaw [some (JVal.jstr "abc")] =
        Except.error ("invalid literal for int with base 10") ∧
    nextIdRaw [some (JVal.jstr "abc")] ≠ Except.ok 1 := by
  constructor
  · rfl
  · intro h
    have h2 : Except.error ("invalid literal for int with base 10") =
        (Except.ok 1 : Except String Int) := by
      rw [← h]
      rfl
    exact Except.noConfusion h2

/-- C8 (amended): `next_id` returns a value strictly greater than every id of
the collection whenever every stored id converts under Python `int` (integers
and numeric strings; a missing id is the integer 0 by `item.get("id", 0)`);
a non-numeric or null id makes it raise instead of being treated as 0.  The
typed form used on service-written collections always returns a value
strictly greater than every existing id. -/
theorem c8_next_id_amended :
    (∀ (items : List (Option JVal)),
      (∀ v ∈ items, ∃ n, pyInt (v.getD (JVal.jint 0)) = Except.ok n) →
      ∃ m, nextIdRaw items = Except.ok m ∧
        ∀ v ∈ items, ∀ n, pyInt (v.getD (JVal.jint 0)) = Except.ok n → n < m) ∧
    (∀ ids : List Int, ∀ x ∈ ids, x < nextId ids) := by
  constructor
  · intro items hconv
    rcases nextIdRawGo_spec items 0 hconv with ⟨m, hm, _, hall⟩
    exact ⟨m, hm, hall⟩
  · intro ids x hx
    exact lt_nextId ids x hx

/-- Witness for C8 (amended) on a concrete raw collection with an integer id,
a missing id and a numeric-string id. -/
theorem c8_next_id_amended_witness :
    ∃ m, nextIdRaw [some (JVal.jint 3), none, some (JVal.jstr "7")] = Except.ok m ∧
      ∀ v ∈ [some (JVal.jint 3), none, some (JVal.jstr "7")], ∀ n,
        pyInt (v.getD (JVal.jint 0)) = Except.ok n → n < m :=
  c8_next_id_amended.1 [some (JVal.jint 3), none, some (JVal.jstr "7")] (by
    intro v hv
    simp only [List.mem_cons, List.not_mem_nil, or_false] at hv
    rcases hv with h | h | h
    · exact ⟨3, by subst h; rfl⟩
    · exact ⟨0, by subst h; rfl⟩
    · exact ⟨7, by subst h; rfl⟩)

theorem mem_pyDedup (l : List Int) (y : Int) : y ∈ pyDedup l ↔ y ∈ l := by
  induction l using pyDedup.induct with
  | case1 => simp [pyDedup]
  | case2 x xs ih =>
    rw [pyDedup]
    simp only [List.mem_cons, ih, List.mem_filter]
    by_cases h : y = x <;> simp [h]

theorem pyDedup_filter_comm (x : Int) (l : List Int) :
    pyDedup (l.filter (fun y => y ≠ x)) = (pyDedup l).filter (fun y => y ≠ x) := by
  induction l using pyDedup.induct with
  | case1 => simp [pyDedup]
  | case2 z zs ih =>
    by_cases hzx : z = x
    · subst hzx
      have hdrop : decide (z ≠ z) = false := by simp
      rw [List.filter_cons, if_neg (by simp [hdrop])]
      rw [pyDedup, List.filter_cons, if_neg (by simp [hdrop])]
      refine (List.filter_eq_self.mpr ?_).symm
      intro y hy
      have hmem := (mem_pyDedup _ y).mp hy
      rcases List.mem_filter.mp hmem with ⟨_, hyz⟩
      exact hyz
    · have hkeep : decide (z ≠ x) = true := by simp [hzx]
      rw [List.filter_cons, if_pos hkeep]
      rw [pyDedup, pyDedup, List.filter_comm, ih, List.filter_cons, if_pos hkeep]

theorem normGo_eq (valid excl : List Int) :
    ∀ (input seen : List Int),
      normGo valid excl seen input =
        (pyDedup input).filter
          (fun i => decide (i ∈ valid ∧ i ∉ excl ∧ i ∉ seen)) := by
  intro input
  induction input with
  | nil =>
    intro seen
    simp [normGo, pyDedup]
  | cons x xs ih =>
    intro seen
    rw [pyDedup, List.filter_cons]
    by_cases h1 : x ∈ excl ∨ x ∈ seen
    · rw [show normGo valid excl seen (x :: xs) = normGo valid excl seen xs by
        simp only [normGo]
        rw [if_pos h1]]
      rw [ih seen, pyDedup_filter_comm, List.filter_filter]
      have hx : decide (x ∈ valid ∧ x ∉ excl ∧ x ∉ seen) = false := by
        simp only [decide_eq_false_iff_not]
        rcases h1 with h | h
        · intro hc
          exact hc.2.1 h
        · intro hc
          exact hc.2.2 h
      rw [if_neg (by simp [hx])]
      apply List.filter_congr
      intro a _
      by_cases hax : a = x
      · subst hax
        rw [hx]
        simp
      · simp [hax]
    · push_neg at h1
      by_cases h2 : x ∈ valid
      · rw [show normGo valid excl seen (x :: xs) =
            x :: normGo valid excl (x :: seen) xs by
          simp only [normGo]
          rw [if_neg (by tauto), if_pos h2]]
        have hx : decide (x ∈ valid ∧ x ∉ excl ∧ x ∉ seen) = true := by
          simp only [decide_eq_true_eq]
          exact ⟨h2, h1.1, h1.2⟩
        rw [if_pos hx]
        rw [ih (x :: seen), pyDedup_filter_comm, List.filter_filter]
        congr 1
        apply List.filter_congr
        intro a _
        by_cases hax : a = x
        · subst hax
          simp
        · simp [hax, List.mem_cons]
      · rw [show normGo valid excl seen (x :: xs) = normGo valid excl seen xs by
          simp only [normGo]
          rw [if_neg (by tauto), if_neg h2]]
        have hx : decide (x ∈ valid ∧ x ∉ excl ∧ x ∉ seen) = false := by
          simp only [decide_eq_false_iff_not]
          intro hc
          exact h2 hc.1
        rw [if_neg (by simp [hx])]
        rw [ih seen, pyDedup_filter_comm, List.filter_filter]
        apply List.filter_congr
        intro a _
        by_cases hax : a = x
        · subst hax
          rw [hx]
          simp
        · simp [hax]

theorem normalize_nil_eq (doc : Doc) (active : Int) (input : List Int) :
    normalizePlayerSelection doc active [] input =
      (pyDedup input).filter (fun i => decide (i ∈ activePlayerIds doc active)) := by
  unfold normalizePlayerSelection
  rw [normGo_eq]
  apply List.filter_congr
  intro a _
  simp

theorem normalize_excl_eq (doc : Doc) (active : Int) (excl input : List Int) :
    normalizePlayerSelection doc active excl input =
      (pyDedup input).filter
        (fun i => decide (i ∈ activePlayerIds doc active ∧ i ∉ excl)) := by
  unfold normalizePlayerSelection
  rw [normGo_eq]
  apply List.filter_congr
  intro a _
  simp

/-- C7 counterexample: with season 1 active and the only player (id 9)
belonging to season 2, `create_match_plan` drops id 9 from the starters even
though a player with id 9 is present in the Player collection — the
normalization keeps only ids of ACTIVE-SEASON players, not of the whole
Player collection as the claim states. -/
theorem c7_counterexample :
    (createMatchPlan c7doc "senior" { year := 2024, month := 9, day := 1 }
        (some "20:00") (some "Estádio") "Rival" none none [9] []).2 =
      Except.ok
        { id := 1, squad := "senior",
          match_date := { year := 2024, month := 9, day := 1 },
          kickoff_time := some "20:00", venue := some "Estádio",
          opponent := "Rival", competition := none, coach_id := none,
          notes := none, starters := [], substitutes := [],
          season_id := some 1 } ∧
    c7doc.players.map (fun p => p.id) = [9] := by
  constructor
  · decide
  · rfl

/-- C7 (amended): the stored starters are the input with duplicates removed
(first occurrence kept, order preserved) and ids not among the ACTIVE
SEASON's players dropped; the stored substitutes are additionally purged of
every id among the stored starters, while the starters are unaffected by the
substitutes — for `create_match_plan` and for `update_match_plan` when both
lists are supplied. -/
theorem c7_roster_normalization_amended :
    (∀ (doc : Doc) (active : Int) (squad : String) (md : Date)
       (kt v : Option String) (opp : String) (comp nts : Option String)
       (starters subs : List Int) (doc2 : Doc) (plan : MatchPlan),
      doc.active_season_id = some active →
      createMatchPlan doc squad md kt v opp comp nts starters subs =
        (doc2, Except.ok plan) →
      plan.starters =
        (pyDedup starters).filter (fun i => i ∈ activePlayerIds doc active) ∧
      plan.substitutes =
        (pyDedup subs).filter (fun i =>
          i ∈ activePlayerIds doc active ∧ i ∉ plan.starters)) ∧
    (∀ (doc : Doc) (active pid : Int) (squad : Option String)
       (md : Option Date) (kt v : Option (Option String)) (opp : Option String)
       (comp nts : Option (Option String)) (starters subs : List Int)
       (doc2 : Doc) (plan : MatchPlan),
      doc.active_season_id = some active →
      updateMatchPlan doc pid squad md kt v opp comp nts (some starters)
          (some subs) = (doc2, Except.ok plan) →
      plan.starters =
        (pyDedup starters).filter (fun i => i ∈ activePlayerIds doc active) ∧
      plan.substitutes =
        (pyDedup subs).filter (fun i =>
          i ∈ activePlayerIds doc active ∧ i ∉ plan.starters)) := by
  constructor
  · intro doc active squad md kt v opp comp nts starters subs doc2 plan hact hcall
    unfold createMatchPlan at hcall
    simp only [hact] at hcall
    split at hcall
    · exact absurd (congrArg Prod.snd hcall) (by simp)
    · split at hcall
      · exact absurd (congrArg Prod.snd hcall) (by simp)
      · split at hcall
        · exact absurd (congrArg Prod.snd hcall) (by simp)
        · have hp := Except.ok.inj (congrArg Prod.snd hcall)
          subst hp
          constructor
          · exact normalize_nil_eq doc active starters
          · rw [show (normalizePlayerSelection doc active
                (normalizePlayerSelection doc active [] starters) subs) =
                  (pyDedup subs).filter (fun i =>
                    decide (i ∈ activePlayerIds doc active ∧
                      i ∉ normalizePlayerSelection doc active [] starters))
              from normalize_excl_eq doc active _ subs]
  · intro doc active pid squad md kt v opp comp nts starters subs doc2 plan hact hcall
    unfold updateMatchPlan at hcall
    simp only [hact] at hcall
    cases hfindp : findById (fun p => p.id) pid doc.match_plans with
    | none =>
      rw [hfindp] at hcall
      exact absurd (congrArg Prod.snd hcall) (by simp)
    | some rec0 =>
      rw [hfindp] at hcall
      simp only [Option.map_some'] at hcall
      by_cases h1 : kt.isSome = true ∧ pyCleanOpt (kt.getD none) = none
      · rw [if_pos h1] at hcall
        exact absurd (congrArg Prod.snd hcall) (by simp)
      · rw [if_neg h1] at hcall
        by_cases h2 : v.isSome = true ∧ pyCleanOpt (v.getD none) = none
        · rw [if_pos h2] at hcall
          exact absurd (congrArg Prod.snd hcall) (by simp)
        · rw [if_neg h2] at hcall
          by_cases h3 : opp.isSome = true ∧ pyStrip (opp.getD "") = ""
          · rw [if_pos h3] at hcall
            exact absurd (congrArg Prod.snd hcall) (by simp)
          · rw [if_neg h3] at hcall
            cases hupd : updateById (fun p => p.id) pid
                (matchPlanUpdater squad md kt v opp comp nts
                  (some (normalizePlayerSelection doc active [] starters))
                  (some (normalizePlayerSelection doc active
                    (normalizePlayerSelection doc active [] starters) subs)))
                doc.match_plans with
            | none =>
              rw [hupd] at hcall
              exact absurd (congrArg Prod.snd hcall) (by simp)
            | some lp =>
              rw [hupd] at hcall
              have hp := Except.ok.inj (congrArg Prod.snd hcall)
              subst hp
              rcases updateById_spec _ _ _ _ _ _ hupd with ⟨l1, x, l2, _, _, _, hy, _⟩
              rw [hy]
              constructor
              · exact normalize_nil_eq doc active starters
              · rw [show (normalizePlayerSelection doc active
                    (normalizePlayerSelection doc active [] starters) subs) =
                      (pyDedup subs).filter (fun i =>
                        decide (i ∈ activePlayerIds doc active ∧
                          i ∉ normalizePlayerSelection doc active [] starters))
                  from normalize_excl_eq doc active _ subs]
                rfl

/-- Witness for C7 (amended) at the spec's exclusivity example: players 1, 2,
3 exist in the active season, starters [1, 2] and substitutes [2, 3]
normalize to [1, 2] and [3]. -/
theorem c7_roster_normalization_amended_witness :
    (c7plan.starters =
      (pyDedup [1, 2]).filter (fun i => i ∈ activePlayerIds c7exdoc 1) ∧
    c7plan.substitutes =
      (pyDedup [2, 3]).filter (fun i =>
        i ∈ activePlayerIds c7exdoc 1 ∧ i ∉ c7plan.starters)) ∧
    c7plan.starters = [1, 2] ∧ c7plan.substitutes = [3] :=
  ⟨c7_roster_normalization_amended.1 c7exdoc 1 "senior"
      { year := 2024, month := 9, day := 1 } (some "19:00") (some "Campo")
      "Rival" none none [1, 2] [2, 3]
      { c7exdoc with match_plans := [c7plan] } c7plan rfl (by decide),
   by decide⟩

theorem removeRevenue_players (doc : Doc) (rid : Int) :
    (removeRevenue doc rid).1.players = doc.players := by
  unfold removeRevenue
  cases removeById (fun r => r.id) rid doc.revenues <;> rfl

theorem removeRevenue_match_plans (doc : Doc) (rid : Int) :
    (removeRevenue doc rid).1.match_plans = doc.match_plans := by
  unfold removeRevenue
  cases removeById (fun r => r.id) rid doc.revenues <;> rfl

theorem removeRevenue_treatments (doc : Doc) (rid : Int) :
    (removeRevenue doc rid).1.treatments = doc.treatments := by
  unfold removeRevenue
  cases removeById (fun r => r.id) rid doc.revenues <;> rfl

theorem removeRevenue_members (doc : Doc) (rid : Int) :
    (removeRevenue doc rid).1.members = doc.members := by
  unfold removeRevenue
  cases removeById (fun r => r.id) rid doc.revenues <;> rfl

theorem removeRevenue_membership_payments (doc : Doc) (rid : Int) :
    (removeRevenue doc rid).1.membership_payments = doc.membership_payments := by
  unfold removeRevenue
  cases removeById (fun r => r.id) rid doc.revenues <;> rfl

theorem removeRevenue_revenues_sublist (doc : Doc) (rid : Int) :
    (removeRevenue doc rid).1.revenues.Sublist doc.revenues := by
  unfold removeRevenue
  cases h : removeById (fun r => r.id) rid doc.revenues with
  | none => exact List.Sublist.refl _
  | some l => exact removeById_sublist _ _ _ _ h

theorem removeRevenue_no_id (doc : Doc) (rid : Int)
    (hnd : (doc.revenues.map (fun r => r.id)).Nodup) :
    ∀ r ∈ (removeRevenue doc rid).1.revenues, r.id ≠ rid := by
  unfold removeRevenue
  cases h : removeById (fun r => r.id) rid doc.revenues with
  | none =>
    intro r hr
    exact (removeById_eq_none _ _ _).mp h r hr
  | some l =>
    intro r hr
    have hf := removeById_filter (fun r => r.id) rid doc.revenues l hnd h
    rw [show ({ doc with revenues := l } : Doc).revenues = l from rfl, hf] at hr
    rcases List.mem_filter.mp hr with ⟨_, hp⟩
    simpa using hp

theorem sublist_nodup_ids {α : Type} (getId : α → Int) (l l' : List α)
    (h : l'.Sublist l) (hnd : (l.map getId).Nodup) : (l'.map getId).Nodup :=
  List.Nodup.sublist (h.map getId) hnd

/-- C6: `remove_player` on a missing id fails with the document unchanged;
on an existing player it deletes the revenue records linked through the two
youth revenue links, prunes the id from every match plan's starters and
substitutes, deletes every treatment referencing the player, and deletes the
player record itself. -/
theorem c6_remove_player :
    ∀ (doc : Doc) (pid : Int),
      (findById (fun p => p.id) pid doc.players = none →
        removePlayer doc pid = (doc, Except.error ("Jogador não encontrado"))) ∧
      (∀ rec, findById (fun p => p.id) pid doc.players = some rec →
        IdsNodup (fun r => r.id) doc.revenues →
        IdsNodup (fun p => p.id) doc.players →
        ∃ doc2, removePlayer doc pid = (doc2, Except.ok ()) ∧
          (∀ rid, rec.youth_monthly_revenue_id = some rid ∨
              rec.youth_kit_revenue_id = some rid →
            ∀ r ∈ doc2.revenues, r.id ≠ rid) ∧
          (∀ plan ∈ doc2.match_plans, pid ∉ plan.starters ∧ pid ∉ plan.substitutes) ∧
          (∀ t ∈ doc2.treatments, t.player_id ≠ pid) ∧
          (∀ p ∈ doc2.players, p.id ≠ pid)) := by
  intro doc pid
  constructor
  · intro h
    unfold removePlayer
    rw [h]
  · intro rec hfind hndR hndP
    have hndR2 : (doc.revenues.map (fun r => r.id)).Nodup := hndR
    have hndP2 : (doc.players.map (fun p => p.id)).Nodup := hndP
    rcases removeById_of_findById (fun p => p.id) pid doc.players rec hfind with ⟨lp, hlp⟩
    have hlpf := removeById_filter (fun p => p.id) pid doc.players lp hndP2 hlp
    have hplayers : ∀ p ∈ lp, p.id ≠ pid := by
      intro p hp
      rw [hlpf] at hp
      rcases List.mem_filter.mp hp with ⟨_, hq⟩
      simpa using hq
    have hplans : ∀ plan ∈ doc.match_plans.map (fun plan =>
        { plan with
          starters := plan.starters.filter (fun pid2 => pid2 ≠ pid),
          substitutes := plan.substitutes.filter (fun pid2 => pid2 ≠ pid) }),
        pid ∉ plan.starters ∧ pid ∉ plan.substitutes := by
      intro plan hplan
      rcases List.mem_map.mp hplan with ⟨p0, _, hp0⟩
      subst hp0
      constructor
      · intro hmem
        rcases List.mem_filter.mp hmem with ⟨_, hq⟩
        simp at hq
      · intro hmem
        rcases List.mem_filter.mp hmem with ⟨_, hq⟩
        simp at hq
    have htreat : ∀ t ∈ doc.treatments.filter (fun t => t.player_id ≠ pid),
        t.player_id ≠ pid := by
      intro t ht
      rcases List.mem_filter.mp ht with ⟨_, hq⟩
      simpa using hq
    unfold removePlayer
    simp only [hfind]
    cases hm : rec.youth_monthly_revenue_id with
    | none =>
      cases hk : rec.youth_kit_revenue_id with
      | none =>
        simp only [hlp]
        refine ⟨_, rfl, ?_, hplans, htreat, hplayers⟩
        intro rid hor
        rcases hor with h | h
        · cases h
        · cases h
      | some rid2 =>
        simp only [removeRevenue_players, removeRevenue_match_plans,
          removeRevenue_treatments, hlp]
        refine ⟨_, rfl, ?_, hplans, htreat, hplayers⟩
        intro rid hor r hr
        rcases hor with h | h
        · cases h
        · have hrr := Option.some_inj.mp h
          subst hrr
          exact removeRevenue_no_id doc rid2 hndR2 r hr
    | some rid1 =>
      cases hk : rec.youth_kit_revenue_id with
      | none =>
        simp only [removeRevenue_players, removeRevenue_match_plans,
          removeRevenue_treatments, hlp]
        refine ⟨_, rfl, ?_, hplans, htreat, hplayers⟩
        intro rid hor r hr
        rcases hor with h | h
        · have hrr := Option.some_inj.mp h
          subst hrr
          exact removeRevenue_no_id doc rid1 hndR2 r hr
        · cases h
      | some rid2 =>
        simp only [removeRevenue_players, removeRevenue_match_plans,
          removeRevenue_treatments, hlp]
        refine ⟨_, rfl, ?_, hplans, htreat, hplayers⟩
        intro rid hor r hr
        have hsub := removeRevenue_revenues_sublist (removeRevenue doc rid1).1 rid2
        rcases hor with h | h
        · have hrr := Option.some_inj.mp h
          subst hrr
          exact removeRevenue_no_id doc rid1 hndR2 r (hsub.mem hr)
        · have hrr := Option.some_inj.mp h
          subst hrr
          have hndA : ((removeRevenue doc rid1).1.revenues.map (fun r => r.id)).Nodup :=
            sublist_nodup_ids (fun r => r.id) doc.revenues _
              (removeRevenue_revenues_sublist doc rid1) hndR2
          exact removeRevenue_no_id (removeRevenue doc rid1).1 rid2 hndA r hr

theorem Date.lt_irrefl (a : Date) : Date.lt a a = false := by
  simp [Date.lt]

theorem Date.lt_of_lt_of_not_lt {a b c : Date} (h1 : Date.lt a b = true)
    (h2 : Date.lt c b = false) : Date.lt c a = false := by
  simp [Date.lt] at h1 h2 ⊢
  omega

theorem Date.not_lt_trans {a b c : Date} (h1 : Date.lt a b = false)
    (h2 : Date.lt b c = false) : Date.lt a c = false := by
  simp [Date.lt] at h1 h2 ⊢
  omega

theorem maxByPaidOn_mem : ∀ (qs : List MembershipPayment) (q : MembershipPayment),
    maxByPaidOn q qs ∈ q :: qs := by
  intro qs
  induction qs with
  | nil =>
    intro q
    simp [maxByPaidOn]
  | cons y ys ih =>
    intro q
    cases h : Date.lt q.paid_on y.paid_on with
    | true =>
      have hstep : maxByPaidOn q (y :: ys) = maxByPaidOn y ys := by
        unfold maxByPaidOn
        simp [h]
      rw [hstep]
      exact List.mem_cons_of_mem q (ih y)
    | false =>
      have hstep : maxByPaidOn q (y :: ys) = maxByPaidOn q ys := by
        unfold maxByPaidOn
        simp [h]
      rw [hstep]
      rcases List.mem_cons.mp (ih q) with h1 | h1
      · rw [h1]
        exact List.mem_cons_self _ _
      · exact List.mem_cons_of_mem q (List.mem_cons_of_mem y h1)

theorem maxByPaidOn_max : ∀ (qs : List MembershipPayment) (q : MembershipPayment),
    ∀ x ∈ q :: qs, Date.lt (maxByPaidOn q qs).paid_on x.paid_on = false := by
  intro qs
  induction qs with
  | nil =>
    intro q x hx
    rcases List.mem_cons.mp hx with h | h
    · subst h
      exact Date.lt_irrefl _
    · cases h
  | cons y ys ih =>
    intro q x hx
    cases h : Date.lt q.paid_on y.paid_on with
    | true =>
      have hstep : maxByPaidOn q (y :: ys) = maxByPaidOn y ys := by
        unfold maxByPaidOn
        simp [h]
      rw [hstep]
      rcases List.mem_cons.mp hx with h1 | h1
      · subst h1
        exact Date.lt_of_lt_of_not_lt h (ih y y (by simp))
      · exact ih y x h1
    | false =>
      have hstep : maxByPaidOn q (y :: ys) = maxByPaidOn q ys := by
        unfold maxByPaidOn
        simp [h]
      rw [hstep]
      rcases List.mem_cons.mp hx with h1 | h1
      · subst h1
        exact ih x x (by simp)
      · rcases List.mem_cons.mp h1 with h2 | h2
        · subst h2
          exact Date.not_lt_trans (ih q q (by simp)) h
        · exact ih q x (by simp [h2])

/-- C3: after `remove_membership_payment` succeeds on an existing payment of
an existing member, the remaining payment list is the old one without the
removed id, no revenue record is removed (the revenues are untouched), and
the member's dues projection is recomputed from the remaining season-matching
payments: `dues_paid` is true iff one remains, `dues_paid_until` is the
period of the remaining payment with the latest `paid_on` (the first maximal
one on ties) and null when none remains. -/
theorem c3_dues_projection :
    ∀ (doc : Doc) (pid : Int) (pay : MembershipPayment) (m : Member),
      findById (fun q => q.id) pid doc.membership_payments = some pay →
      pay.member_id ≠ 0 →
      findById (fun mm => mm.id) pay.member_id doc.members = some m →
      ∃ doc2, removeMembershipPayment doc pid = (doc2, Except.ok ()) ∧
        doc2.membership_payments =
          doc.membership_payments.filter (fun q => q.id ≠ pid) ∧
        doc2.revenues = doc.revenues ∧
        ∃ m2, findById (fun mm => mm.id) pay.member_id doc2.members = some m2 ∧
          (m2.dues_paid = true ↔
            remainingPayments doc2.membership_payments pay.member_id m.season_id ≠ []) ∧
          (remainingPayments doc2.membership_payments pay.member_id m.season_id = [] →
            m2.dues_paid_until = none) ∧
          (∀ q0 qs0,
            remainingPayments doc2.membership_payments pay.member_id m.season_id =
              q0 :: qs0 →
            ∃ qmax ∈ q0 :: qs0,
              (∀ q2 ∈ q0 :: qs0, Date.lt qmax.paid_on q2.paid_on = false) ∧
              m2.dues_paid_until = some qmax.period) := by
  intro doc pid pay m hfind hmem0 hfindm
  rcases updateById_of_findById (fun mm => mm.id) pay.member_id
      (fun mm =>
        { mm with
          dues_paid := !(remainingPayments
            (doc.membership_payments.filter (fun q => q.id ≠ pid))
            pay.member_id m.season_id).isEmpty,
          dues_paid_until :=
            match remainingPayments
                (doc.membership_payments.filter (fun q => q.id ≠ pid))
                pay.member_id m.season_id with
            | [] => none
            | q :: qs => some (maxByPaidOn q qs).period })
      doc.members m hfindm with ⟨lm, hlm⟩
  unfold removeMembershipPayment
  simp only [hfind]
  rw [if_neg hmem0]
  simp only [hfindm, hlm]
  refine ⟨_, rfl, rfl, rfl,
    { m with
      dues_paid := !(remainingPayments
        (doc.membership_payments.filter (fun q => q.id ≠ pid))
        pay.member_id m.season_id).isEmpty,
      dues_paid_until :=
        match remainingPayments
            (doc.membership_payments.filter (fun q => q.id ≠ pid))
            pay.member_id m.season_id with
        | [] => none
        | q :: qs => some (maxByPaidOn q qs).period },
    ?_, ?_, ?_, ?_⟩
  · exact findById_after_update (fun mm => mm.id) pay.member_id
      (fun mm =>
        { mm with
          dues_paid := !(remainingPayments
            (doc.membership_payments.filter (fun q => q.id ≠ pid))
            pay.member_id m.season_id).isEmpty,
          dues_paid_until :=
            match remainingPayments
                (doc.membership_payments.filter (fun q => q.id ≠ pid))
                pay.member_id m.season_id with
            | [] => none
            | q :: qs => some (maxByPaidOn q qs).period })
      doc.members lm _ hlm (fun x => rfl)
  · cases hr : remainingPayments
        (doc.membership_payments.filter (fun q => q.id ≠ pid))
        pay.member_id m.season_id with
    | nil => simp [hr]
    | cons q0 qs0 => simp [hr]
  · intro hr
    simp at hr
    simp [hr]
  · intro q0 qs0 hr
    refine ⟨maxByPaidOn q0 qs0, maxByPaidOn_mem qs0 q0, maxByPaidOn_max qs0 q0, ?_⟩
    simp at hr
    simp [hr]

/-- Witness for C4 at a concrete October date: creation from the empty
document, and repair of an unset active pointer. -/
theorem c4_season_setup_witness :
    ensureSeasonSetup exToday emptyDoc =
      { emptyDoc with
        seasons := [defaultSeason exToday],
        active_season_id := some 1 } ∧
    (ensureSeasonSetup exToday c4doc).active_season_id = some 5 := by
  constructor
  · exact c4_season_setup.1 exToday (by decide)
  · exact (c4_season_setup.2 exToday c4doc exSeason5 [] rfl (Or.inl rfl)).2

/-- Witness for C5: removing the non-active season 2 of `c5doc` succeeds and
removing the active season 1 fails with the validation error. -/
theorem c5_remove_season_witness :
    (removeSeason c5doc 2).2 = Except.ok () ∧
    (removeSeason c5doc 1).2 =
      Except.error ("Não é possível eliminar a época ativa.") := by
  constructor
  · rcases (c5_remove_season c5doc 1 2 rfl).2 (by decide)
      (by unfold IdsNodup; decide)
      ⟨exSeason2, by decide, rfl⟩ with ⟨doc2, heq, _⟩
    rw [heq]
  · rw [(c5_remove_season c5doc 1 1 rfl).1 rfl]

/-- Witness for C3 at the spec's example: deleting the February payment of a
member with January and February payments reverts `dues_paid_until` to
2024-01, and the revenue record is kept. -/
theorem c3_dues_projection_witness :
    (∃ doc2, removeMembershipPayment c3doc 2 = (doc2, Except.ok ()) ∧
      doc2.membership_payments =
        c3doc.membership_payments.filter (fun q => q.id ≠ 2) ∧
      doc2.revenues = c3doc.revenues ∧
      ∃ m2, findById (fun mm => mm.id) c3pay2.member_id doc2.members = some m2 ∧
        (m2.dues_paid = true ↔
          remainingPayments doc2.membership_payments c3pay2.member_id
            c3member.season_id ≠ []) ∧
        (remainingPayments doc2.membership_payments c3pay2.member_id
            c3member.season_id = [] →
          m2.dues_paid_until = none) ∧
        (∀ q0 qs0,
          remainingPayments doc2.membership_payments c3pay2.member_id
            c3member.season_id = q0 :: qs0 →
          ∃ qmax ∈ q0 :: qs0,
            (∀ q2 ∈ q0 :: qs0, Date.lt qmax.paid_on q2.paid_on = false) ∧
            m2.dues_paid_until = some qmax.period)) ∧
    (removeMembershipPayment c3doc 2).1.members =
      [{ c3member with dues_paid := true, dues_paid_until := some "2024-01" }] :=
  ⟨c3_dues_projection c3doc 2 c3pay2 c3member rfl (by decide) rfl, by decide⟩

/-- Witness for C6 on a concrete document: removing player 1 deletes the
linked revenue, prunes the match plan, deletes the two treatments and the
player; removing a missing id fails and leaves the document unchanged. -/
theorem c6_remove_player_witness :
    (∃ doc2, removePlayer c6doc 1 = (doc2, Except.ok ()) ∧
      (∀ rid, c6player.youth_monthly_revenue_id = some rid ∨
          c6player.youth_kit_revenue_id = some rid →
        ∀ r ∈ doc2.revenues, r.id ≠ rid) ∧
      (∀ plan ∈ doc2.match_plans,
        (1 : Int) ∉ plan.starters ∧ (1 : Int) ∉ plan.substitutes) ∧
      (∀ t ∈ doc2.treatments, t.player_id ≠ 1) ∧
      (∀ p ∈ doc2.players, p.id ≠ 1)) ∧
    removePlayer c6doc 99 = (c6doc, Except.error ("Jogador não encontrado")) :=
  ⟨(c6_remove_player c6doc 1).2 c6player rfl (by unfold IdsNodup; decide)
      (by unfold IdsNodup; decide),
   (c6_remove_player c6doc 99).1 rfl⟩

/-- Witness for C10 on a document containing no players at all: assigning the
non-existent player id 99 to the active-season team succeeds; assigning to
the other season's team fails with the document unchanged. -/
theorem c10_assign_player_to_team_witness :
    (∃ doc2 team2, assignPlayerToTeam c10doc 1 99 = (doc2, Except.ok team2) ∧
      findById (fun t => t.id) 1 doc2.youth_teams = some team2 ∧
      List.Sorted (· ≤ ·) team2.player_ids ∧
      team2.player_ids.Nodup ∧
      (99 : Int) ∈ team2.player_ids ∧
      (∀ x, x ∈ team2.player_ids ↔ x = 99 ∨ x ∈ c10team1.player_ids)) ∧
    assignPlayerToTeam c10doc 2 99 =
      (c10doc, Except.error ("Apenas é possível gerir equipas da época ativa.")) :=
  ⟨(c10_assign_player_to_team c10doc 1 1 99 c10team1 rfl rfl).1 (Or.inr rfl),
   (c10_assign_player_to_team c10doc 1 2 99 c10team2 rfl rfl).2 2 rfl (by decide)⟩

/-! Helper lemmas for the atomicity analysis: the revenue synchronisation
helpers never touch the player collection. -/

theorem updateRevenue_players (doc : Doc) (rid : Int) (d : Option String)
    (a : Option Amount) (c : Option String) (rd : Option Date)
    (s : Option String) :
    (updateRevenue doc rid d a c rd s).1.players = doc.players := by
  simp only [updateRevenue]
  split <;> rfl

theorem syncYouthRevenue_players (today : Date) (doc : Doc)
    (active player_id : Int) (nm sq : String) (amount : Option Amount)
    (paid : Bool) (exid : Option Int) (dl sl : String) :
    (syncYouthRevenue today doc active player_id nm sq amount paid exid
        dl sl).1.players = doc.players := by
  simp only [syncYouthRevenue]
  split
  · split
    · exact removeRevenue_players doc _
    · rfl
  · split
    · rfl
    · split
      · split
        · rename_i doc2 rev heq
          have h2 := congrArg (fun p : Doc × Except String Revenue => p.1.players) heq
          simp only [updateRevenue_players] at h2
          exact h2.symm
        · rfl
      · rfl

/-- C2 counterexample: `remove_membership_payment` persists the payment
deletion before recomputing the member's dues projection; when the removed
payment's `member_id` references a member that does not exist, the call
raises after the write, so the persisted document differs from the starting
one even though the operation reported an error. -/
theorem c2_counterexample :
    (removeMembershipPayment c2doc 1).2 =
        Except.error ("Member with id not found") ∧
      (removeMembershipPayment c2doc 1).1 ≠ c2doc ∧
      (removeMembershipPayment c2doc 1).1.membership_payments = [] := by
  refine ⟨?_, ?_, ?_⟩ <;> decide

/-! Error atomicity of the individual operations: whenever an operation
reports an error, the persisted document is the starting document.  (The
single exception, `removeMembershipPayment` on a dangling member reference,
is treated separately with an explicit safety hypothesis.) -/

theorem noPartialWrite_removeSeason (doc : Doc) (sid : Int) (e : String)
    (herr : (removeSeason doc sid).2 = Except.error e) :
    (removeSeason doc sid).1 = doc := by
  rcases hres : removeSeason doc sid with ⟨d2, res⟩
  rw [hres] at herr
  have herr2 : res = Except.error e := herr
  show d2 = doc
  simp only [removeSeason] at hres
  repeat'
    first
    | (rw [Prod.mk.injEq] at hres; exact hres.1.symm)
    | (rw [Prod.mk.injEq] at hres; rw [← hres.2] at herr2;
       exact Except.noConfusion herr2)
    | split at hres

theorem noPartialWrite_createMatchPlan (doc : Doc) (squad : String)
    (match_date : Date) (kickoff_time venue : Option String) (opponent : String)
    (competition notes : Option String) (starters substitutes : List Int)
    (e : String)
    (herr : (createMatchPlan doc squad match_date kickoff_time venue opponent
      competition notes starters substitutes).2 = Except.error e) :
    (createMatchPlan doc squad match_date kickoff_time venue opponent
      competition notes starters substitutes).1 = doc := by
  rcases hres : createMatchPlan doc squad match_date kickoff_time venue opponent
    competition notes starters substitutes with ⟨d2, res⟩
  rw [hres] at herr
  have herr2 : res = Except.error e := herr
  show d2 = doc
  simp only [createMatchPlan] at hres
  repeat'
    first
    | (rw [Prod.mk.injEq] at hres; exact hres.1.symm)
    | (rw [Prod.mk.injEq] at hres; rw [← hres.2] at herr2;
       exact Except.noConfusion herr2)
    | split at hres

theorem noPartialWrite_updateMatchPlan (doc : Doc) (plan_id : Int)
    (squad : Option String) (match_date : Option Date)
    (kickoff_time venue : Option (Option String)) (opponent : Option String)
    (competition notes : Option (Option String))
    (starters substitutes : Option (List Int)) (e : String)
    (herr : (updateMatchPlan doc plan_id squad match_date kickoff_time venue
      opponent competition notes starters substitutes).2 = Except.error e) :
    (updateMatchPlan doc plan_id squad match_date kickoff_time venue opponent
      competition notes starters substitutes).1 = doc := by
  rcases hres : updateMatchPlan doc plan_id squad match_date kickoff_time venue
    opponent competition notes starters substitutes with ⟨d2, res⟩
  rw [hres] at herr
  have herr2 : res = Except.error e := herr
  show d2 = doc
  simp only [updateMatchPlan] at hres
  repeat'
    first
    | (rw [Prod.mk.injEq] at hres; exact hres.1.symm)
    | (rw [Prod.mk.injEq] at hres; rw [← hres.2] at herr2;
       exact Except.noConfusion herr2)
    | split at hres

theorem noPartialWrite_assignPlayerToTeam (doc : Doc) (tid pid : Int)
    (e : String)
    (herr : (assignPlayerToTeam doc tid pid).2 = Except.error e) :
    (assignPlayerToTeam doc tid pid).1 = doc := by
  rcases hres : assignPlayerToTeam doc tid pid with ⟨d2, res⟩
  rw [hres] at herr
  have herr2 : res = Except.error e := herr
  show d2 = doc
  simp only [assignPlayerToTeam] at hres
  repeat'
    first
    | (rw [Prod.mk.injEq] at hres; exact hres.1.symm)
    | (rw [Prod.mk.injEq] at hres; rw [← hres.2] at herr2;
       exact Except.noConfusion herr2)
    | split at hres

/-- A record is always found for update in a list it was just appended to,
under the id it carries. -/
theorem updateById_append_self {α : Type} (getId : α → Int) (f : α → α)
    (l : List α) (x : α) (i : Int)
    (h : updateById getId i f (l ++ [x]) = none) (hi : getId x = i) : False :=
  ((updateById_eq_none _ _ _ _).mp h x
    (List.mem_append_right _ (List.mem_singleton.mpr rfl))) hi

theorem noPartialWrite_removeMembershipPayment (doc : Doc) (pid : Int)
    (e : String)
    (hsafe : ∀ pay, findById (fun q => q.id) pid doc.membership_payments =
        some pay → pay.member_id ≠ 0 →
      ∃ m, findById (fun mm => mm.id) pay.member_id doc.members = some m)
    (herr : (removeMembershipPayment doc pid).2 = Except.error e) :
    (removeMembershipPayment doc pid).1 = doc := by
  rcases hres : removeMembershipPayment doc pid with ⟨d2, res⟩
  rw [hres] at herr
  have herr2 : res = Except.error e := herr
  show d2 = doc
  simp only [removeMembershipPayment] at hres
  cases hfind : findById (fun q => q.id) pid doc.membership_payments with
  | none =>
    simp only [hfind] at hres
    rw [Prod.mk.injEq] at hres
    exact hres.1.symm
  | some pay =>
    simp only [hfind] at hres
    by_cases h0 : pay.member_id = 0
    · rw [if_pos h0] at hres
      rw [Prod.mk.injEq] at hres
      rw [← hres.2] at herr2
      exact Except.noConfusion herr2
    · rw [if_neg h0] at hres
      rcases hsafe pay hfind h0 with ⟨m, hm⟩
      simp only [hm] at hres
      split at hres
      · rw [Prod.mk.injEq] at hres
        rw [← hres.2] at herr2
        exact Except.noConfusion herr2
      · rename_i hnone
        exact absurd (findById_mem _ _ _ _ hm).2
          ((updateById_eq_none _ _ _ _).mp hnone m (findById_mem _ _ _ _ hm).1)

theorem noPartialWrite_registerMembershipPayment (doc : Doc) (mid : Int)
    (amount : Amount) (period : String) (paid_on : Date) (mtid : Option Int)
    (nts : Option String) (e : String)
    (herr : (registerMembershipPayment doc mid amount period paid_on mtid
      nts).2 = Except.error e) :
    (registerMembershipPayment doc mid amount period paid_on mtid nts).1 =
      doc := by
  rcases hres : registerMembershipPayment doc mid amount period paid_on mtid nts
    with ⟨d2, res⟩
  rw [hres] at herr
  have herr2 : res = Except.error e := herr
  show d2 = doc
  simp only [registerMembershipPayment] at hres
  cases hact : doc.active_season_id with
  | none =>
    simp only [hact] at hres
    rw [Prod.mk.injEq] at hres
    exact hres.1.symm
  | some active =>
    simp only [hact] at hres
    cases hmem : findById (fun m => m.id) mid doc.members with
    | none =>
      simp only [hmem] at hres
      rw [Prod.mk.injEq] at hres
      exact hres.1.symm
    | some member =>
      simp only [hmem] at hres
      by_cases hs : member.season_id.isSome ∧ member.season_id ≠ some active
      · rw [if_pos hs] at hres
        rw [Prod.mk.injEq] at hres
        exact hres.1.symm
      · rw [if_neg hs] at hres
        cases hmtid : mtid with
        | none =>
          simp only [hmtid] at hres
          split at hres
          · rename_i hnone
            exact absurd (findById_mem _ _ _ _ hmem).2
              ((updateById_eq_none _ _ _ _).mp hnone member
                (findById_mem _ _ _ _ hmem).1)
          · rw [Prod.mk.injEq] at hres
            rw [← hres.2] at herr2
            exact Except.noConfusion herr2
        | some tid =>
          simp only [hmtid] at hres
          cases htyp : findById (fun t => t.id) tid doc.membership_types with
          | none =>
            simp only [htyp] at hres
            rw [Prod.mk.injEq] at hres
            exact hres.1.symm
          | some t =>
            simp only [htyp] at hres
            split at hres
            · rename_i hnone
              exact absurd (findById_mem _ _ _ _ hmem).2
                ((updateById_eq_none _ _ _ _).mp hnone member
                  (findById_mem _ _ _ _ hmem).1)
            · rw [Prod.mk.injEq] at hres
              rw [← hres.2] at herr2
              exact Except.noConfusion herr2

theorem noPartialWrite_addPlayer (today : Date) (doc : Doc)
    (name position squad : String) (birthdate : Option Date)
    (contact : Option String) (shirt_number : Option Int)
    (af_porto_id photo_url : Option String) (mf : Option Amount) (mp : Bool)
    (kf : Option Amount) (kp : Bool) (e : String)
    (herr : (addPlayer today doc name position squad birthdate contact
      shirt_number af_porto_id photo_url mf mp kf kp).2 = Except.error e) :
    (addPlayer today doc name position squad birthdate contact shirt_number
      af_porto_id photo_url mf mp kf kp).1 = doc := by
  rcases hres : addPlayer today doc name position squad birthdate contact
    shirt_number af_porto_id photo_url mf mp kf kp with ⟨d2, res⟩
  rw [hres] at herr
  have herr2 : res = Except.error e := herr
  show d2 = doc
  simp only [addPlayer] at hres
  repeat'
    first
    | (rw [Prod.mk.injEq] at hres; exact hres.1.symm)
    | (rw [Prod.mk.injEq] at hres; rw [← hres.2] at herr2;
       exact Except.noConfusion herr2)
    | split at hres
  all_goals
    rename_i hnone
  all_goals
    simp only [syncYouthRevenue_players] at hnone
  all_goals
    have hc := updateById_append_self (fun p => p.id) _ doc.players _ _ hnone
    exact (hc rfl).elim

theorem noPartialWrite_updatePlayer (today : Date) (doc : Doc)
    (player_id : Int) (name position squad : Option String)
    (birthdate : Option Date) (contact : Option String)
    (shirt_number : Option Int) (af_porto_id photo_url : Option (Option String))
    (mf : Option (Option Amount)) (mp : Option Bool) (kf : Option (Option Amount))
    (kp : Option Bool) (e : String)
    (herr : (updatePlayer today doc player_id name position squad birthdate
      contact shirt_number af_porto_id photo_url mf mp kf kp).2 =
        Except.error e) :
    (updatePlayer today doc player_id name position squad birthdate contact
      shirt_number af_porto_id photo_url mf mp kf kp).1 = doc := by
  rcases hres : updatePlayer today doc player_id name position squad birthdate
    contact shirt_number af_porto_id photo_url mf mp kf kp with ⟨d2, res⟩
  rw [hres] at herr
  have herr2 : res = Except.error e := herr
  show d2 = doc
  simp only [updatePlayer] at hres
  cases hact : doc.active_season_id with
  | none =>
    simp only [hact] at hres
    rw [Prod.mk.injEq] at hres
    exact hres.1.symm
  | some active =>
    simp only [hact] at hres
    cases hrec : findById (fun p => p.id) player_id doc.players with
    | none =>
      simp only [hrec] at hres
      rw [Prod.mk.injEq] at hres
      exact hres.1.symm
    | some record =>
      simp only [hrec] at hres
      repeat'
        first
        | (rw [Prod.mk.injEq] at hres; exact hres.1.symm)
        | (rw [Prod.mk.injEq] at hres; rw [← hres.2] at herr2;
           exact Except.noConfusion herr2)
        | split at hres
      all_goals
        rename_i hnone
      all_goals
        simp only [syncYouthRevenue_players] at hnone
      all_goals
        exact absurd (findById_mem _ _ _ _ hrec).2
          ((updateById_eq_none _ _ _ _).mp hnone record
            (findById_mem _ _ _ _ hrec).1)

theorem noPartialWrite_removePlayer (doc : Doc) (pid : Int) (e : String)
    (herr : (removePlayer doc pid).2 = Except.error e) :
    (removePlayer doc pid).1 = doc := by
  rcases hres : removePlayer doc pid with ⟨d2, res⟩
  rw [hres] at herr
  have herr2 : res = Except.error e := herr
  show d2 = doc
  simp only [removePlayer] at hres
  cases hrec : findById (fun p => p.id) pid doc.players with
  | none =>
    simp only [hrec] at hres
    rw [Prod.mk.injEq] at hres
    exact hres.1.symm
  | some record =>
    simp only [hrec] at hres
    cases hm : record.youth_monthly_revenue_id with
    | none =>
      simp only [hm] at hres
      cases hk : record.youth_kit_revenue_id with
      | none =>
        simp only [hk] at hres
        split at hres
        · rw [Prod.mk.injEq] at hres
          rw [← hres.2] at herr2
          exact Except.noConfusion herr2
        · rename_i hnone
          try simp only [removeRevenue_players] at hnone
          exact absurd (findById_mem _ _ _ _ hrec).2
            ((removeById_eq_none _ _ _).mp hnone record
              (findById_mem _ _ _ _ hrec).1)
      | some rk =>
        simp only [hk] at hres
        split at hres
        · rw [Prod.mk.injEq] at hres
          rw [← hres.2] at herr2
          exact Except.noConfusion herr2
        · rename_i hnone
          try simp only [removeRevenue_players] at hnone
          exact absurd (findById_mem _ _ _ _ hrec).2
            ((removeById_eq_none _ _ _).mp hnone record
              (findById_mem _ _ _ _ hrec).1)
    | some rm =>
      simp only [hm] at hres
      cases hk : record.youth_kit_revenue_id with
      | none =>
        simp only [hk] at hres
        split at hres
        · rw [Prod.mk.injEq] at hres
          rw [← hres.2] at herr2
          exact Except.noConfusion herr2
        · rename_i hnone
          try simp only [removeRevenue_players] at hnone
          exact absurd (findById_mem _ _ _ _ hrec).2
            ((removeById_eq_none _ _ _).mp hnone record
              (findById_mem _ _ _ _ hrec).1)
      | some rk =>
        simp only [hk] at hres
        split at hres
        · rw [Prod.mk.injEq] at hres
          rw [← hres.2] at herr2
          exact Except.noConfusion herr2
        · rename_i hnone
          try simp only [removeRevenue_players] at hnone
          exact absurd (findById_mem _ _ _ _ hrec).2
            ((removeById_eq_none _ _ _).mp hnone record
              (findById_mem _ _ _ _ hrec).1)

/-- C2 (amended): error atomicity holds for every modeled mutating service
operation except one case — `remove_membership_payment` persists the payment
deletion before updating the member projection, so when the removed payment
carries a non-zero `member_id` that references no existing member the call
raises with the deletion already persisted.  For `remove_membership_payment`
under the assumption that the referenced member exists (or the reference is
the 0 placeholder), and for `register_membership_payment`, `add_player`,
`update_player`, `remove_player`, `create_match_plan`, `update_match_plan`,
`assign_player_to_team` and `remove_season` unconditionally: whenever the
operation reports an error, the persisted document equals the starting
document. -/
theorem c2_atomicity_amended :
    (∀ (doc : Doc) (pid : Int) (e : String),
      (∀ pay, findById (fun q => q.id) pid doc.membership_payments =
          some pay → pay.member_id ≠ 0 →
        ∃ m, findById (fun mm => mm.id) pay.member_id doc.members = some m) →
      (removeMembershipPayment doc pid).2 = Except.error e →
      (removeMembershipPayment doc pid).1 = doc) ∧
    (∀ (doc : Doc) (mid : Int) (amount : Amount) (period : String)
        (paid_on : Date) (mtid : Option Int) (nts : Option String) (e : String),
      (registerMembershipPayment doc mid amount period paid_on mtid nts).2 =
        Except.error e →
      (registerMembershipPayment doc mid amount period paid_on mtid nts).1 =
        doc) ∧
    (∀ (today : Date) (doc : Doc) (name position squad : String)
        (birthdate : Option Date) (contact : Option String)
        (shirt_number : Option Int) (af_porto_id photo_url : Option String)
        (mf : Option Amount) (mp : Bool) (kf : Option Amount) (kp : Bool)
        (e : String),
      (addPlayer today doc name position squad birthdate contact shirt_number
        af_porto_id photo_url mf mp kf kp).2 = Except.error e →
      (addPlayer today doc name position squad birthdate contact shirt_number
        af_porto_id photo_url mf mp kf kp).1 = doc) ∧
    (∀ (today : Date) (doc : Doc) (player_id : Int)
        (name position squad : Option String) (birthdate : Option Date)
        (contact : Option String) (shirt_number : Option Int)
        (af_porto_id photo_url : Option (Option String))
        (mf : Option (Option Amount)) (mp : Option Bool)
        (kf : Option (Option Amount)) (kp : Option Bool) (e : String),
      (updatePlayer today doc player_id name position squad birthdate contact
        shirt_number af_porto_id photo_url mf mp kf kp).2 = Except.error e →
      (updatePlayer today doc player_id name position squad birthdate contact
        shirt_number af_porto_id photo_url mf mp kf kp).1 = doc) ∧
    (∀ (doc : Doc) (pid : Int) (e : String),
      (removePlayer doc pid).2 = Except.error e →
      (removePlayer doc pid).1 = doc) ∧
    (∀ (doc : Doc) (squad : String) (match_date : Date)
        (kickoff_time venue : Option String) (opponent : String)
        (competition notes : Option String) (starters substitutes : List Int)
        (e : String),
      (createMatchPlan doc squad match_date kickoff_time venue opponent
        competition notes starters substitutes).2 = Except.error e →
      (createMatchPlan doc squad match_date kickoff_time venue opponent
        competition notes starters substitutes).1 = doc) ∧
    (∀ (doc : Doc) (plan_id : Int) (squad : Option String)
        (match_date : Option Date) (kickoff_time venue : Option (Option String))
        (opponent : Option String) (competition notes : Option (Option String))
        (starters substitutes : Option (List Int)) (e : String),
      (updateMatchPlan doc plan_id squad match_date kickoff_time venue opponent
        competition notes starters substitutes).2 = Except.error e →
      (updateMatchPlan doc plan_id squad match_date kickoff_time venue opponent
        competition notes starters substitutes).1 = doc) ∧
    (∀ (doc : Doc) (tid pid : Int) (e : String),
      (assignPlayerToTeam doc tid pid).2 = Except.error e →
      (assignPlayerToTeam doc tid pid).1 = doc) ∧
    (∀ (doc : Doc) (sid : Int) (e : String),
      (removeSeason doc sid).2 = Except.error e →
      (removeSeason doc sid).1 = doc) :=
  ⟨noPartialWrite_removeMembershipPayment,
   noPartialWrite_registerMembershipPayment,
   fun today doc name position squad bd ct sn ap pu mf mp kf kp e =>
     noPartialWrite_addPlayer today doc name position squad bd ct sn ap pu
       mf mp kf kp e,
   fun today doc pid name position squad bd ct sn ap pu mf mp kf kp e =>
     noPartialWrite_updatePlayer today doc pid name position squad bd ct sn
       ap pu mf mp kf kp e,
   noPartialWrite_removePlayer,
   noPartialWrite_createMatchPlan,
   noPartialWrite_updateMatchPlan,
   noPartialWrite_assignPlayerToTeam,
   noPartialWrite_removeSeason⟩

/-- Concrete instantiation of the amended atomicity theorem: removing the
active season of `c5doc` raises, and the persisted document is unchanged;
removing a payment of `c3doc` (whose member exists) with an unknown id also
leaves the document unchanged. -/
theorem c2_atomicity_amended_witness :
    (removeSeason c5doc 1).1 = c5doc ∧
      (removeMembershipPayment c3doc 99).1 = c3doc :=
  ⟨c2_atomicity_amended.2.2.2.2.2.2.2.2 c5doc 1
      ("Não é possível eliminar a época ativa.") (by decide),
   c2_atomicity_amended.1 c3doc 99 ("Membership payment with id not found")
      (fun pay hp hm0 =>
        Option.noConfusion
          ((by decide : findById (fun q => q.id) 99
              c3doc.membership_payments = none).symm.trans hp))
      (by decide)⟩

/-! Date codec round-trip lemmas. -/

theorem charDigit_digitChar (k : Nat) (hk : k < 10) :
    charDigit (digitChar k) = some k := by
  interval_cases k <;> decide

theorem parse2_pad (m : Nat) (hm : m ≤ 99) :
    parse2 (digitChar (m / 10)) (digitChar (m % 10)) = some m := by
  have h1 := charDigit_digitChar (m / 10) (by omega)
  have h2 := charDigit_digitChar (m % 10) (by omega)
  simp only [parse2, h1, h2, Option.bind_eq_bind, Option.some_bind]
  exact congrArg some (by omega)

theorem parse4_pad (y : Nat) (hy : y ≤ 9999) :
    parse4 (digitChar (y / 1000)) (digitChar (y / 100 % 10))
      (digitChar (y / 10 % 10)) (digitChar (y % 10)) = some y := by
  have h1 := charDigit_digitChar (y / 1000) (by omega)
  have h2 := charDigit_digitChar (y / 100 % 10) (by omega)
  have h3 := charDigit_digitChar (y / 10 % 10) (by omega)
  have h4 := charDigit_digitChar (y % 10) (by omega)
  simp only [parse4, h1, h2, h3, h4, Option.bind_eq_bind, Option.some_bind]
  exact congrArg some (by omega)

theorem daysInMonth_le (y m : Nat) : daysInMonth y m ≤ 31 := by
  unfold daysInMonth
  split
  · split <;> omega
  · split <;> omega

theorem fromIso_iso (d : Date) (hv : d.Valid) : Date.fromIso d.iso = some d := by
  obtain ⟨h1, h2, h3, h4, h5, h6⟩ := hv
  have hm99 : d.month ≤ 99 := by omega
  have hd99 : d.day ≤ 99 := by
    have := daysInMonth_le d.year d.month
    omega
  simp only [Date.fromIso, Date.iso, pad4, pad2, List.cons_append,
    List.nil_append]
  rw [if_pos ⟨trivial, trivial⟩]
  simp only [parse4_pad _ h2, parse2_pad _ hm99, parse2_pad _ hd99]
  rw [if_pos (show Date.Valid { year := d.year, month := d.month, day := d.day }
    from ⟨h1, h2, h3, h4, h5, h6⟩)]

theorem iso_ne_empty (d : Date) : d.iso ≠ "" := by
  intro h
  have h2 := congrArg String.data h
  simp only [Date.iso, pad4, pad2, List.cons_append, List.nil_append] at h2
  exact List.noConfusion h2

theorem decodeDate_iso (d : Date) (hv : d.Valid) :
    decodeDate d.iso = some d := by
  unfold decodeDate
  rw [if_neg (iso_ne_empty d), fromIso_iso d hv]

theorem decodeOptDate_iso (o : Option Date) (hv : ∀ b, o = some b → b.Valid) :
    decodeOptDate (o.map Date.iso) = some o := by
  cases o with
  | none => rfl
  | some b =>
    simp only [Option.map_some', decodeOptDate]
    rw [if_neg (iso_ne_empty b), fromIso_iso b (hv b rfl)]
    rfl

/-! Entity round-trips through the persisted record form. -/

theorem roundTripSeason (e : Season) (h1 : e.start_date.Valid)
    (h2 : e.end_date.Valid) :
    instantiateSeason (serializeSeason e) = some e := by
  simp only [instantiateSeason, serializeSeason, decodeDate_iso _ h1,
    decodeDate_iso _ h2, Option.bind_eq_bind, Option.some_bind]
  rfl

theorem roundTripPlayer (e : Player)
    (hb : ∀ b, e.birthdate = some b → b.Valid) :
    instantiatePlayer (serializePlayer e) = some e := by
  simp only [instantiatePlayer, serializePlayer, decodeOptDate_iso _ hb,
    Option.bind_eq_bind, Option.some_bind]
  rfl

theorem roundTripCoach (e : Coach)
    (hb : ∀ b, e.birthdate = some b → b.Valid) :
    instantiateCoach (serializeCoach e) = some e := by
  simp only [instantiateCoach, serializeCoach, decodeOptDate_iso _ hb,
    Option.bind_eq_bind, Option.some_bind]
  rfl

theorem roundTripPhysiotherapist (e : Physiotherapist)
    (hb : ∀ b, e.birthdate = some b → b.Valid) :
    instantiatePhysiotherapist (serializePhysiotherapist e) = some e := by
  simp only [instantiatePhysiotherapist, serializePhysiotherapist,
    decodeOptDate_iso _ hb, Option.bind_eq_bind, Option.some_bind]
  rfl

theorem roundTripTreatment (e : Treatment) (h1 : e.start_date.Valid)
    (h2 : ∀ b, e.expected_return = some b → b.Valid) :
    instantiateTreatment (serializeTreatment e) = some e := by
  simp only [instantiateTreatment, serializeTreatment, decodeDate_iso _ h1,
    decodeOptDate_iso _ h2, Option.bind_eq_bind, Option.some_bind]
  rfl

theorem roundTripMatchPlan (e : MatchPlan) (h1 : e.match_date.Valid) :
    instantiateMatchPlan (serializeMatchPlan e) = some e := by
  simp only [instantiateMatchPlan, serializeMatchPlan, decodeDate_iso _ h1,
    Option.bind_eq_bind, Option.some_bind]
  rfl

theorem roundTripYouthTeam (e : YouthTeam) :
    instantiateYouthTeam (serializeYouthTeam e) = some e := rfl

theorem roundTripMembershipType (e : MembershipType) :
    instantiateMembershipType (serializeMembershipType e) = some e := rfl

theorem roundTripMember (e : Member)
    (h1 : ∀ b, e.birthdate = some b → b.Valid)
    (h2 : ∀ b, e.membership_since = some b → b.Valid) :
    instantiateMember (serializeMember e) = some e := by
  simp only [instantiateMember, serializeMember, decodeOptDate_iso _ h1,
    decodeOptDate_iso _ h2, Option.bind_eq_bind, Option.some_bind]
  rfl

theorem roundTripMembershipPayment (e : MembershipPayment)
    (h1 : e.paid_on.Valid) :
    instantiateMembershipPayment (serializeMembershipPayment e) = some e := by
  simp only [instantiateMembershipPayment, serializeMembershipPayment,
    decodeDate_iso _ h1, Option.bind_eq_bind, Option.some_bind]
  rfl

theorem roundTripRevenue (e : Revenue) (h1 : e.record_date.Valid) :
    instantiateRevenue (serializeRevenue e) = some e := by
  simp only [instantiateRevenue, serializeRevenue, decodeDate_iso _ h1,
    Option.bind_eq_bind, Option.some_bind]
  rfl

theorem roundTripExpense (e : Expense) (h1 : e.record_date.Valid) :
    instantiateExpense (serializeExpense e) = some e := by
  simp only [instantiateExpense, serializeExpense, decodeDate_iso _ h1,
    Option.bind_eq_bind, Option.some_bind]
  rfl

/-- C9: codec round-trip — for every entity kind and every instance whose
date-typed fields hold dates representable by Python `datetime.date`
(`Date.Valid`), instantiating the serialized record reproduces the entity;
date fields pass through ISO-8601 strings (`Date.iso`) and absent optional
dates through null. -/
theorem c9_codec_round_trip :
    (∀ e : Season, e.start_date.Valid → e.end_date.Valid →
      instantiateSeason (serializeSeason e) = some e) ∧
    (∀ e : Player, (∀ b, e.birthdate = some b → b.Valid) →
      instantiatePlayer (serializePlayer e) = some e) ∧
    (∀ e : Coach, (∀ b, e.birthdate = some b → b.Valid) →
      instantiateCoach (serializeCoach e) = some e) ∧
    (∀ e : Physiotherapist, (∀ b, e.birthdate = some b → b.Valid) →
      instantiatePhysiotherapist (serializePhysiotherapist e) = some e) ∧
    (∀ e : Treatment, e.start_date.Valid →
      (∀ b, e.expected_return = some b → b.Valid) →
      instantiateTreatment (serializeTreatment e) = some e) ∧
    (∀ e : MatchPlan, e.match_date.Valid →
      instantiateMatchPlan (serializeMatchPlan e) = some e) ∧
    (∀ e : YouthTeam, instantiateYouthTeam (serializeYouthTeam e) = some e) ∧
    (∀ e : MembershipType,
      instantiateMembershipType (serializeMembershipType e) = some e) ∧
    (∀ e : Member, (∀ b, e.birthdate = some b → b.Valid) →
      (∀ b, e.membership_since = some b → b.Valid) →
      instantiateMember (serializeMember e) = some e) ∧
    (∀ e : MembershipPayment, e.paid_on.Valid →
      instantiateMembershipPayment (serializeMembershipPayment e) = some e) ∧
    (∀ e : Revenue, e.record_date.Valid →
      instantiateRevenue (serializeRevenue e) = some e) ∧
    (∀ e : Expense, e.record_date.Valid →
      instantiateExpense (serializeExpense e) = some e) :=
  ⟨roundTripSeason, roundTripPlayer, roundTripCoach, roundTripPhysiotherapist,
   roundTripTreatment, roundTripMatchPlan, roundTripYouthTeam,
   roundTripMembershipType, roundTripMember, roundTripMembershipPayment,
   roundTripRevenue, roundTripExpense⟩

/-- Concrete instantiations of the codec round-trip, one per entity kind,
mixing populated instances (dates present, including a leap day) and minimal
ones (optional dates null). -/
theorem c9_codec_round_trip_witness :
    instantiateSeason (serializeSeason exSeason1) = some exSeason1 ∧
    instantiatePlayer (serializePlayer c9player) = some c9player ∧
    instantiateCoach (serializeCoach c9coach) = some c9coach ∧
    instantiatePhysiotherapist (serializePhysiotherapist c9physio) =
      some c9physio ∧
    instantiateTreatment (serializeTreatment c9treat) = some c9treat ∧
    instantiateMatchPlan (serializeMatchPlan c7plan) = some c7plan ∧
    instantiateYouthTeam (serializeYouthTeam c10team1) = some c10team1 ∧
    instantiateMembershipType (serializeMembershipType c9mtype) =
      some c9mtype ∧
    instantiateMember (serializeMember c9member) = some c9member ∧
    instantiateMembershipPayment (serializeMembershipPayment c3pay1) =
      some c3pay1 ∧
    instantiateRevenue (serializeRevenue c9rev) = some c9rev ∧
    instantiateExpense (serializeExpense c9exp) = some c9exp :=
  ⟨c9_codec_round_trip.1 exSeason1 (by decide) (by decide),
   c9_codec_round_trip.2.1 c9player
     (fun b hb => by rw [show b = { year := 2008, month := 6, day := 15 }
       from Option.some.inj hb.symm]; decide),
   c9_codec_round_trip.2.2.1 c9coach
     (fun b hb => by rw [show b = c9date from Option.some.inj hb.symm]; decide),
   c9_codec_round_trip.2.2.2.1 c9physio
     (fun b hb => Option.noConfusion hb),
   c9_codec_round_trip.2.2.2.2.1 c9treat (by decide)
     (fun b hb => by rw [show b = { year := 2024, month := 3, day := 1 }
       from Option.some.inj hb.symm]; decide),
   c9_codec_round_trip.2.2.2.2.2.1 c7plan (by decide),
   c9_codec_round_trip.2.2.2.2.2.2.1 c10team1,
   c9_codec_round_trip.2.2.2.2.2.2.2.1 c9mtype,
   c9_codec_round_trip.2.2.2.2.2.2.2.2.1 c9member
     (fun b hb => by rw [show b = { year := 1990, month := 1, day := 31 }
       from Option.some.inj hb.symm]; decide)
     (fun b hb => by rw [show b = { year := 2020, month := 12, day := 31 }
       from Option.some.inj hb.symm]; decide),
   c9_codec_round_trip.2.2.2.2.2.2.2.2.2.1 c3pay1 (by decide),
   c9_codec_round_trip.2.2.2.2.2.2.2.2.2.2.1 c9rev (by decide),
   c9_codec_round_trip.2.2.2.2.2.2.2.2.2.2.2 c9exp (by decide)⟩

/-! Revenue-collection effect lemmas for the youth fee synchronisation. -/

theorem removeRevenue_spec (doc : Doc) (rid0 : Int)
    (hnd : IdsNodup (fun r => r.id) doc.revenues) :
    (∀ r ∈ (removeRevenue doc rid0).1.revenues, r ∈ doc.revenues) ∧
    (∀ q : Int, q ≠ rid0 →
      revCount (removeRevenue doc rid0).1 q = revCount doc q) ∧
    revCount (removeRevenue doc rid0).1 rid0 = 0 ∧
    IdsNodup (fun r => r.id) (removeRevenue doc rid0).1.revenues := by
  unfold removeRevenue
  cases hrm : removeById (fun r => r.id) rid0 doc.revenues with
  | none =>
    have hall := (removeById_eq_none _ _ _).mp hrm
    refine ⟨fun r h => h, fun q _ => rfl, ?_, hnd⟩
    show (doc.revenues.filter (fun r => decide (r.id = rid0))).length = 0
    rw [List.length_eq_zero]
    exact List.filter_eq_nil_iff.mpr (fun r hr => by simpa using hall r hr)
  | some l =>
    have hfil := removeById_filter _ _ _ _ hnd hrm
    have hsub := removeById_sublist _ _ _ _ hrm
    refine ⟨fun r h => hsub.subset h, ?_, ?_, sublist_nodup_ids _ _ _ hsub hnd⟩
    · intro q hq
      show (l.filter (fun r => decide (r.id = q))).length =
        (doc.revenues.filter (fun r => decide (r.id = q))).length
      rw [hfil, List.filter_filter]
      refine congrArg List.length (List.filter_congr ?_)
      intro r hr
      by_cases hrq : r.id = q
      · simp [hrq, hq]
      · simp [hrq]
    · show (l.filter (fun r => decide (r.id = rid0))).length = 0
      rw [hfil, List.filter_filter, List.length_eq_zero]
      exact List.filter_eq_nil_iff.mpr (fun r hr => by simp)

theorem addRevenue_spec (doc : Doc) (active : Int) (desc : String) (a : Amount)
    (cat : String) (rd : Date) (src : Option String)
    (hnd : IdsNodup (fun r => r.id) doc.revenues) :
    (∀ r ∈ doc.revenues, r.id < (addRevenue doc active desc a cat rd src).2.id) ∧
    revCount (addRevenue doc active desc a cat rd src).1
      (addRevenue doc active desc a cat rd src).2.id = 1 ∧
    (∀ r ∈ (addRevenue doc active desc a cat rd src).1.revenues,
      r.id = (addRevenue doc active desc a cat rd src).2.id →
        r = (addRevenue doc active desc a cat rd src).2) ∧
    (∀ q : Int, q ≠ (addRevenue doc active desc a cat rd src).2.id →
      revCount (addRevenue doc active desc a cat rd src).1 q = revCount doc q) ∧
    (∀ r ∈ (addRevenue doc active desc a cat rd src).1.revenues,
      r ∈ doc.revenues ∨ r = (addRevenue doc active desc a cat rd src).2) ∧
    IdsNodup (fun r => r.id) (addRevenue doc active desc a cat rd src).1.revenues := by
  have hlt : ∀ r ∈ doc.revenues,
      r.id < (addRevenue doc active desc a cat rd src).2.id := by
    intro r hr
    exact lt_nextId _ _ (List.mem_map_of_mem (fun r => r.id) hr)
  have hfe : doc.revenues.filter
      (fun r => decide (r.id = (addRevenue doc active desc a cat rd src).2.id)) = [] := by
    refine List.filter_eq_nil_iff.mpr ?_
    intro r hr
    simp [Int.ne_of_lt (hlt r hr)]
  refine ⟨hlt, ?_, ?_, ?_, ?_, ?_⟩
  · show ((doc.revenues ++ [(addRevenue doc active desc a cat rd src).2]).filter
      (fun r => decide (r.id = (addRevenue doc active desc a cat rd src).2.id))).length = 1
    rw [List.filter_append, hfe]
    simp
  · intro r hr hid
    rcases List.mem_append.mp hr with h | h
    · exact absurd hid (Int.ne_of_lt (hlt r h))
    · exact List.mem_singleton.mp h
  · intro q hq
    show ((doc.revenues ++ [(addRevenue doc active desc a cat rd src).2]).filter
      (fun r => decide (r.id = q))).length = _
    rw [List.filter_append]
    have h2 : ([(addRevenue doc active desc a cat rd src).2].filter
        (fun r => decide (r.id = q))) = [] := by
      simp [List.filter, Ne.symm hq]
    rw [h2, List.append_nil]
    rfl
  · intro r hr
    rcases List.mem_append.mp hr with h | h
    · exact Or.inl h
    · exact Or.inr (List.mem_singleton.mp h)
  · show ((doc.revenues ++ [(addRevenue doc active desc a cat rd src).2]).map
      (fun r => r.id)).Nodup
    rw [List.map_append, List.nodup_append]
    refine ⟨hnd, by simp, ?_⟩
    intro x hx hy
    simp only [List.map_cons, List.map_nil, List.mem_singleton] at hy
    rcases List.mem_map.mp hx with ⟨r, hr, hrx⟩
    rw [← hrx] at hy
    exact absurd hy (Int.ne_of_lt (hlt r hr))

theorem updateById_count {α : Type} (getId : α → Int) (i : Int) (f : α → α)
    (l l' : List α) (y : α) (h : updateById getId i f l = some (l', y))
    (hnd : (l.map getId).Nodup) (hpres : ∀ z, getId (f z) = getId z) :
    (l'.filter (fun z => decide (getId z = i))).length = 1 ∧
    (∀ z ∈ l', getId z = i → z = y) ∧
    (∀ q : Int, q ≠ i →
      l'.filter (fun z => decide (getId z = q)) =
        l.filter (fun z => decide (getId z = q))) ∧
    (∀ z ∈ l', z ∈ l ∨ z = y) ∧
    (l'.map getId).Nodup := by
  rcases updateById_spec getId i f l l' y h with ⟨l1, x, l2, e1, e2, e3, e4, e5⟩
  have hnd1 : ((l1 ++ x :: l2).map getId).Nodup := e1 ▸ hnd
  have hl2 : ∀ z ∈ l2, getId z ≠ i := by
    intro z hz hzi
    have h1 : (l1.map getId ++ getId x :: l2.map getId).Nodup := by simpa using hnd1
    exact (List.nodup_cons.mp (List.nodup_append.mp h1).2.1).1
      (by rw [e3, ← hzi]; exact List.mem_map_of_mem getId hz)
  have hf1 : l1.filter (fun z => decide (getId z = i)) = [] :=
    List.filter_eq_nil_iff.mpr (fun z hz => by simp [e2 z hz])
  have hf2 : l2.filter (fun z => decide (getId z = i)) = [] :=
    List.filter_eq_nil_iff.mpr (fun z hz => by simp [hl2 z hz])
  refine ⟨?_, ?_, ?_, ?_, ?_⟩
  · rw [e5, List.filter_append, hf1, List.filter_cons]
    have : decide (getId (f x) = i) = true := by simp [hpres x, e3]
    rw [this]
    simp [hf2]
  · intro z hz hzi
    rw [e5] at hz
    rcases List.mem_append.mp hz with hz1 | hz1
    · exact absurd hzi (e2 z hz1)
    · rcases List.mem_cons.mp hz1 with hz2 | hz2
      · exact hz2.trans e4.symm
      · exact absurd hzi (hl2 z hz2)
  · intro q hq
    rw [e1, e5, List.filter_append, List.filter_append, List.filter_cons,
      List.filter_cons]
    have h1 : decide (getId (f x) = q) = false := by
      simp [hpres x, e3, Ne.symm hq]
    have h2 : decide (getId x = q) = false := by simp [e3, Ne.symm hq]
    rw [h1, h2]
    simp
  · intro z hz
    rw [e5] at hz
    rcases List.mem_append.mp hz with hz1 | hz1
    · exact Or.inl (e1 ▸ List.mem_append_left _ hz1)
    · rcases List.mem_cons.mp hz1 with hz2 | hz2
      · exact Or.inr (hz2.trans e4.symm)
      · exact Or.inl (e1 ▸ List.mem_append_right _ (List.mem_cons_of_mem x hz2))
  · rw [e5, List.map_append, List.map_cons, hpres x]
    rw [e1, List.map_append, List.map_cons] at hnd
    exact hnd

theorem updateRevenue_found (doc : Doc) (rid0 : Int) (dsc : Option String)
    (am : Option Amount) (cat : Option String) (rd : Option Date)
    (src : Option String) (x : Revenue)
    (hf : findById (fun r => r.id) rid0 doc.revenues = some x) :
    ∃ l', updateById (fun r => r.id) rid0 (revenueUpdater dsc am cat rd src)
        doc.revenues = some (l', revenueUpdater dsc am cat rd src x) ∧
      updateRevenue doc rid0 dsc am cat rd src =
        ({ doc with revenues := l' },
         Except.ok (revenueUpdater dsc am cat rd src x)) := by
  obtain ⟨l', hupd⟩ := updateById_of_findById (fun r => r.id) rid0
    (revenueUpdater dsc am cat rd src) doc.revenues x hf
  refine ⟨l', hupd, ?_⟩
  unfold updateRevenue
  rw [hupd]

theorem syncYouthRevenue_clear (today : Date) (doc : Doc) (active pid : Int)
    (nm sq : String) (amount : Option Amount) (paid : Bool) (exid : Option Int)
    (dl sl : String)
    (hnd : IdsNodup (fun r => r.id) doc.revenues)
    (hcond : (!paid || amountBad amount) = true) :
    (syncYouthRevenue today doc active pid nm sq amount paid exid dl sl).2 =
      none ∧
    (∀ r ∈ (syncYouthRevenue today doc active pid nm sq amount paid exid
        dl sl).1.revenues, r ∈ doc.revenues) ∧
    (∀ q : Int, exid ≠ some q →
      revCount (syncYouthRevenue today doc active pid nm sq amount paid exid
        dl sl).1 q = revCount doc q) ∧
    (∀ rid0, exid = some rid0 →
      revCount (syncYouthRevenue today doc active pid nm sq amount paid exid
        dl sl).1 rid0 = 0) ∧
    IdsNodup (fun r => r.id)
      (syncYouthRevenue today doc active pid nm sq amount paid exid
        dl sl).1.revenues := by
  cases exid with
  | none =>
    have heq : syncYouthRevenue today doc active pid nm sq amount paid none
        dl sl = (doc, none) := by
      unfold syncYouthRevenue
      rw [if_pos hcond]
    rw [heq]
    exact ⟨rfl, fun r h => h, fun q _ => rfl,
      fun rid0 h => Option.noConfusion h, hnd⟩
  | some rid0 =>
    have heq : syncYouthRevenue today doc active pid nm sq amount paid
        (some rid0) dl sl = ((removeRevenue doc rid0).1, none) := by
      unfold syncYouthRevenue
      rw [if_pos hcond]
    rw [heq]
    obtain ⟨h1, h2, h3, h4⟩ := removeRevenue_spec doc rid0 hnd
    refine ⟨rfl, h1, ?_, ?_, h4⟩
    · intro q hq
      exact h2 q (fun he => hq (he ▸ rfl))
    · intro rid1 h
      cases h
      exact h3

theorem syncYouthRevenue_success (today : Date) (doc : Doc) (active pid : Int)
    (nm sq : String) (a : Amount) (paid : Bool) (exid : Option Int)
    (dl sl : String)
    (hnd : IdsNodup (fun r => r.id) doc.revenues)
    (hpaid : paid = true) (hbad : amountBad (some a) = false)
    (hex : exid = none ∨ ∃ r0, r0 ∈ doc.revenues ∧ exid = some r0.id) :
    ∃ rid,
      (syncYouthRevenue today doc active pid nm sq (some a) paid exid
        dl sl).2 = some rid ∧
      (exid = some rid ∨ ∀ r ∈ doc.revenues, r.id < rid) ∧
      revCount (syncYouthRevenue today doc active pid nm sq (some a) paid exid
        dl sl).1 rid = 1 ∧
      (∀ r ∈ (syncYouthRevenue today doc active pid nm sq (some a) paid exid
          dl sl).1.revenues, r.id = rid →
        r.amount = a ∧ r.category = YOUTH_REVENUE_CATEGORY ∧
          r.source = some sl) ∧
      (∀ q : Int, q ≠ rid →
        revCount (syncYouthRevenue today doc active pid nm sq (some a) paid
          exid dl sl).1 q = revCount doc q) ∧
      (∀ r ∈ (syncYouthRevenue today doc active pid nm sq (some a) paid exid
          dl sl).1.revenues,
        r ∈ doc.revenues ∨ (r.id = rid ∧ r.source = some sl)) ∧
      IdsNodup (fun r => r.id)
        (syncYouthRevenue today doc active pid nm sq (some a) paid exid
          dl sl).1.revenues := by
  have hcond : (!paid || amountBad (some a)) = false := by
    rw [hpaid, hbad]
    rfl
  cases exid with
  | none =>
    have heq : ∃ dsc, syncYouthRevenue today doc active pid nm sq (some a)
        paid none dl sl =
        ((addRevenue doc active dsc a YOUTH_REVENUE_CATEGORY today
            (some sl)).1,
         some (addRevenue doc active dsc a YOUTH_REVENUE_CATEGORY today
            (some sl)).2.id) := by
      refine ⟨dl ++ " - " ++
        (if pyStrip nm = "" then "Jogador #" ++ toString pid else pyStrip nm) ++
        " (" ++ pyTitle sq ++ ")", ?_⟩
      unfold syncYouthRevenue
      rw [hcond]
      rw [if_neg (by simp)]
    obtain ⟨dsc, heq⟩ := heq
    rw [heq]
    obtain ⟨hlt, hcount, hflds, hframe, hsub, hnd2⟩ :=
      addRevenue_spec doc active dsc a YOUTH_REVENUE_CATEGORY today (some sl)
        hnd
    refine ⟨(addRevenue doc active dsc a YOUTH_REVENUE_CATEGORY today
      (some sl)).2.id, rfl, Or.inr hlt, hcount, ?_, ?_, ?_, hnd2⟩
    · intro r hr hid
      have := hflds r hr hid
      rw [this]
      exact ⟨rfl, rfl, rfl⟩
    · intro q hq
      exact hframe q hq
    · intro r hr
      rcases hsub r hr with h | h
      · exact Or.inl h
      · exact Or.inr ⟨by rw [h], by rw [h]; exact rfl⟩
  | some rid0 =>
    rcases hex with hn | ⟨r0, hr0, he⟩
    · exact Option.noConfusion hn
    · have hrid0 : rid0 = r0.id := Option.some.inj he
      have hfind : ∃ x, findById (fun r => r.id) rid0 doc.revenues = some x := by
        cases hf : findById (fun r => r.id) rid0 doc.revenues with
        | some x => exact ⟨x, rfl⟩
        | none =>
          exact absurd hrid0.symm ((findById_eq_none _ _ _).mp hf r0 hr0)
      obtain ⟨x, hfx⟩ := hfind
      have hxid := (findById_mem _ _ _ _ hfx).2
      have hxmem := (findById_mem _ _ _ _ hfx).1
      obtain ⟨l', hupd, hequ⟩ := updateRevenue_found doc rid0
        (some (dl ++ " - " ++
          (if pyStrip nm = "" then "Jogador #" ++ toString pid
           else pyStrip nm) ++ " (" ++ pyTitle sq ++ ")")) (some a)
        (some YOUTH_REVENUE_CATEGORY) (some today) (some sl) x hfx
      have heq : syncYouthRevenue today doc active pid nm sq (some a) paid
          (some rid0) dl sl =
          ({ doc with revenues := l' },
           some (revenueUpdater (some (dl ++ " - " ++
              (if pyStrip nm = "" then "Jogador #" ++ toString pid
               else pyStrip nm) ++ " (" ++ pyTitle sq ++ ")")) (some a)
              (some YOUTH_REVENUE_CATEGORY)
              (some today) (some sl) x).id) := by
        simp only [syncYouthRevenue]
        rw [hcond]
        rw [if_neg (by simp)]
        simp only [hequ]
      rw [heq]
      obtain ⟨hcount, huniq, hframe, hsub, hnd2⟩ :=
        updateById_count (fun r : Revenue => r.id) rid0
          (revenueUpdater (some (dl ++ " - " ++
            (if pyStrip nm = "" then "Jogador #" ++ toString pid
             else pyStrip nm) ++ " (" ++ pyTitle sq ++ ")")) (some a)
            (some YOUTH_REVENUE_CATEGORY)
            (some today) (some sl))
          doc.revenues l'
          (revenueUpdater (some (dl ++ " - " ++
            (if pyStrip nm = "" then "Jogador #" ++ toString pid
             else pyStrip nm) ++ " (" ++ pyTitle sq ++ ")")) (some a)
            (some YOUTH_REVENUE_CATEGORY)
            (some today) (some sl) x)
          hupd hnd (fun z => rfl)
      have hyid : (revenueUpdater (some (dl ++ " - " ++
          (if pyStrip nm = "" then "Jogador #" ++ toString pid
           else pyStrip nm) ++ " (" ++ pyTitle sq ++ ")")) (some a)
          (some YOUTH_REVENUE_CATEGORY)
          (some today) (some sl) x).id = rid0 := hxid
      rw [hyid]
      refine ⟨rid0, rfl, Or.inl rfl, hcount, ?_, ?_, ?_, hnd2⟩
      · intro r hr hid
        have := huniq r hr hid
        rw [this]
        exact ⟨rfl, rfl, rfl⟩
      · intro q hq
        show (l'.filter (fun r => decide (r.id = q))).length = revCount doc q
        rw [hframe q hq]
        rfl
      · intro r hr
        rcases hsub r hr with h | h
        · exact Or.inl h
        · exact Or.inr ⟨by rw [h]; exact hyid, by rw [h]; exact rfl⟩

theorem revCount_pos_of_mem (d : Doc) (r : Revenue) (q : Int)
    (h : r ∈ d.revenues) (hq : r.id = q) : 0 < revCount d q := by
  unfold revCount
  have hmem : r ∈ d.revenues.filter (fun z => decide (z.id = q)) :=
    List.mem_filter.mpr ⟨h, by simp [hq]⟩
  exact List.length_pos.mpr (List.ne_nil_of_mem hmem)

theorem exists_mem_of_revCount_pos (d : Doc) (q : Int)
    (h : 0 < revCount d q) : ∃ r, r ∈ d.revenues ∧ r.id = q := by
  unfold revCount at h
  obtain ⟨r, hr⟩ := List.exists_mem_of_length_pos h
  have := List.mem_filter.mp hr
  exact ⟨r, this.1, by simpa using this.2⟩

theorem not_mem_of_revCount_zero (d : Doc) (q : Int) (r : Revenue)
    (h : revCount d q = 0) (hid : r.id = q) : r ∉ d.revenues := by
  intro hmem
  have := revCount_pos_of_mem d r q hmem hid
  omega

theorem mem_id_unique (l : List Revenue)
    (hnd : IdsNodup (fun r => r.id) l) (r1 r2 : Revenue)
    (h1 : r1 ∈ l) (h2 : r2 ∈ l) (he : r1.id = r2.id) : r1 = r2 :=
  List.inj_on_of_nodup_map hnd h1 h2 he

theorem successCond_destruct (paid : Bool) (fee : Option Amount)
    (h : ¬((!paid || amountBad fee) = true)) :
    paid = true ∧ ∃ a, fee = some a ∧ amountBad (some a) = false ∧ 0 < a := by
  cases paid with
  | false => exact absurd rfl h
  | true =>
    cases fee with
    | none => exact absurd rfl h
    | some a =>
      refine ⟨rfl, a, rfl, ?_, ?_⟩
      · simp only [amountBad]
        simp only [Bool.not_true, Bool.false_or, amountBad] at h
        simpa using h
      · simp only [Bool.not_true, Bool.false_or, amountBad] at h
        simpa using h

theorem syncStage_frame (today : Date) (d1 : Doc) (active pid : Int)
    (nm sq : String) (fee : Option Amount) (paid : Bool) (exid : Option Int)
    (dl sl : String)
    (hnd1 : IdsNodup (fun r => r.id) d1.revenues)
    (hex : exid = none ∨ ∃ r1, r1 ∈ d1.revenues ∧ exid = some r1.id)
    (q : Int) (hq1 : exid ≠ some q) (hqpos : 0 < revCount d1 q) :
    revCount (syncYouthRevenue today d1 active pid nm sq fee paid exid
      dl sl).1 q = revCount d1 q ∧
    (∀ r ∈ (syncYouthRevenue today d1 active pid nm sq fee paid exid
        dl sl).1.revenues, r.id = q → r ∈ d1.revenues) := by
  by_cases hc : (!paid || amountBad fee) = true
  · obtain ⟨-, hsub, hframe, -, -⟩ :=
      syncYouthRevenue_clear today d1 active pid nm sq fee paid exid dl sl
        hnd1 hc
    exact ⟨hframe q hq1, fun r hr _ => hsub r hr⟩
  · obtain ⟨hp, a, hfee, hbad, hpos⟩ := successCond_destruct paid fee hc
    subst hfee
    obtain ⟨rid, h2, hfr, hcnt, hflds, hframe, hsubor, hnd2⟩ :=
      syncYouthRevenue_success today d1 active pid nm sq a paid exid dl sl
        hnd1 hp hbad hex
    have hqrid : q ≠ rid := by
      rcases hfr with h | h
      · intro he
        exact hq1 (he ▸ h)
      · obtain ⟨rq, hrq, hrqid⟩ := exists_mem_of_revCount_pos d1 q hqpos
        intro he
        have hlt := h rq hrq
        rw [hrqid, he] at hlt
        exact lt_irrefl rid hlt
    refine ⟨hframe q hqrid, ?_⟩
    intro r hr hid
    rcases hsubor r hr with h | h
    · exact h
    · exact absurd (hid.symm.trans h.1) hqrid

theorem doubleSync_spec (today : Date) (d0 : Doc) (active pid : Int)
    (nm sq : String) (mfee : Option Amount) (mpaid : Bool) (mex : Option Int)
    (kfee : Option Amount) (kpaid : Bool) (kex : Option Int)
    (hnd : IdsNodup (fun r => r.id) d0.revenues)
    (hmex : mex = none ∨ ∃ rm, rm ∈ d0.revenues ∧ mex = some rm.id ∧
      rm.source = some YOUTH_MONTHLY_SOURCE)
    (hkex : kex = none ∨ ∃ rk, rk ∈ d0.revenues ∧ kex = some rk.id ∧
      rk.source = some YOUTH_KIT_SOURCE)
    (hdist : ∀ i1 i2, mex = some i1 → kex = some i2 → i1 ≠ i2) :
    (∀ a : Amount, mfee = some a → mpaid = true → 0 < a →
      ∃ rid, (syncYouthRevenue today d0 active pid nm sq mfee mpaid mex YOUTH_MONTHLY_SOURCE YOUTH_MONTHLY_SOURCE).2 = some rid ∧
        revCount (syncYouthRevenue today (syncYouthRevenue today d0 active pid nm sq mfee mpaid mex YOUTH_MONTHLY_SOURCE YOUTH_MONTHLY_SOURCE).1 active pid nm sq kfee kpaid kex YOUTH_KIT_SOURCE YOUTH_KIT_SOURCE).1 rid = 1 ∧
        (∀ r ∈ (syncYouthRevenue today (syncYouthRevenue today d0 active pid nm sq mfee mpaid mex YOUTH_MONTHLY_SOURCE YOUTH_MONTHLY_SOURCE).1 active pid nm sq kfee kpaid kex YOUTH_KIT_SOURCE YOUTH_KIT_SOURCE).1.revenues, r.id = rid →
          r.amount = a ∧ r.category = YOUTH_REVENUE_CATEGORY ∧
            r.source = some YOUTH_MONTHLY_SOURCE)) ∧
    ((!mpaid || amountBad mfee) = true →
      (syncYouthRevenue today d0 active pid nm sq mfee mpaid mex YOUTH_MONTHLY_SOURCE YOUTH_MONTHLY_SOURCE).2 = none ∧
      ∀ rid r0, mex = some rid → r0 ∈ d0.revenues → r0.id = rid →
        r0 ∉ (syncYouthRevenue today (syncYouthRevenue today d0 active pid nm sq mfee mpaid mex YOUTH_MONTHLY_SOURCE YOUTH_MONTHLY_SOURCE).1 active pid nm sq kfee kpaid kex YOUTH_KIT_SOURCE YOUTH_KIT_SOURCE).1.revenues) ∧
    (∀ a : Amount, kfee = some a → kpaid = true → 0 < a →
      ∃ rid, (syncYouthRevenue today (syncYouthRevenue today d0 active pid nm sq mfee mpaid mex YOUTH_MONTHLY_SOURCE YOUTH_MONTHLY_SOURCE).1 active pid nm sq kfee kpaid kex YOUTH_KIT_SOURCE YOUTH_KIT_SOURCE).2 = some rid ∧
        revCount (syncYouthRevenue today (syncYouthRevenue today d0 active pid nm sq mfee mpaid mex YOUTH_MONTHLY_SOURCE YOUTH_MONTHLY_SOURCE).1 active pid nm sq kfee kpaid kex YOUTH_KIT_SOURCE YOUTH_KIT_SOURCE).1 rid = 1 ∧
        (∀ r ∈ (syncYouthRevenue today (syncYouthRevenue today d0 active pid nm sq mfee mpaid mex YOUTH_MONTHLY_SOURCE YOUTH_MONTHLY_SOURCE).1 active pid nm sq kfee kpaid kex YOUTH_KIT_SOURCE YOUTH_KIT_SOURCE).1.revenues, r.id = rid →
          r.amount = a ∧ r.category = YOUTH_REVENUE_CATEGORY ∧
            r.source = some YOUTH_KIT_SOURCE)) ∧
    ((!kpaid || amountBad kfee) = true →
      (syncYouthRevenue today (syncYouthRevenue today d0 active pid nm sq mfee mpaid mex YOUTH_MONTHLY_SOURCE YOUTH_MONTHLY_SOURCE).1 active pid nm sq kfee kpaid kex YOUTH_KIT_SOURCE YOUTH_KIT_SOURCE).2 = none ∧
      ∀ rid r0, kex = some rid → r0 ∈ d0.revenues → r0.id = rid →
        r0 ∉ (syncYouthRevenue today (syncYouthRevenue today d0 active pid nm sq mfee mpaid mex YOUTH_MONTHLY_SOURCE YOUTH_MONTHLY_SOURCE).1 active pid nm sq kfee kpaid kex YOUTH_KIT_SOURCE YOUTH_KIT_SOURCE).1.revenues) := by
  by_cases hm : (!mpaid || amountBad mfee) = true
  · obtain ⟨hm2, hmsub, hmframe, hmzero, hmnd⟩ :=
      syncYouthRevenue_clear today d0 active pid nm sq mfee mpaid mex
        YOUTH_MONTHLY_SOURCE YOUTH_MONTHLY_SOURCE hnd hm
    have hexk1 : kex = none ∨ ∃ r1, r1 ∈ (syncYouthRevenue today d0 active pid nm sq mfee mpaid mex YOUTH_MONTHLY_SOURCE YOUTH_MONTHLY_SOURCE).1.revenues ∧ kex = some r1.id := by
      rcases hkex with h | ⟨rk, hrk, hke, hks⟩
      · exact Or.inl h
      · refine Or.inr ?_
        have hne : mex ≠ some rk.id := by
          rcases hmex with h0 | ⟨rm, hrm, hme, hms⟩
          · rw [h0]
            exact fun h => Option.noConfusion h
          · rw [hme]
            intro hcon
            exact hdist rm.id rk.id hme hke (Option.some.inj hcon)
        have hcnt : revCount (syncYouthRevenue today d0 active pid nm sq mfee mpaid mex YOUTH_MONTHLY_SOURCE YOUTH_MONTHLY_SOURCE).1 rk.id = revCount d0 rk.id :=
          hmframe rk.id hne
        have hpos : 0 < revCount (syncYouthRevenue today d0 active pid nm sq mfee mpaid mex YOUTH_MONTHLY_SOURCE YOUTH_MONTHLY_SOURCE).1 rk.id := by
          rw [hcnt]
          exact revCount_pos_of_mem d0 rk rk.id hrk rfl
        obtain ⟨r1, hr1, hr1id⟩ := exists_mem_of_revCount_pos _ _ hpos
        exact ⟨r1, hr1, by rw [hke, hr1id]⟩
    refine ⟨?_, ?_, ?_, ?_⟩
    · intro a hfee hpaid hpos
      rw [hfee, hpaid] at hm
      simp only [Bool.not_true, Bool.false_or, amountBad] at hm
      exact absurd (of_decide_eq_true hm) (not_le.mpr hpos)
    · intro _
      refine ⟨hm2, ?_⟩
      intro rid r0 hme hr0 hr0id
      have hzero1 : revCount (syncYouthRevenue today d0 active pid nm sq mfee mpaid mex YOUTH_MONTHLY_SOURCE YOUTH_MONTHLY_SOURCE).1 rid = 0 := hmzero rid hme
      have hr0src : r0.source = some YOUTH_MONTHLY_SOURCE := by
        rcases hmex with h0 | ⟨rm, hrm, hme2, hms⟩
        · rw [h0] at hme
          exact Option.noConfusion hme
        · have hr : rid = rm.id := by
            rw [hme2] at hme
            exact (Option.some.inj hme).symm
          have := mem_id_unique d0.revenues hnd r0 rm hr0 hrm
            (by rw [hr0id, hr])
          rw [this, hms]
      by_cases hk : (!kpaid || amountBad kfee) = true
      · obtain ⟨-, hksub, -, -, -⟩ :=
          syncYouthRevenue_clear today (syncYouthRevenue today d0 active pid nm sq mfee mpaid mex YOUTH_MONTHLY_SOURCE YOUTH_MONTHLY_SOURCE).1 active pid nm sq kfee kpaid kex
            YOUTH_KIT_SOURCE YOUTH_KIT_SOURCE hmnd hk
        intro hmem
        exact (not_mem_of_revCount_zero _ _ r0 hzero1 hr0id)
          (hksub r0 hmem)
      · obtain ⟨hkp, ak, hkfee, hkbad, hkpos⟩ :=
          successCond_destruct kpaid kfee hk
        subst hkfee
        obtain ⟨ridk, hk2, hkfr, hkcnt, hkflds, hkframe, hksubor, hknd2⟩ :=
          syncYouthRevenue_success today (syncYouthRevenue today d0 active pid nm sq mfee mpaid mex YOUTH_MONTHLY_SOURCE YOUTH_MONTHLY_SOURCE).1 active pid nm sq ak kpaid kex
            YOUTH_KIT_SOURCE YOUTH_KIT_SOURCE hmnd hkp hkbad hexk1
        intro hmem
        rcases hksubor r0 hmem with h | h
        · exact (not_mem_of_revCount_zero _ _ r0 hzero1 hr0id) h
        · rw [hr0src] at h
          exact absurd (Option.some.inj h.2) (by decide)
    · intro a hfee hpaid hpos
      subst hfee
      have hbad : amountBad (some a) = false := by
        simp only [amountBad]
        exact decide_eq_false (not_le.mpr hpos)
      obtain ⟨ridk, hk2, hkfr, hkcnt, hkflds, hkframe, hksubor, hknd2⟩ :=
        syncYouthRevenue_success today (syncYouthRevenue today d0 active pid nm sq mfee mpaid mex YOUTH_MONTHLY_SOURCE YOUTH_MONTHLY_SOURCE).1 active pid nm sq a kpaid kex
          YOUTH_KIT_SOURCE YOUTH_KIT_SOURCE hmnd hpaid hbad hexk1
      exact ⟨ridk, hk2, hkcnt, hkflds⟩
    · intro hk
      obtain ⟨hk2, hksub, hkframe, hkzero, hknd⟩ :=
        syncYouthRevenue_clear today (syncYouthRevenue today d0 active pid nm sq mfee mpaid mex YOUTH_MONTHLY_SOURCE YOUTH_MONTHLY_SOURCE).1 active pid nm sq kfee kpaid kex
          YOUTH_KIT_SOURCE YOUTH_KIT_SOURCE hmnd hk
      refine ⟨hk2, ?_⟩
      intro rid r0 hke hr0 hr0id
      exact not_mem_of_revCount_zero _ _ r0 (hkzero rid hke) hr0id
  · obtain ⟨hmp, am, hmfee, hmbad, hmpos⟩ := successCond_destruct mpaid mfee hm
    subst hmfee
    obtain ⟨ridm, hm2, hmfr, hmcnt, hmflds, hmframe, hmsubor, hmnd⟩ :=
      syncYouthRevenue_success today d0 active pid nm sq am mpaid mex
        YOUTH_MONTHLY_SOURCE YOUTH_MONTHLY_SOURCE hnd hmp hmbad
        (by
          rcases hmex with h | ⟨rm, hrm, hme, hms⟩
          · exact Or.inl h
          · exact Or.inr ⟨rm, hrm, hme⟩)
    have hkexne : kex ≠ some ridm := by
      rcases hkex with h | ⟨rk, hrk, hke, hks⟩
      · rw [h]
        exact fun hcon => Option.noConfusion hcon
      · rw [hke]
        intro hcon
        have hrkid : rk.id = ridm := Option.some.inj hcon
        rcases hmfr with h0 | h0
        · exact hdist ridm rk.id (hrkid ▸ h0) hke hrkid.symm
        · have hlt := h0 rk hrk
          rw [hrkid] at hlt
          exact lt_irrefl ridm hlt
    have hexk1 : kex = none ∨ ∃ r1, r1 ∈ (syncYouthRevenue today d0 active pid nm sq (some am) mpaid mex YOUTH_MONTHLY_SOURCE YOUTH_MONTHLY_SOURCE).1.revenues ∧ kex = some r1.id := by
      rcases hkex with h | ⟨rk, hrk, hke, hks⟩
      · exact Or.inl h
      · refine Or.inr ?_
        have hne : rk.id ≠ ridm := by
          intro hcon
          exact hkexne (by rw [hke, hcon])
        have hcnt : revCount (syncYouthRevenue today d0 active pid nm sq (some am) mpaid mex YOUTH_MONTHLY_SOURCE YOUTH_MONTHLY_SOURCE).1 rk.id = revCount d0 rk.id :=
          hmframe rk.id hne
        have hpos : 0 < revCount (syncYouthRevenue today d0 active pid nm sq (some am) mpaid mex YOUTH_MONTHLY_SOURCE YOUTH_MONTHLY_SOURCE).1 rk.id := by
          rw [hcnt]
          exact revCount_pos_of_mem d0 rk rk.id hrk rfl
        obtain ⟨r1, hr1, hr1id⟩ := exists_mem_of_revCount_pos _ _ hpos
        exact ⟨r1, hr1, by rw [hke, hr1id]⟩
    have hridm_pos : 0 < revCount (syncYouthRevenue today d0 active pid nm sq (some am) mpaid mex YOUTH_MONTHLY_SOURCE YOUTH_MONTHLY_SOURCE).1 ridm := by
      rw [hmcnt]
      exact Nat.one_pos
    refine ⟨?_, ?_, ?_, ?_⟩
    · intro a hfee hpaid hpos
      have haam : am = a := Option.some.inj hfee
      subst haam
      obtain ⟨hfrq, hfmem⟩ := syncStage_frame today (syncYouthRevenue today d0 active pid nm sq (some am) mpaid mex YOUTH_MONTHLY_SOURCE YOUTH_MONTHLY_SOURCE).1 active pid nm sq
        kfee kpaid kex YOUTH_KIT_SOURCE YOUTH_KIT_SOURCE hmnd hexk1 ridm
        hkexne hridm_pos
      refine ⟨ridm, hm2, ?_, ?_⟩
      · rw [hfrq, hmcnt]
      · intro r hr hid
        exact hmflds r (hfmem r hr hid) hid
    · intro hcon
      rw [hmp] at hcon
      simp only [Bool.not_true, Bool.false_or, amountBad] at hcon
      exact absurd (of_decide_eq_true hcon) (not_le.mpr hmpos)
    · intro a hfee hpaid hpos
      subst hfee
      have hbad : amountBad (some a) = false := by
        simp only [amountBad]
        exact decide_eq_false (not_le.mpr hpos)
      obtain ⟨ridk, hk2, hkfr, hkcnt, hkflds, hkframe, hksubor, hknd2⟩ :=
        syncYouthRevenue_success today (syncYouthRevenue today d0 active pid nm sq (some am) mpaid mex YOUTH_MONTHLY_SOURCE YOUTH_MONTHLY_SOURCE).1 active pid nm sq a kpaid kex
          YOUTH_KIT_SOURCE YOUTH_KIT_SOURCE hmnd hpaid hbad hexk1
      exact ⟨ridk, hk2, hkcnt, hkflds⟩
    · intro hk
      obtain ⟨hk2, hksub, hkframe, hkzero, hknd⟩ :=
        syncYouthRevenue_clear today (syncYouthRevenue today d0 active pid nm sq (some am) mpaid mex YOUTH_MONTHLY_SOURCE YOUTH_MONTHLY_SOURCE).1 active pid nm sq kfee kpaid kex
          YOUTH_KIT_SOURCE YOUTH_KIT_SOURCE hmnd hk
      refine ⟨hk2, ?_⟩
      intro rid r0 hke hr0 hr0id
      exact not_mem_of_revCount_zero _ _ r0 (hkzero rid hke) hr0id

theorem clearCond_of_notFee (sqs : String) (paid : Bool) (fee : Option Amount)
    (hyouth : isYouthSquadStr sqs = true)
    (h : ¬FeeEarned sqs paid fee) : (!paid || amountBad fee) = true := by
  cases paid with
  | false => rfl
  | true =>
    cases fee with
    | none => rfl
    | some a =>
      by_cases hp : 0 < a
      · exact absurd ⟨hyouth, rfl, a, rfl, hp⟩ h
      · simp only [Bool.not_true, Bool.false_or, amountBad]
        exact decide_eq_true (not_lt.mp hp)

theorem youthInv_updatePlayer (today : Date) (doc : Doc) (player_id : Int)
    (name position squad : Option String) (birthdate : Option Date)
    (contact : Option String) (shirt_number : Option Int)
    (af_porto_id photo_url : Option (Option String))
    (mf : Option (Option Amount)) (mp : Option Bool)
    (kf : Option (Option Amount)) (kp : Option Bool)
    (active : Int) (record : Player) (doc2 : Doc) (p : Player)
    (hact : doc.active_season_id = some active)
    (hnd : IdsNodup (fun r => r.id) doc.revenues)
    (hrec : findById (fun q => q.id) player_id doc.players = some record)
    (hwf : PlayerLinksWf doc record)
    (hcall : updatePlayer today doc player_id name position squad birthdate
      contact shirt_number af_porto_id photo_url mf mp kf kp =
        (doc2, Except.ok p)) :
    (YouthKindInv doc2 p.squad p.youth_monthly_paid p.youth_monthly_fee
      p.youth_monthly_revenue_id YOUTH_MONTHLY_SOURCE ∧
     YouthKindInv doc2 p.squad p.youth_kit_paid p.youth_kit_fee
       p.youth_kit_revenue_id YOUTH_KIT_SOURCE) ∧
    (¬FeeEarned p.squad p.youth_monthly_paid p.youth_monthly_fee →
      ∀ rid r0, record.youth_monthly_revenue_id = some rid →
        r0 ∈ doc.revenues → r0.id = rid → r0 ∉ doc2.revenues) ∧
    (¬FeeEarned p.squad p.youth_kit_paid p.youth_kit_fee →
      ∀ rid r0, record.youth_kit_revenue_id = some rid →
        r0 ∈ doc.revenues → r0.id = rid → r0 ∉ doc2.revenues) := by
  have hmex : record.youth_monthly_revenue_id = none ∨
      ∃ rm, rm ∈ doc.revenues ∧ record.youth_monthly_revenue_id = some rm.id ∧
        rm.source = some YOUTH_MONTHLY_SOURCE := by
    cases hml : record.youth_monthly_revenue_id with
    | none => exact Or.inl rfl
    | some rid =>
      obtain ⟨r, hr, hrid, hrs⟩ := hwf.1 rid hml
      exact Or.inr ⟨r, hr, by rw [hrid], hrs⟩
  have hkex : record.youth_kit_revenue_id = none ∨
      ∃ rk, rk ∈ doc.revenues ∧ record.youth_kit_revenue_id = some rk.id ∧
        rk.source = some YOUTH_KIT_SOURCE := by
    cases hkl : record.youth_kit_revenue_id with
    | none => exact Or.inl rfl
    | some rid =>
      obtain ⟨r, hr, hrid, hrs⟩ := hwf.2.1 rid hkl
      exact Or.inr ⟨r, hr, by rw [hrid], hrs⟩
  have hdist : ∀ i1 i2, record.youth_monthly_revenue_id = some i1 →
      record.youth_kit_revenue_id = some i2 → i1 ≠ i2 := hwf.2.2
  simp only [updatePlayer, hact, hrec] at hcall
  split at hcall
  all_goals try exact Except.noConfusion (congrArg Prod.snd hcall)
  all_goals try split at hcall
  all_goals try exact Except.noConfusion (congrArg Prod.snd hcall)
  all_goals try split at hcall
  all_goals try exact Except.noConfusion (congrArg Prod.snd hcall)
  all_goals try split at hcall
  all_goals try exact Except.noConfusion (congrArg Prod.snd hcall)
  all_goals try split at hcall
  all_goals try exact Except.noConfusion (congrArg Prod.snd hcall)
  all_goals try split at hcall
  all_goals try exact Except.noConfusion (congrArg Prod.snd hcall)
  · exact absurd (by assumption : isYouthSquadStr "senior" = true) (by decide)
  · exact absurd (by assumption : isYouthSquadStr "senior" = true) (by decide)
  · rename_i hupd
    rw [Prod.mk.injEq] at hcall
    obtain ⟨hd2, hp2⟩ := hcall
    have hp3 := Except.ok.inj hp2
    subst hd2
    subst hp3
    rw [syncYouthRevenue_players, syncYouthRevenue_players] at hupd
    rcases updateById_spec _ _ _ _ _ _ hupd with ⟨l1, x, l2, e1, e2, e3, e4, e5⟩
    have hfx : findById (fun q => q.id) player_id doc.players = some x := by
      rw [e1]
      exact findById_prefix_miss (fun q => q.id) player_id l1 x l2 e2 e3
    have hxrec : x = record := Option.some.inj (hfx.symm.trans hrec)
    rw [hxrec] at e4
    rw [e4]
    obtain ⟨hA1, hA2, hB1, hB2⟩ := doubleSync_spec today doc active player_id
      (name.getD record.name) "senior"
      none false record.youth_monthly_revenue_id
      none false record.youth_kit_revenue_id hnd hmex hkex hdist
    simp only [YouthKindInv, FeeEarned]
    refine ⟨⟨⟨?_, ?_⟩, ⟨?_, ?_⟩⟩, ?_, ?_⟩
    · intro hfe
      have hy3 : isYouthSquadStr (squad.getD record.squad) = true := hfe.1
      have hfs : squad.getD record.squad = "" := by assumption
      rw [hfs] at hy3
      exact absurd hy3 (by decide)
    · intro hnfe
      exact (hA2 rfl).1
    · intro hfe
      have hy3 : isYouthSquadStr (squad.getD record.squad) = true := hfe.1
      have hfs : squad.getD record.squad = "" := by assumption
      rw [hfs] at hy3
      exact absurd hy3 (by decide)
    · intro hnfe
      exact (hB2 rfl).1
    · intro hnfe rid r0 hml hr0 hid
      exact (hA2 rfl).2 rid r0 hml hr0 hid
    · intro hnfe rid r0 hkl hr0 hid
      exact (hB2 rfl).2 rid r0 hkl hr0 hid
  · rename_i hupd
    rw [Prod.mk.injEq] at hcall
    obtain ⟨hd2, hp2⟩ := hcall
    have hp3 := Except.ok.inj hp2
    subst hd2
    subst hp3
    rw [syncYouthRevenue_players, syncYouthRevenue_players] at hupd
    rcases updateById_spec _ _ _ _ _ _ hupd with ⟨l1, x, l2, e1, e2, e3, e4, e5⟩
    have hfx : findById (fun q => q.id) player_id doc.players = some x := by
      rw [e1]
      exact findById_prefix_miss (fun q => q.id) player_id l1 x l2 e2 e3
    have hxrec : x = record := Option.some.inj (hfx.symm.trans hrec)
    rw [hxrec] at e4
    rw [e4]
    have hyi : isYouthSquadStr (squad.getD record.squad) = true := by assumption
    obtain ⟨hA1, hA2, hB1, hB2⟩ := doubleSync_spec today doc active player_id
      (name.getD record.name) (squad.getD record.squad)
      _ _ record.youth_monthly_revenue_id
      _ _ record.youth_kit_revenue_id hnd hmex hkex hdist
    simp only [YouthKindInv, FeeEarned]
    refine ⟨⟨⟨?_, ?_⟩, ⟨?_, ?_⟩⟩, ?_, ?_⟩
    · intro hfe
      obtain ⟨hy2, hpd, a, hfa, hpos⟩ := hfe
      obtain ⟨rid, hm2, hcnt, hflds⟩ := hA1 a hfa hpd hpos
      refine ⟨rid, hm2, hcnt, ?_⟩
      intro r hr hid
      obtain ⟨h1, h2, h3⟩ := hflds r hr hid
      exact ⟨by rw [h1]; exact hfa.symm, h2, h3⟩
    · intro hnfe
      exact (hA2 (clearCond_of_notFee _ _ _ hyi hnfe)).1
    · intro hfe
      obtain ⟨hy2, hpd, a, hfa, hpos⟩ := hfe
      obtain ⟨rid, hk2, hcnt, hflds⟩ := hB1 a hfa hpd hpos
      refine ⟨rid, hk2, hcnt, ?_⟩
      intro r hr hid
      obtain ⟨h1, h2, h3⟩ := hflds r hr hid
      exact ⟨by rw [h1]; exact hfa.symm, h2, h3⟩
    · intro hnfe
      exact (hB2 (clearCond_of_notFee _ _ _ hyi hnfe)).1
    · intro hnfe rid r0 hml hr0 hid
      exact (hA2 (clearCond_of_notFee _ _ _ hyi hnfe)).2 rid r0 hml hr0 hid
    · intro hnfe rid r0 hkl hr0 hid
      exact (hB2 (clearCond_of_notFee _ _ _ hyi hnfe)).2 rid r0 hkl hr0 hid
  · rename_i vm hv1 hupd
    rw [Prod.mk.injEq] at hcall
    obtain ⟨hd2, hp2⟩ := hcall
    have hp3 := Except.ok.inj hp2
    subst hd2
    subst hp3
    rw [syncYouthRevenue_players, syncYouthRevenue_players] at hupd
    rcases updateById_spec _ _ _ _ _ _ hupd with ⟨l1, x, l2, e1, e2, e3, e4, e5⟩
    have hfx : findById (fun q => q.id) player_id doc.players = some x := by
      rw [e1]
      exact findById_prefix_miss (fun q => q.id) player_id l1 x l2 e2 e3
    have hxrec : x = record := Option.some.inj (hfx.symm.trans hrec)
    rw [hxrec] at e4
    rw [e4]
    have hyi : isYouthSquadStr (squad.getD record.squad) = true := by assumption
    obtain ⟨hA1, hA2, hB1, hB2⟩ := doubleSync_spec today doc active player_id
      (name.getD record.name) (squad.getD record.squad)
      _ _ record.youth_monthly_revenue_id
      _ _ record.youth_kit_revenue_id hnd hmex hkex hdist
    simp only [YouthKindInv, FeeEarned]
    refine ⟨⟨⟨?_, ?_⟩, ⟨?_, ?_⟩⟩, ?_, ?_⟩
    · intro hfe
      obtain ⟨hy2, hpd, a, hfa, hpos⟩ := hfe
      obtain ⟨rid, hm2, hcnt, hflds⟩ := hA1 a hfa hpd hpos
      refine ⟨rid, hm2, hcnt, ?_⟩
      intro r hr hid
      obtain ⟨h1, h2, h3⟩ := hflds r hr hid
      exact ⟨by rw [h1]; exact hfa.symm, h2, h3⟩
    · intro hnfe
      exact (hA2 (clearCond_of_notFee _ _ _ hyi hnfe)).1
    · intro hfe
      obtain ⟨hy2, hpd, a, hfa, hpos⟩ := hfe
      obtain ⟨rid, hk2, hcnt, hflds⟩ := hB1 a hfa hpd hpos
      refine ⟨rid, hk2, hcnt, ?_⟩
      intro r hr hid
      obtain ⟨h1, h2, h3⟩ := hflds r hr hid
      exact ⟨by rw [h1]; exact hfa.symm, h2, h3⟩
    · intro hnfe
      exact (hB2 (clearCond_of_notFee _ _ _ hyi hnfe)).1
    · intro hnfe rid r0 hml hr0 hid
      exact (hA2 (clearCond_of_notFee _ _ _ hyi hnfe)).2 rid r0 hml hr0 hid
    · intro hnfe rid r0 hkl hr0 hid
      exact (hB2 (clearCond_of_notFee _ _ _ hyi hnfe)).2 rid r0 hkl hr0 hid
  · rename_i hupd
    rw [Prod.mk.injEq] at hcall
    obtain ⟨hd2, hp2⟩ := hcall
    have hp3 := Except.ok.inj hp2
    subst hd2
    subst hp3
    rw [syncYouthRevenue_players, syncYouthRevenue_players] at hupd
    rcases updateById_spec _ _ _ _ _ _ hupd with ⟨l1, x, l2, e1, e2, e3, e4, e5⟩
    have hfx : findById (fun q => q.id) player_id doc.players = some x := by
      rw [e1]
      exact findById_prefix_miss (fun q => q.id) player_id l1 x l2 e2 e3
    have hxrec : x = record := Option.some.inj (hfx.symm.trans hrec)
    rw [hxrec] at e4
    rw [e4]
    obtain ⟨hA1, hA2, hB1, hB2⟩ := doubleSync_spec today doc active player_id
      (name.getD record.name) (squad.getD record.squad)
      none false record.youth_monthly_revenue_id
      none false record.youth_kit_revenue_id hnd hmex hkex hdist
    simp only [YouthKindInv, FeeEarned]
    refine ⟨⟨⟨?_, ?_⟩, ⟨?_, ?_⟩⟩, ?_, ?_⟩
    · intro hfe
      have hy3 : isYouthSquadStr (squad.getD record.squad) = true := hfe.1
      have hyi : ¬isYouthSquadStr (squad.getD record.squad) = true := by
        assumption
      exact absurd hy3 hyi
    · intro hnfe
      exact (hA2 rfl).1
    · intro hfe
      have hy3 : isYouthSquadStr (squad.getD record.squad) = true := hfe.1
      have hyi : ¬isYouthSquadStr (squad.getD record.squad) = true := by
        assumption
      exact absurd hy3 hyi
    · intro hnfe
      exact (hB2 rfl).1
    · intro hnfe rid r0 hml hr0 hid
      exact (hA2 rfl).2 rid r0 hml hr0 hid
    · intro hnfe rid r0 hkl hr0 hid
      exact (hB2 rfl).2 rid r0 hkl hr0 hid

theorem opt_none_of_or_false_left {o1 o2 : Option Int}
    (h : ¬(o1.isSome || o2.isSome) = true) : o1 = none := by
  cases o1 <;> cases o2 <;> simp_all

theorem opt_none_of_or_false_right {o1 o2 : Option Int}
    (h : ¬(o1.isSome || o2.isSome) = true) : o2 = none := by
  cases o1 <;> cases o2 <;> simp_all

theorem youthInv_addPlayer (today : Date) (doc : Doc)
    (name position squad : String) (birthdate : Option Date)
    (contact : Option String) (shirt_number : Option Int)
    (af_porto_id photo_url : Option String) (mf : Option Amount) (mp : Bool)
    (kf : Option Amount) (kp : Bool) (active : Int) (doc2 : Doc) (p : Player)
    (hact : doc.active_season_id = some active)
    (hnd : IdsNodup (fun r => r.id) doc.revenues)
    (hcall : addPlayer today doc name position squad birthdate contact
      shirt_number af_porto_id photo_url mf mp kf kp = (doc2, Except.ok p)) :
    YouthKindInv doc2 p.squad p.youth_monthly_paid p.youth_monthly_fee
      p.youth_monthly_revenue_id YOUTH_MONTHLY_SOURCE ∧
    YouthKindInv doc2 p.squad p.youth_kit_paid p.youth_kit_fee
      p.youth_kit_revenue_id YOUTH_KIT_SOURCE := by
  simp only [addPlayer, hact] at hcall
  split at hcall
  all_goals try exact Except.noConfusion (congrArg Prod.snd hcall)
  all_goals try split at hcall
  all_goals try exact Except.noConfusion (congrArg Prod.snd hcall)
  all_goals try split at hcall
  all_goals try exact Except.noConfusion (congrArg Prod.snd hcall)
  all_goals try split at hcall
  all_goals try exact Except.noConfusion (congrArg Prod.snd hcall)
  all_goals try split at hcall
  all_goals try exact Except.noConfusion (congrArg Prod.snd hcall)
  · rename_i hupd
    rw [Prod.mk.injEq] at hcall
    obtain ⟨hd2, hp2⟩ := hcall
    have hp3 := Except.ok.inj hp2
    subst hd2
    subst hp3
    rw [syncYouthRevenue_players, syncYouthRevenue_players] at hupd
    rcases updateById_spec _ _ _ _ _ _ hupd with ⟨l1, x, l2, e1, e2, e3, e4, e5⟩
    have hfpl : findById (fun q => q.id)
        (nextId (List.map (fun p => p.id) doc.players))
        (doc.players ++ [{ id := nextId (List.map (fun p => p.id) doc.players), name := name, birthdate := birthdate, contact := contact, photo_url := pyOrNone photo_url, season_id := some active, position := position, squad := squad, shirt_number := shirt_number, af_porto_id := af_porto_id, youth_monthly_fee := mf, youth_monthly_paid := mp, youth_kit_fee := kf, youth_kit_paid := kp, youth_monthly_revenue_id := none, youth_kit_revenue_id := none }]) = some { id := nextId (List.map (fun p => p.id) doc.players), name := name, birthdate := birthdate, contact := contact, photo_url := pyOrNone photo_url, season_id := some active, position := position, squad := squad, shirt_number := shirt_number, af_porto_id := af_porto_id, youth_monthly_fee := mf, youth_monthly_paid := mp, youth_kit_fee := kf, youth_kit_paid := kp, youth_monthly_revenue_id := none, youth_kit_revenue_id := none } :=
      findById_prefix_miss _ _ doc.players _ []
        (fun z hz => Int.ne_of_lt (lt_nextId _ _
          (List.mem_map_of_mem (fun p => p.id) hz))) rfl
    have hfx : findById (fun q => q.id)
        (nextId (List.map (fun p => p.id) doc.players))
        (doc.players ++ [{ id := nextId (List.map (fun p => p.id) doc.players), name := name, birthdate := birthdate, contact := contact, photo_url := pyOrNone photo_url, season_id := some active, position := position, squad := squad, shirt_number := shirt_number, af_porto_id := af_porto_id, youth_monthly_fee := mf, youth_monthly_paid := mp, youth_kit_fee := kf, youth_kit_paid := kp, youth_monthly_revenue_id := none, youth_kit_revenue_id := none }]) = some x := by
      rw [show (doc.players ++ [{ id := nextId (List.map (fun p => p.id) doc.players), name := name, birthdate := birthdate, contact := contact, photo_url := pyOrNone photo_url, season_id := some active, position := position, squad := squad, shirt_number := shirt_number, af_porto_id := af_porto_id, youth_monthly_fee := mf, youth_monthly_paid := mp, youth_kit_fee := kf, youth_kit_paid := kp, youth_monthly_revenue_id := none, youth_kit_revenue_id := none }]) = l1 ++ x :: l2 from e1]
      exact findById_prefix_miss (fun q => q.id) _ l1 x l2 e2 e3
    have hxpl := Option.some.inj (hfx.symm.trans hfpl)
    rw [hxpl] at e4
    rw [e4]
    have hy : isYouthSquadStr squad = true := by assumption
    obtain ⟨hA1, hA2, hB1, hB2⟩ := doubleSync_spec today
      ({ doc with active_season_id := some active, players := doc.players ++ [{ id := nextId (List.map (fun p => p.id) doc.players), name := name, birthdate := birthdate, contact := contact, photo_url := pyOrNone photo_url, season_id := some active, position := position, squad := squad, shirt_number := shirt_number, af_porto_id := af_porto_id, youth_monthly_fee := mf, youth_monthly_paid := mp, youth_kit_fee := kf, youth_kit_paid := kp, youth_monthly_revenue_id := none, youth_kit_revenue_id := none }] }) active
      (nextId (List.map (fun p => p.id) doc.players)) name squad
      mf mp none kf kp none hnd (Or.inl rfl) (Or.inl rfl)
      (fun i1 i2 h => Option.noConfusion h)
    by_cases hmc : (!mp || amountBad mf) = true
    · by_cases hkc : (!kp || amountBad kf) = true
      ·
        have hm2v := (hA2 hmc).1
        have hk2v := (hB2 hkc).1
        simp only [hm2v, hk2v, YouthKindInv, FeeEarned]
        refine ⟨⟨?_, ?_⟩, ?_, ?_⟩
        · intro hfe
          obtain ⟨hy2, hpd, a, hfa, hpos⟩ := hfe
          rw [hfa, hpd] at hmc
          simp only [Bool.not_true, Bool.false_or, amountBad] at hmc
          exact absurd (of_decide_eq_true hmc) (not_le.mpr hpos)
        · exact fun _ => trivial
        · intro hfe
          obtain ⟨hy2, hpd, a, hfa, hpos⟩ := hfe
          rw [hfa, hpd] at hkc
          simp only [Bool.not_true, Bool.false_or, amountBad] at hkc
          exact absurd (of_decide_eq_true hkc) (not_le.mpr hpos)
        · exact fun _ => trivial
      ·
        have hm2v := (hA2 hmc).1
        obtain ⟨hkp, ak, hkf, hkbad, hkpos⟩ := successCond_destruct kp kf hkc
        subst hkf
        obtain ⟨ridk, hk2v, hkcnt, hkflds⟩ := hB1 ak rfl hkp hkpos
        simp only [hm2v, hk2v, YouthKindInv, FeeEarned]
        refine ⟨⟨?_, ?_⟩, ?_, ?_⟩
        · intro hfe
          obtain ⟨hy2, hpd, a, hfa, hpos⟩ := hfe
          rw [hfa, hpd] at hmc
          simp only [Bool.not_true, Bool.false_or, amountBad] at hmc
          exact absurd (of_decide_eq_true hmc) (not_le.mpr hpos)
        · exact fun _ => trivial
        · intro hfe
          exact ⟨ridk, rfl, hkcnt, fun r hr hid =>
            ⟨by rw [(hkflds r hr hid).1], (hkflds r hr hid).2.1,
             (hkflds r hr hid).2.2⟩⟩
        · intro hnfe
          exact absurd ⟨hy, hkp, ak, rfl, hkpos⟩ hnfe
    · by_cases hkc : (!kp || amountBad kf) = true
      ·
        obtain ⟨hmp, am, hmf, hmbad, hmpos⟩ := successCond_destruct mp mf hmc
        subst hmf
        obtain ⟨ridm, hm2v, hmcnt, hmflds⟩ := hA1 am rfl hmp hmpos
        have hk2v := (hB2 hkc).1
        simp only [hm2v, hk2v, YouthKindInv, FeeEarned]
        refine ⟨⟨?_, ?_⟩, ?_, ?_⟩
        · intro hfe
          exact ⟨ridm, rfl, hmcnt, fun r hr hid =>
            ⟨by rw [(hmflds r hr hid).1], (hmflds r hr hid).2.1,
             (hmflds r hr hid).2.2⟩⟩
        · intro hnfe
          exact absurd ⟨hy, hmp, am, rfl, hmpos⟩ hnfe
        · intro hfe
          obtain ⟨hy2, hpd, a, hfa, hpos⟩ := hfe
          rw [hfa, hpd] at hkc
          simp only [Bool.not_true, Bool.false_or, amountBad] at hkc
          exact absurd (of_decide_eq_true hkc) (not_le.mpr hpos)
        · exact fun _ => trivial
      ·
        obtain ⟨hmp, am, hmf, hmbad, hmpos⟩ := successCond_destruct mp mf hmc
        subst hmf
        obtain ⟨ridm, hm2v, hmcnt, hmflds⟩ := hA1 am rfl hmp hmpos
        obtain ⟨hkp, ak, hkf, hkbad, hkpos⟩ := successCond_destruct kp kf hkc
        subst hkf
        obtain ⟨ridk, hk2v, hkcnt, hkflds⟩ := hB1 ak rfl hkp hkpos
        simp only [hm2v, hk2v, YouthKindInv, FeeEarned]
        refine ⟨⟨?_, ?_⟩, ?_, ?_⟩
        · intro hfe
          exact ⟨ridm, rfl, hmcnt, fun r hr hid =>
            ⟨by rw [(hmflds r hr hid).1], (hmflds r hr hid).2.1,
             (hmflds r hr hid).2.2⟩⟩
        · intro hnfe
          exact absurd ⟨hy, hmp, am, rfl, hmpos⟩ hnfe
        · intro hfe
          exact ⟨ridk, rfl, hkcnt, fun r hr hid =>
            ⟨by rw [(hkflds r hr hid).1], (hkflds r hr hid).2.1,
             (hkflds r hr hid).2.2⟩⟩
        · intro hnfe
          exact absurd ⟨hy, hkp, ak, rfl, hkpos⟩ hnfe
  · rename_i hor
    rw [Prod.mk.injEq] at hcall
    obtain ⟨hd2, hp2⟩ := hcall
    have hp3 := Except.ok.inj hp2
    subst hd2
    subst hp3
    have hm2v := opt_none_of_or_false_left hor
    have hk2v := opt_none_of_or_false_right hor
    have hy : isYouthSquadStr squad = true := by assumption
    obtain ⟨hA1, hA2, hB1, hB2⟩ := doubleSync_spec today
      ({ doc with active_season_id := some active, players := doc.players ++ [{ id := nextId (List.map (fun p => p.id) doc.players), name := name, birthdate := birthdate, contact := contact, photo_url := pyOrNone photo_url, season_id := some active, position := position, squad := squad, shirt_number := shirt_number, af_porto_id := af_porto_id, youth_monthly_fee := mf, youth_monthly_paid := mp, youth_kit_fee := kf, youth_kit_paid := kp, youth_monthly_revenue_id := none, youth_kit_revenue_id := none }] }) active
      (nextId (List.map (fun p => p.id) doc.players)) name squad
      mf mp none kf kp none hnd (Or.inl rfl) (Or.inl rfl)
      (fun i1 i2 h => Option.noConfusion h)
    simp only [YouthKindInv, FeeEarned]
    refine ⟨⟨?_, ?_⟩, ?_, ?_⟩
    · intro hfe
      obtain ⟨hy2, hpd, a, hfa, hpos⟩ := hfe
      obtain ⟨rid, hm2, -, -⟩ := hA1 a hfa hpd hpos
      exact Option.noConfusion (hm2v.symm.trans hm2)
    · exact fun _ => trivial
    · intro hfe
      obtain ⟨hy2, hpd, a, hfa, hpos⟩ := hfe
      obtain ⟨rid, hk2, -, -⟩ := hB1 a hfa hpd hpos
      exact Option.noConfusion (hk2v.symm.trans hk2)
    · exact fun _ => trivial
  · rw [Prod.mk.injEq] at hcall
    obtain ⟨hd2, hp2⟩ := hcall
    have hp3 := Except.ok.inj hp2
    subst hd2
    subst hp3
    simp only [YouthKindInv, FeeEarned]
    refine ⟨⟨?_, ?_⟩, ?_, ?_⟩
    · intro hfe
      exact absurd hfe.1 (by assumption)
    · exact fun _ => trivial
    · intro hfe
      exact absurd hfe.1 (by assumption)
    · exact fun _ => trivial

/-- C1: youth fee synchronization invariant — after a successful `add_player`
or `update_player` call (on a document with an active season and unique
revenue ids; for updates, with the stored player's revenue links
well-formed), for each fee kind independently: if the stored player's squad
is a youth squad, the paid flag is set and the fee amount positive, the
player's revenue link references exactly one existing revenue record whose
amount equals the fee and whose category and source are the fixed youth
sentinel labels; otherwise the link is null, and for `update_player` any
previously linked revenue record is deleted. -/
theorem c1_youth_fee_sync :
    (∀ (today : Date) (doc : Doc) (name position squad : String)
        (birthdate : Option Date) (contact : Option String)
        (shirt_number : Option Int) (af_porto_id photo_url : Option String)
        (mf : Option Amount) (mp : Bool) (kf : Option Amount) (kp : Bool)
        (active : Int) (doc2 : Doc) (p : Player),
      doc.active_season_id = some active →
      IdsNodup (fun r => r.id) doc.revenues →
      addPlayer today doc name position squad birthdate contact shirt_number
        af_porto_id photo_url mf mp kf kp = (doc2, Except.ok p) →
      YouthKindInv doc2 p.squad p.youth_monthly_paid p.youth_monthly_fee
        p.youth_monthly_revenue_id YOUTH_MONTHLY_SOURCE ∧
      YouthKindInv doc2 p.squad p.youth_kit_paid p.youth_kit_fee
        p.youth_kit_revenue_id YOUTH_KIT_SOURCE) ∧
    (∀ (today : Date) (doc : Doc) (player_id : Int)
        (name position squad : Option String) (birthdate : Option Date)
        (contact : Option String) (shirt_number : Option Int)
        (af_porto_id photo_url : Option (Option String))
        (mf : Option (Option Amount)) (mp : Option Bool)
        (kf : Option (Option Amount)) (kp : Option Bool)
        (active : Int) (record : Player) (doc2 : Doc) (p : Player),
      doc.active_season_id = some active →
      IdsNodup (fun r => r.id) doc.revenues →
      findById (fun q => q.id) player_id doc.players = some record →
      PlayerLinksWf doc record →
      updatePlayer today doc player_id name position squad birthdate contact
        shirt_number af_porto_id photo_url mf mp kf kp =
          (doc2, Except.ok p) →
      (YouthKindInv doc2 p.squad p.youth_monthly_paid p.youth_monthly_fee
        p.youth_monthly_revenue_id YOUTH_MONTHLY_SOURCE ∧
       YouthKindInv doc2 p.squad p.youth_kit_paid p.youth_kit_fee
         p.youth_kit_revenue_id YOUTH_KIT_SOURCE) ∧
      (¬FeeEarned p.squad p.youth_monthly_paid p.youth_monthly_fee →
        ∀ rid r0, record.youth_monthly_revenue_id = some rid →
          r0 ∈ doc.revenues → r0.id = rid → r0 ∉ doc2.revenues) ∧
      (¬FeeEarned p.squad p.youth_kit_paid p.youth_kit_fee →
        ∀ rid r0, record.youth_kit_revenue_id = some rid →
          r0 ∈ doc.revenues → r0.id = rid → r0 ∉ doc2.revenues)) :=
  ⟨fun today doc name position squad bd ct sn ap pu mf mp kf kp active d2 p
      hact hnd hcall =>
    youthInv_addPlayer today doc name position squad bd ct sn ap pu mf mp
      kf kp active d2 p hact hnd hcall,
   fun today doc pid name position squad bd ct sn ap pu mf mp kf kp active
      record d2 p hact hnd hrec hwf hcall =>
    youthInv_updatePlayer today doc pid name position squad bd ct sn ap pu
      mf mp kf kp active record d2 p hact hnd hrec hwf hcall⟩

/-- The spec's own example instantiating C1: creating a youth player with
`monthly_paid = true, monthly_fee = 50` yields exactly one youth revenue of
amount 50; clearing the paid flag afterwards removes that revenue and the
link. -/
theorem c1_youth_fee_sync_witness :
    (addPlayer exToday c1doc "João" "GR" "juvenis" none none none none none
        (some 50) true none false = (c1doc2, Except.ok c1player) ∧
      YouthKindInv c1doc2 c1player.squad c1player.youth_monthly_paid
        c1player.youth_monthly_fee c1player.youth_monthly_revenue_id
        YOUTH_MONTHLY_SOURCE) ∧
    (updatePlayer exToday c1doc2 1 none none none none none none none none
        none (some false) none none = (c1doc3, Except.ok c1player2) ∧
      YouthKindInv c1doc3 c1player2.squad c1player2.youth_monthly_paid
        c1player2.youth_monthly_fee c1player2.youth_monthly_revenue_id
        YOUTH_MONTHLY_SOURCE ∧
      c1rev ∉ c1doc3.revenues) := by
  have hwf : PlayerLinksWf c1doc2 c1player := by
    refine ⟨?_, ?_, ?_⟩
    · intro rid h
      have h2 : (1 : Int) = rid := Option.some.inj h
      exact ⟨c1rev, List.mem_singleton.mpr rfl, h2 ▸ rfl, rfl⟩
    · intro rid h
      exact Option.noConfusion h
    · intro i1 i2 h1 h2
      exact Option.noConfusion h2
  have hadd : addPlayer exToday c1doc "João" "GR" "juvenis" none none none
      none none (some 50) true none false = (c1doc2, Except.ok c1player) := by
    decide
  have hupd : updatePlayer exToday c1doc2 1 none none none none none none
      none none none (some false) none none =
      (c1doc3, Except.ok c1player2) := by
    decide
  refine ⟨⟨hadd, ?_⟩, hupd, ?_, ?_⟩
  · exact (c1_youth_fee_sync.1 exToday c1doc "João" "GR" "juvenis" none none
      none none none (some 50) true none false 1 c1doc2 c1player rfl
      (by unfold IdsNodup; decide) hadd).1
  · exact ((c1_youth_fee_sync.2 exToday c1doc2 1 none none none none none
      none none none none (some false) none none 1 c1player c1doc3
      c1player2 rfl (by unfold IdsNodup; decide) (by decide) hwf hupd).1).1
  · exact (c1_youth_fee_sync.2 exToday c1doc2 1 none none none none none
      none none none none (some false) none none 1 c1player c1doc3
      c1player2 rfl (by unfold IdsNodup; decide) (by decide) hwf hupd).2.1
      (fun hfe => absurd hfe.2.1 (by decide)) 1 c1rev rfl
      (List.mem_singleton.mpr rfl) rfl

end Club
